import Mathlib

/-!
# Chain parameters of the NIX node (`src/chainparams.cpp`)

A shallow embedding of `chainparams.cpp`: the genesis block (`CreateGenesisBlock`), the
block-reward schedule (`GetInitialRewards`, `CChainParams::GetProofOfStakeReward`), the three
parameter sets (`CMainParams`, `CTestNetParams`, `CRegTestParams`), the command-line
overrides of the regression-test chain
(`CRegTestParams::UpdateActivationParametersFromArgs`) and the registry
(`CreateChainParams`, `SelectParams`, `Params`).

Conventions of the embedding.

* C++ `int`, `int64_t` and `CAmount` values are mathematical integers (`Int`), and the
  width of the C++ type is written out where an operation can leave it.
* A function of the source that can throw, fail an `assert`, or run into undefined
  behaviour (division by zero, an out-of-range shift, signed overflow) returns `Result α`,
  an `Except` over `Fault`.
* `GetProofOfStakeReward` checks the result of every arithmetic operation
  against the width of its C++ type (`checked32`, `checked64`): a result out of range is
  the fault `undefined "signed overflow"`.  `GetInitialRewards` is written over the
  integers; `GetInitialRewardsChecked` is the same function with every operation checked,
  and the two agree on every height of an `int` that is not negative
  (`GetInitialRewardsChecked_eq`).
* `LogPrintf` calls only write to the debug log and are left out.
* `strprintf` with `%s` is string concatenation and with `%ld` the decimal numeral.
-/

namespace Nix

/-! ## Faults and C++ integer operators -/

/-- The ways in which the code stops without a value. -/
inductive Fault where
  /-- A thrown `std::runtime_error` carrying its `what()` text. -/
  | runtime_error (what : String)
  /-- A failed `assert(...)`, named by the asserted expression. -/
  | assertion (expr : String)
  /-- An operation whose behaviour the language leaves undefined. -/
  | undefined (what : String)
  deriving DecidableEq, Repr

/-- Results of code that may stop with a `Fault`. -/
abbrev Result (α : Type) := Except Fault α

deriving instance DecidableEq for Except

/-- C++ `a / b` on signed integers: the quotient truncated toward zero; dividing by zero
is undefined. -/
def cdiv (a b : Int) : Result Int :=
  if b = 0 then .error (.undefined "division by zero") else .ok (Int.tdiv a b)

/-- C++ `a >>= n` on a 64-bit signed `a`: an arithmetic shift, defined only for a shift
count `0 ≤ n < 64`. -/
def shr64 (a n : Int) : Result Int :=
  if 0 ≤ n ∧ n < 64 then .ok (a >>> n.toNat) else .error (.undefined "shift count out of range")

/-- Modelled from the spec: `amount.h` is not among the sources; `COIN`, the number of
base units in one coin, is 100,000,000. -/
def COIN : Int := 100000000

/-! ## Consensus parameters (`Consensus::Params`, as used by `chainparams.cpp`) -/

namespace Consensus

/-- One version-bits deployment window, `Consensus::BIP9Deployment`. -/
structure BIP9Deployment where
  bit : Int
  nStartTime : Int
  nTimeout : Int
  deriving DecidableEq, Repr, Inhabited

/-- The constant `Consensus::BIP9Deployment::NO_TIMEOUT`, the largest `int64_t`. -/
def BIP9Deployment.NO_TIMEOUT : Int := 9223372036854775807

/-- The index `Consensus::DEPLOYMENT_TESTDUMMY` of the deployment array. -/
def DEPLOYMENT_TESTDUMMY : Nat := 0

/-- The fields of `Consensus::Params` that `chainparams.cpp` assigns.  256-bit hashes are
natural numbers; `vDeployments` is the deployment array, read at the indices below
`MAX_VERSION_BITS_DEPLOYMENTS`. -/
structure Params where
  hashGenesisBlock : Nat
  nSubsidyHalvingInterval : Int
  BIP34Height : Int
  BIP34Hash : Nat
  BIP65Height : Int
  BIP66Height : Int
  CSVHeight : Int
  SegwitHeight : Int
  MinBIP9WarningHeight : Int
  powLimit : Nat
  nPowTargetSpacing : Int
  nPowTargetTimespan : Int
  fPowAllowMinDifficultyBlocks : Bool
  fPowNoRetargeting : Bool
  nRuleChangeActivationThreshold : Int
  nMinerConfirmationWindow : Int
  vDeployments : Nat → BIP9Deployment
  nMinimumChainWork : Nat
  defaultAssumeValid : Nat
  nGhostnodeMinimumConfirmations : Int
  nGhostnodePaymentsStartBlock : Int
  nGhostnodeInitialize : Int
  nPosTimeActivation : Int
  nPosHeightActivate : Int
  nCoinMaturityReductionHeight : Int
  nStartGhostFeeDistribution : Int
  nGhostFeeDistributionCycle : Int
  nZerocoinDisableBlock : Int
  nSigmaStartBlock : Int
  nNewDevelopmentPayoutCycleStartHeight : Int
  nNewDevelopmentPayoutCycle : Int
  nStartWitnessLposContracts : Int
  deriving Inhabited

end Consensus

/-! ## Blocks and transactions, as far as `CreateGenesisBlock` touches them -/

/-- A script, as its bytes. -/
abbrev CScript := List Nat

structure COutPoint where
  hash : Nat
  n : Nat
  deriving DecidableEq, Repr, Inhabited

structure CTxIn where
  prevout : COutPoint
  scriptSig : CScript
  nSequence : Nat
  deriving DecidableEq, Repr, Inhabited

structure CTxOut where
  nValue : Int
  scriptPubKey : CScript
  deriving DecidableEq, Repr, Inhabited

/-- The fields shared by `CMutableTransaction` and the `CTransaction` made from it. -/
structure CMutableTransaction where
  nVersion : Int
  vin : List CTxIn
  vout : List CTxOut
  nLockTime : Nat
  deriving DecidableEq, Repr, Inhabited

structure CBlock where
  nVersion : Int
  hashPrevBlock : Nat
  hashMerkleRoot : Nat
  nTime : Nat
  nBits : Nat
  nNonce : Nat
  vtx : List CMutableTransaction
  deriving DecidableEq, Repr, Inhabited

/-- The fields and member functions of `CBlockIndex` read by the reward computation. -/
structure CBlockIndex where
  nHeight : Int
  nMoneySupply : Int
  /-- The value of the member function `IsProofOfStake()`. -/
  IsProofOfStake : Bool
  deriving DecidableEq, Repr, Inhabited

/-! ## Chain parameters (`CChainParams`) -/

/-- The index type of `base58Prefixes`. -/
inductive Base58Type where
  | PUBKEY_ADDRESS | SCRIPT_ADDRESS | SECRET_KEY | EXT_PUBLIC_KEY | EXT_SECRET_KEY
  deriving DecidableEq, Repr, Inhabited

/-- The members of `CChainParams` that `chainparams.cpp` assigns, except the fixed seed
table (`chainparamsseeds.h`) and the transaction statistics `chainTxData` (which hold a
floating-point rate); no function of this file reads those two.  `nCoinYearReward` is never
assigned in this file and keeps the value of the newly constructed object. -/
structure CChainParams where
  strNetworkID : String
  consensus : Consensus.Params
  pchMessageStart : List Nat
  nDefaultPort : Int
  nPruneAfterHeight : Int
  m_assumed_blockchain_size : Int
  m_assumed_chain_state_size : Int
  genesis : CBlock
  vSeeds : List String
  base58Prefixes : Base58Type → List Nat
  bech32_hrp : String
  fDefaultConsistencyChecks : Bool
  fRequireStandard : Bool
  m_is_test_chain : Bool
  m_is_mockable_chain : Bool
  checkpointData : List (Int × Nat)
  nModifierInterval : Int
  nTargetSpacing : Int
  nTargetTimespan : Int
  nCoinYearReward : Int
  nMaxTipAge : Int
  nPoolMaxTransactions : Int
  nFulfilledRequestExpireTime : Int
  deriving Inhabited

/-! ## What the code takes from headers and libraries outside `chainparams.cpp` -/

/-- The command-line arguments, through the three `ArgsManager` members the code calls. -/
structure ArgsManager where
  IsArgSet : String → Bool
  /-- The overload `GetArg(name, int64_t default)`. -/
  GetArg : String → Int → Int
  GetArgs : String → List String

/-- The text-handling declarations that `chainparams.cpp` takes from other files of the
repository; every definition below that depends on one of them takes the record as its
first argument. -/
structure Externals where
  /-- The function `ParseInt64(str, &out)`: `some n` when it returns true with `out = n`. -/
  ParseInt64 : String → Option Int
  /-- The `name` column of the table `VersionBitsDeploymentInfo`, which has
  `MAX_VERSION_BITS_DEPLOYMENTS` rows. -/
  VersionBitsDeploymentInfo : List String

/-- The block-handling declarations that `chainparams.cpp` takes from other files of the
repository. -/
structure Primitives where
  /-- The member function `CBlockHeader::GetHash`. -/
  GetHash : CBlock → Nat
  BlockMerkleRoot : CBlock → Nat
  /-- A default-constructed `CMutableTransaction`. -/
  newTx : CMutableTransaction
  /-- The element that `vin.resize(1)` appends. -/
  newTxIn : CTxIn
  /-- The element that `vout.resize(1)` appends. -/
  newTxOut : CTxOut
  /-- A default-constructed `CBlock`. -/
  newBlock : CBlock
  /-- The operator `CScript << int64_t`. -/
  pushInt64 : CScript → Int → CScript
  /-- The operator `CScript << CScriptNum`. -/
  pushScriptNum : CScript → Int → CScript
  /-- The operator `CScript << std::vector<unsigned char>`. -/
  pushData : CScript → List Nat → CScript
  /-- A `CChainParams` object as its constructor body finds it. -/
  newChainParams : CChainParams

/-- The length of the deployment array and of the deployment table. -/
def MAX_VERSION_BITS_DEPLOYMENTS (ext : Externals) : Nat := ext.VersionBitsDeploymentInfo.length

/-- The largest `int`, `std::numeric_limits<int>::max()`. -/
def INT_MAX : Int := 2147483647

/-- Modelled from the spec: `chainparamsbase.h` is not among the sources; the network
identifier of the regression-test chain is "regtest". -/
def CBaseChainParams.REGTEST : String := "regtest"

/-- Modelled from the spec: `ParseInt64` of `util/strencodings` is not among the sources;
the fields of an override are "signed 64-bit integers": a decimal numeral with an optional
sign whose value lies between -2^63 and 2^63 - 1. -/
def ParseInt64 (str : String) : Option Int :=
  let signed : Bool × List Char :=
    match str.data with
    | '-' :: ds => (true, ds)
    | '+' :: ds => (false, ds)
    | ds => (false, ds)
  let digits := signed.2
  if digits.isEmpty || !digits.all Char.isDigit then none
  else
    let n : Int := digits.foldl (fun acc c => 10 * acc + ((c.toNat : Int) - 48)) 0
    let v := if signed.1 then -n else n
    if -9223372036854775808 ≤ v ∧ v ≤ 9223372036854775807 then some v else none

/-- Modelled from the spec: `versionbitsinfo.cpp` is not among the sources; the catalog of
deployment names holds "testdummy", the one deployment the three constructors set. -/
def VersionBitsDeploymentInfo : List String := ["testdummy"]

/-- The externals with the two models above. -/
def knownExternals : Externals :=
  { ParseInt64 := ParseInt64, VersionBitsDeploymentInfo := VersionBitsDeploymentInfo }

/-! ## Library functions on strings -/

/-- The predicate `boost::is_any_of(set)`. -/
def is_any_of (set : String) (c : Char) : Bool := set.data.contains c

/-- The fields of a character sequence cut at every character satisfying `pred`; two
separators in a row enclose an empty field, and a sequence without separator is one field. -/
def splitChars (pred : Char → Bool) : List Char → List (List Char)
  | [] => [[]]
  | c :: cs =>
    if pred c then [] :: splitChars pred cs
    else
      match splitChars pred cs with
      | [] => [[c]]
      | t :: ts => (c :: t) :: ts

/-- The call `boost::split(result, input, pred)` (token compression off), returning
`result`. -/
def boost_split (input : String) (pred : Char → Bool) : List String :=
  (splitChars pred input.data).map String.mk

/-! ## Genesis block -/

/-- The call `v.resize(n)` on a vector: cut to `n` elements, or filled up to `n` with `fill`. -/
def resize {α : Type} (v : List α) (n : Nat) (fill : α) : List α :=
  (v ++ List.replicate (n - v.length) fill).take n

/-- The assignment `v[i] = f (v[i])` on a vector. -/
def assignAt {α : Type} (v : List α) (i : Nat) (f : α → α) : List α :=
  match v, i with
  | [], _ => []
  | a :: rest, 0 => f a :: rest
  | a :: rest, i + 1 => a :: assignAt rest i f

/-- The bytes of a C string. -/
def bytesOf (s : String) : List Nat := s.data.map Char.toNat

/-- `CreateGenesisBlock` with a timestamp text and an output script (lines 22-41). -/
def CreateGenesisBlock (ext : Primitives) (pszTimestamp : String) (genesisOutputScript : CScript)
    (nTime nNonce nBits : Nat) (nVersion : Int) (genesisReward : Int) : CBlock :=
  let txNew := ext.newTx
  let txNew := { txNew with nVersion := 1 }
  let txNew := { txNew with vin := resize txNew.vin 1 ext.newTxIn }
  let txNew := { txNew with vout := resize txNew.vout 1 ext.newTxOut }
  let scriptSig :=
    ext.pushData (ext.pushScriptNum (ext.pushInt64 [] nBits) 4) (bytesOf pszTimestamp)
  let txNew := { txNew with vin := assignAt txNew.vin 0 fun i => { i with scriptSig := scriptSig } }
  let txNew :=
    { txNew with vout := assignAt txNew.vout 0 fun o => { o with nValue := genesisReward } }
  let txNew :=
    { txNew with
      vout := assignAt txNew.vout 0 fun o => { o with scriptPubKey := genesisOutputScript } }
  let genesis := ext.newBlock
  let genesis := { genesis with nTime := nTime }
  let genesis := { genesis with nBits := nBits }
  let genesis := { genesis with nNonce := nNonce }
  let genesis := { genesis with nVersion := nVersion }
  let genesis := { genesis with vtx := genesis.vtx ++ [txNew] }
  let genesis := { genesis with hashPrevBlock := 0 }
  let genesis := { genesis with hashMerkleRoot := ext.BlockMerkleRoot genesis }
  genesis

/-- `CreateGenesisBlock` with the fixed timestamp text and the empty output script
(lines 54-59). -/
def CreateGenesisBlock' (ext : Primitives) (nTime nNonce nBits : Nat) (nVersion : Int)
    (genesisReward : Int) : CBlock :=
  let pszTimestamp := "SEC declares Bitcoin a non security 06/07/2018"
  let genesisOutputScript : CScript := []
  CreateGenesisBlock ext pszTimestamp genesisOutputScript nTime nNonce nBits nVersion genesisReward

/-! ## The initial (proof-of-work era) reward -/

/-- `GetInitialRewards` (lines 61-80). -/
def GetInitialRewards (nHeight : Int) (consensusParams : Consensus.Params) : Result Int := do
  let halvings ← cdiv nHeight consensusParams.nSubsidyHalvingInterval
  -- Force block reward to zero when right shift is undefined.
  if halvings ≥ 64 then
    return 0
  let nSubsidy : Int := 64 * COIN
  let nSubsidy ← shr64 nSubsidy halvings
  let nSubsidy := if nHeight = 1 then 38000000 * COIN else nSubsidy
  let nSubsidy := if nSubsidy < 1 * COIN then 1 * COIN else nSubsidy
  return nSubsidy

/-! ## The regression-test parameters -/

/-- `CRegTestParams::UpdateVersionBitsParameters` (lines 454-458), on the `consensus`
member. -/
def UpdateVersionBitsParameters (consensus : Consensus.Params) (d : Nat)
    (nStartTime nTimeout : Int) : Consensus.Params :=
  let consensus :=
    { consensus with
      vDeployments := Function.update consensus.vDeployments d
        { consensus.vDeployments d with nStartTime := nStartTime } }
  let consensus :=
    { consensus with
      vDeployments := Function.update consensus.vDeployments d
        { consensus.vDeployments d with nTimeout := nTimeout } }
  consensus

/-- The loop over `j` (lines 491-498), entered at index `j` with the rows `names` of the
table still ahead: the rules after the loop, and `found`. -/
def deploymentLoop (name : String) (nStartTime nTimeout : Int) :
    List String → Nat → Consensus.Params → Consensus.Params × Bool
  | [], _, consensus => (consensus, false)
  | n :: names, j, consensus =>
    if name = n then (UpdateVersionBitsParameters consensus j nStartTime nTimeout, true)
    else deploymentLoop name nStartTime nTimeout names (j + 1) consensus

/-- The body of the loop over the `-vbparams` values (lines 478-501). -/
def vbparamsBody (ext : Externals) (strDeployment : String) (consensus : Consensus.Params) :
    Result Consensus.Params := do
  let vDeploymentParams := boost_split strDeployment (is_any_of ":")
  if vDeploymentParams.length ≠ 3 then
    throw (.runtime_error "Version bits parameters malformed, expecting deployment:start:end")
  let nStartTime ←
    match ext.ParseInt64 (vDeploymentParams.getD 1 "") with
    | some v => pure v
    | none =>
      throw (.runtime_error ("Invalid nStartTime (" ++ vDeploymentParams.getD 1 "" ++ ")"))
  let nTimeout ←
    match ext.ParseInt64 (vDeploymentParams.getD 2 "") with
    | some v => pure v
    | none =>
      throw (.runtime_error ("Invalid nTimeout (" ++ vDeploymentParams.getD 2 "" ++ ")"))
  let (consensus, found) :=
    deploymentLoop (vDeploymentParams.getD 0 "") nStartTime nTimeout
      ext.VersionBitsDeploymentInfo 0 consensus
  if !found then
    throw (.runtime_error ("Invalid deployment (" ++ vDeploymentParams.getD 0 "" ++ ")"))
  return consensus

/-- The loop over the `-vbparams` values (lines 477-502). -/
def vbparamsLoop (ext : Externals) : List String → Consensus.Params → Result Consensus.Params
  | [], consensus => .ok consensus
  | strDeployment :: rest, consensus => do
    let consensus ← vbparamsBody ext strDeployment consensus
    vbparamsLoop ext rest consensus

/-- `CRegTestParams::UpdateActivationParametersFromArgs` (lines 462-503), on the `consensus`
member; `gArgs` is the global argument manager and `args` the parameter. -/
def UpdateActivationParametersFromArgs (ext : Externals) (gArgs args : ArgsManager)
    (consensus : Consensus.Params) : Result Consensus.Params := do
  let consensus ←
    if gArgs.IsArgSet "-segwitheight" then do
      let height := gArgs.GetArg "-segwitheight" consensus.SegwitHeight
      if height < -1 ∨ height ≥ INT_MAX then
        throw (.runtime_error ("Activation height " ++ toString height ++
          " for segwit is out of valid range. Use -1 to disable segwit."))
      let height := if height = -1 then INT_MAX else height
      pure { consensus with SegwitHeight := height }
    else
      pure consensus
  if !args.IsArgSet "-vbparams" then
    return consensus
  vbparamsLoop ext (args.GetArgs "-vbparams") consensus

/-- The constructor `CRegTestParams` up to its call of `UpdateActivationParametersFromArgs`
(lines 352-413). -/
def CRegTestParams.beforeArgs (prim : Primitives) : CChainParams :=
  let self := prim.newChainParams
  let self := { self with strNetworkID := CBaseChainParams.REGTEST }
  let consensus : Consensus.Params :=
    { self.consensus with
      nSubsidyHalvingInterval := 1050000
      BIP34Height := 1
      BIP34Hash := 0
      BIP65Height := 0
      BIP66Height := 0
      CSVHeight := 6
      SegwitHeight := 6
      MinBIP9WarningHeight := 150
      powLimit := 0x7fffffffffffffffffffffffffffffffffffffffffffffffffffffffffffffff
      nPowTargetTimespan := 14 * 24 * 60 * 60
      nPowTargetSpacing := 10 * 60
      fPowAllowMinDifficultyBlocks := true
      fPowNoRetargeting := true
      nRuleChangeActivationThreshold := 108
      nMinerConfirmationWindow := 144
      vDeployments := Function.update self.consensus.vDeployments Consensus.DEPLOYMENT_TESTDUMMY
        { bit := 28, nStartTime := 0, nTimeout := Consensus.BIP9Deployment.NO_TIMEOUT }
      nGhostnodePaymentsStartBlock := 9999
      nGhostnodeInitialize := 9999
      nPosTimeActivation := 9999999999
      nPosHeightActivate := 220 }
  let self := { self with consensus := consensus }
  let self :=
    { self with
      nModifierInterval := 10 * 60
      nTargetSpacing := 120
      nTargetTimespan := 24 * 60
      nMaxTipAge := 30 * 60 * 60
      nPoolMaxTransactions := 3
      nFulfilledRequestExpireTime := 60 * 60 }
  let consensus : Consensus.Params :=
    { self.consensus with
      nCoinMaturityReductionHeight := 1
      nStartGhostFeeDistribution := 9999
      nGhostFeeDistributionCycle := 9999
      nStartWitnessLposContracts := 1
      nNewDevelopmentPayoutCycleStartHeight := 9999
      nNewDevelopmentPayoutCycle := 9999
      nZerocoinDisableBlock := 230
      nSigmaStartBlock := 235
      nMinimumChainWork := 0x00
      defaultAssumeValid := 0x00 }
  let self := { self with consensus := consensus }
  { self with
    pchMessageStart := [0xfa, 0xbf, 0xb5, 0xda]
    nDefaultPort := 16215
    nPruneAfterHeight := 1000
    m_assumed_blockchain_size := 0
    m_assumed_chain_state_size := 0 }

/-- The constructor `CRegTestParams(args)` (lines 351-449); `gArgs` is the global argument
manager that `UpdateActivationParametersFromArgs` reads besides `args`. -/
def CRegTestParams (ext : Externals) (prim : Primitives) (gArgs args : ArgsManager) :
    Result CChainParams := do
  let self := CRegTestParams.beforeArgs prim
  let consensus ← UpdateActivationParametersFromArgs ext gArgs args self.consensus
  let self := { self with consensus := consensus }
  let self :=
    { self with genesis := CreateGenesisBlock' prim 1522615406 1119233 0x1e0ffff0 1 (0 * COIN) }
  let self :=
    { self with consensus := { self.consensus with hashGenesisBlock := prim.GetHash self.genesis } }
  if self.consensus.hashGenesisBlock ≠
      0xdd28ad86def767c3cfc34267a950d871fc7462bc57ea4a929fc3596d9b598e41 then
    throw (.assertion "consensus.hashGenesisBlock == uint256S(...)")
  if self.genesis.hashMerkleRoot ≠
      0x06c118557a3a44b144a31c9f3a967bd94f94e0d7ff666d30587360f695f0873d then
    throw (.assertion "genesis.hashMerkleRoot == uint256S(...)")
  let self := { self with vSeeds := [] }
  let self :=
    { self with
      fDefaultConsistencyChecks := true
      fRequireStandard := true
      m_is_test_chain := true
      m_is_mockable_chain := true }
  let self :=
    { self with
      checkpointData :=
        [(0, 0xe734db844dfe5a7a06ec42a71c0540f723033830be91bb59524b6e9acbd3345b)] }
  let base58Prefixes : Base58Type → List Nat := self.base58Prefixes
  let base58Prefixes := Function.update base58Prefixes Base58Type.PUBKEY_ADDRESS [38]
  let base58Prefixes := Function.update base58Prefixes Base58Type.SCRIPT_ADDRESS [53]
  let base58Prefixes := Function.update base58Prefixes Base58Type.SECRET_KEY [128]
  let base58Prefixes :=
    Function.update base58Prefixes Base58Type.EXT_PUBLIC_KEY [0x04, 0x88, 0xB2, 0x1E]
  let base58Prefixes :=
    Function.update base58Prefixes Base58Type.EXT_SECRET_KEY [0x04, 0x88, 0xAD, 0xE4]
  let self := { self with base58Prefixes := base58Prefixes }
  let self := { self with bech32_hrp := "rnix" }
  return self

/-! ## The main and test network parameters -/

/-- Modelled from the spec: `chainparamsbase.h` is not among the sources; the network
identifier of the main chain is "main". -/
def CBaseChainParams.MAIN : String := "main"

/-- Modelled from the spec: `chainparamsbase.h` is not among the sources; the network
identifier of the test chain is "test". -/
def CBaseChainParams.TESTNET : String := "test"

/-- The constructor `CMainParams` up to the genesis block (lines 108-177). -/
def CMainParams.beforeGenesis (prim : Primitives) : CChainParams :=
  let self := prim.newChainParams
  let self := { self with strNetworkID := CBaseChainParams.MAIN }
  let consensus : Consensus.Params :=
    { self.consensus with
      nSubsidyHalvingInterval := 1050000
      BIP34Height := 1
      BIP34Hash := 0x4a205f5cd00a449e1b5a93343d759fb2fdbfe3de1b77380eeb04942f9d2579a7
      BIP65Height := 0
      BIP66Height := 0
      CSVHeight := 6
      SegwitHeight := 6
      MinBIP9WarningHeight := 8
      powLimit := 0x00000000ffffffffffffffffffffffffffffffffffffffffffffffffffffffff
      nPowTargetSpacing := 120 }
  let consensus : Consensus.Params :=
    { consensus with
      nPowTargetTimespan := consensus.nPowTargetSpacing
      fPowAllowMinDifficultyBlocks := false
      fPowNoRetargeting := false
      nRuleChangeActivationThreshold := 1
      nMinerConfirmationWindow := 2
      vDeployments := Function.update consensus.vDeployments Consensus.DEPLOYMENT_TESTDUMMY
        { bit := 28, nStartTime := 1475020800, nTimeout := 1530415442 }
      nMinimumChainWork := 0x00000000000000000000000000000000000000000000001d880fecdd5e0a8081
      nGhostnodeMinimumConfirmations := 1
      nGhostnodePaymentsStartBlock := 1080
      nGhostnodeInitialize := 800
      nPosTimeActivation := 1536779552
      nPosHeightActivate := 53000 }
  let self := { self with consensus := consensus }
  let self :=
    { self with
      nModifierInterval := 10 * 60
      nTargetSpacing := 120
      nTargetTimespan := 24 * 60 }
  let consensus : Consensus.Params :=
    { self.consensus with
      nCoinMaturityReductionHeight := 97000
      nStartGhostFeeDistribution := 115921
      nGhostFeeDistributionCycle := 720
      nZerocoinDisableBlock := 205200
      nSigmaStartBlock := 232000 }
  let self := { self with consensus := consensus }
  let self :=
    { self with
      nMaxTipAge := 30 * 60 * 60
      nPoolMaxTransactions := 3
      nFulfilledRequestExpireTime := 60 * 60 }
  let consensus : Consensus.Params :=
    { self.consensus with
      nNewDevelopmentPayoutCycleStartHeight := 179281
      nNewDevelopmentPayoutCycle := 720
      nStartWitnessLposContracts := 179281 }
  let self := { self with consensus := consensus }
  { self with
    pchMessageStart := [0xb9, 0xb4, 0xbe, 0xf9]
    nDefaultPort := 6214
    nPruneAfterHeight := 0
    m_assumed_blockchain_size := 1
    m_assumed_chain_state_size := 1 }

/-- The checkpoint table of `CMainParams` (lines 203-226), in the order it is written. -/
def CMainParams.checkpoints : List (Int × Nat) :=
  [ (0, 0xdd28ad86def767c3cfc34267a950d871fc7462bc57ea4a929fc3596d9b598e41),
    (820, 0x9d48684e77bc21913aa4c3ea949bb3019ecb33fe7765c08c97e086345cc5aab2),
    (1238, 0x5f9331a6bee682ee1ce5d98386da83a7ecdae65e18c7c2c5c93c483482c0377e),
    (47800, 0xc450d288e8018faae33c669b0fe2dc2dd1a2aa97ee34e263de8964ce8cc7d549),
    (61880, 0xa26727c13a604e3b039b86688ce50a43a45c4647602c2018d4554285fc57c9dc),
    (63701, 0xda1c14665bc14185a4eecfe965b585d1d05218ee5868eb65b154c35f3cd980bb),
    (73321, 0x22a7173b5a74caa5777ff8b36a56f87c3d393cae6bf3fbadf95a847e6d3e011c),
    (85191, 0x7ac4f433832c436c4e5bd19de7d9275e605e75c08d1d468e97b9ea21fc6e7ae6),
    (108750, 0x22712c14439959794cf3af0340757fa2b746ae06a945e8964264bc4b08d9b6ef),
    (169900, 0x6f8b5e85dbb221143f21ddeb4ac59627def0a5eb889cc9b6809ab739e1f56769),
    (199296, 0x7b874564add8e2008e18dfa4435b2924806b0458123e333c3c11b70ca2540ef1),
    (208017, 0xc1f8a8f9eff6a22caa167fbe5043dca2516b176ecbf138b38f5c580b5f4e0590),
    (224285, 0xd82ac4f8293c821e9b2bb507897b5cb6f5908e043dbb6233401c7b2057cf6d92),
    (230020, 0x1ec28a1f6d91aff087b7bc33d0f25d7abd7733e307d5fa56c92490c4bf6a3535),
    (241413, 0x7e6a4dcd210fb2203f7b3ddd583363030ecf3a6c55bb065a55b40d8e54b76dd2),
    (242323, 0xa2c80af800aec5a950189708206e6e3758e3ed0e594b018cc4f1facb0dae9937),
    (250881, 0xca6caf35853762e01a78d08865f3b95bf7b01bd3bfcb430cfd63e7cc9dc6cc46),
    (314100, 0xc1f2cf024c91c9a285bf3e257e8b69145531a269cc00931f521370249dc3f216),
    (352132, 0xf7ff2887cd97f1278ee13a15271c98c3c26a780ae61b6f11d96979bd70bb7b32),
    (399211, 0x06deb41e2f7230f31ca029a7cfb8a49fb3bd29368963e773afabfff3bbb55d36) ]

/-- The constructor `CMainParams()` (lines 107-234). -/
def CMainParams (prim : Primitives) : Result CChainParams := do
  let self := CMainParams.beforeGenesis prim
  let self :=
    { self with genesis := CreateGenesisBlock' prim 1522615406 1119233 0x1e0ffff0 1 (0 * COIN) }
  let self :=
    { self with consensus := { self.consensus with hashGenesisBlock := prim.GetHash self.genesis } }
  if self.consensus.hashGenesisBlock ≠
      0xdd28ad86def767c3cfc34267a950d871fc7462bc57ea4a929fc3596d9b598e41 then
    throw (.assertion "consensus.hashGenesisBlock == uint256S(...)")
  if self.genesis.hashMerkleRoot ≠
      0x06c118557a3a44b144a31c9f3a967bd94f94e0d7ff666d30587360f695f0873d then
    throw (.assertion "genesis.hashMerkleRoot == uint256S(...)")
  let self := { self with vSeeds := self.vSeeds ++ ["ny.nixplatform.io"] }
  let self := { self with vSeeds := self.vSeeds ++ ["sf.nixplatform.io"] }
  let self := { self with vSeeds := self.vSeeds ++ ["fra.nixplatform.io"] }
  let base58Prefixes : Base58Type → List Nat := self.base58Prefixes
  let base58Prefixes := Function.update base58Prefixes Base58Type.PUBKEY_ADDRESS [38]
  let base58Prefixes := Function.update base58Prefixes Base58Type.SCRIPT_ADDRESS [53]
  let base58Prefixes := Function.update base58Prefixes Base58Type.SECRET_KEY [128]
  let base58Prefixes :=
    Function.update base58Prefixes Base58Type.EXT_PUBLIC_KEY [0x04, 0x88, 0xB2, 0x1E]
  let base58Prefixes :=
    Function.update base58Prefixes Base58Type.EXT_SECRET_KEY [0x04, 0x88, 0xAD, 0xE4]
  let self := { self with base58Prefixes := base58Prefixes }
  let self := { self with bech32_hrp := "nix" }
  let self :=
    { self with
      fDefaultConsistencyChecks := false
      fRequireStandard := true
      m_is_test_chain := false
      m_is_mockable_chain := false }
  let self := { self with checkpointData := CMainParams.checkpoints }
  return self

/-- The constructor `CTestNetParams` up to the genesis block (lines 243-306). -/
def CTestNetParams.beforeGenesis (prim : Primitives) : CChainParams :=
  let self := prim.newChainParams
  let self := { self with strNetworkID := CBaseChainParams.TESTNET }
  let consensus : Consensus.Params :=
    { self.consensus with
      nSubsidyHalvingInterval := 1050000
      BIP34Height := 1
      BIP34Hash := 0xdd28ad86def767c3cfc34267a950d871fc7462bc57ea4a929fc3596d9b598e41
      BIP65Height := 0
      BIP66Height := 0
      CSVHeight := 6
      SegwitHeight := 6
      MinBIP9WarningHeight := 2022
      powLimit := 0x00000fffffffffffffffffffffffffffffffffffffffffffffffffffffffffff
      nPowTargetTimespan := 14 * 24 * 60 * 60
      nPowTargetSpacing := 10 * 60
      fPowAllowMinDifficultyBlocks := true
      fPowNoRetargeting := false
      nRuleChangeActivationThreshold := 1512
      nMinerConfirmationWindow := 2016
      vDeployments := Function.update self.consensus.vDeployments Consensus.DEPLOYMENT_TESTDUMMY
        { bit := 28, nStartTime := 1199145601, nTimeout := 1230767999 }
      nMinimumChainWork := 0x0000000000000000000000000000000000000000000000000000000000100010
      nGhostnodeMinimumConfirmations := 1
      nGhostnodePaymentsStartBlock := 1000
      nGhostnodeInitialize := 950
      nPosTimeActivation := 9999999999
      nPosHeightActivate := 5 }
  let self := { self with consensus := consensus }
  let self :=
    { self with
      nModifierInterval := 10 * 60
      nTargetSpacing := 120
      nTargetTimespan := 24 * 60 }
  let consensus : Consensus.Params :=
    { self.consensus with
      nCoinMaturityReductionHeight := 5
      nStartGhostFeeDistribution := 1000
      nGhostFeeDistributionCycle := 20
      nStartWitnessLposContracts := 1
      nNewDevelopmentPayoutCycleStartHeight := 1
      nNewDevelopmentPayoutCycle := 999999999
      nZerocoinDisableBlock := 6190
      nSigmaStartBlock := 100 }
  let self := { self with consensus := consensus }
  { self with
    nMaxTipAge := 0x7fffffff
    nPoolMaxTransactions := 3
    nFulfilledRequestExpireTime := 5 * 60
    pchMessageStart := [0x0b, 0x11, 0x09, 0x07]
    nDefaultPort := 16214
    nPruneAfterHeight := 1000
    m_assumed_blockchain_size := 40
    m_assumed_chain_state_size := 2 }

/-- The constructor `CTestNetParams()` (lines 242-343). -/
def CTestNetParams (prim : Primitives) : Result CChainParams := do
  let self := CTestNetParams.beforeGenesis prim
  let self :=
    { self with genesis := CreateGenesisBlock' prim 1522615406 1119233 0x1e0ffff0 1 (0 * COIN) }
  let self :=
    { self with consensus := { self.consensus with hashGenesisBlock := prim.GetHash self.genesis } }
  if self.consensus.hashGenesisBlock ≠
      0xdd28ad86def767c3cfc34267a950d871fc7462bc57ea4a929fc3596d9b598e41 then
    throw (.assertion "consensus.hashGenesisBlock == uint256S(...)")
  if self.genesis.hashMerkleRoot ≠
      0x06c118557a3a44b144a31c9f3a967bd94f94e0d7ff666d30587360f695f0873d then
    throw (.assertion "genesis.hashMerkleRoot == uint256S(...)")
  let self := { self with vSeeds := self.vSeeds ++ ["testnet.nixplatform.io"] }
  let base58Prefixes : Base58Type → List Nat := self.base58Prefixes
  let base58Prefixes := Function.update base58Prefixes Base58Type.PUBKEY_ADDRESS [1]
  let base58Prefixes := Function.update base58Prefixes Base58Type.SCRIPT_ADDRESS [3]
  let base58Prefixes := Function.update base58Prefixes Base58Type.SECRET_KEY [128]
  let base58Prefixes :=
    Function.update base58Prefixes Base58Type.EXT_PUBLIC_KEY [0x04, 0x88, 0xB2, 0x1E]
  let base58Prefixes :=
    Function.update base58Prefixes Base58Type.EXT_SECRET_KEY [0x04, 0x88, 0xAD, 0xE4]
  let self := { self with base58Prefixes := base58Prefixes }
  let self := { self with bech32_hrp := "tnix" }
  let self :=
    { self with
      fDefaultConsistencyChecks := false
      fRequireStandard := false
      m_is_test_chain := true
      m_is_mockable_chain := false }
  let self :=
    { self with
      checkpointData :=
        [(0, 0xdd28ad86def767c3cfc34267a950d871fc7462bc57ea4a929fc3596d9b598e41)] }
  return self

/-! ## The registry slot -/

/-- `Params()` (lines 507-510), reading the global `globalChainParams`. -/
def Params (globalChainParams : Option CChainParams) : Result CChainParams :=
  match globalChainParams with
  | none => .error (.assertion "globalChainParams")
  | some p => .ok p

/-- `CreateChainParams` (lines 512-521); the regression-test constructor is given the
global `gArgs`. -/
def CreateChainParams (ext : Externals) (prim : Primitives) (gArgs : ArgsManager)
    (chain : String) : Result CChainParams :=
  if chain = CBaseChainParams.MAIN then
    CMainParams prim
  else if chain = CBaseChainParams.TESTNET then
    CTestNetParams prim
  else if chain = CBaseChainParams.REGTEST then
    CRegTestParams ext prim gArgs gArgs
  else
    throw (.runtime_error ("CreateChainParams" ++ ": Unknown chain " ++ chain ++ "."))

/-- The value of the global `globalChainParams` when the program starts: a null pointer. -/
def globalChainParams₀ : Option CChainParams := none

/-- `SelectParams` (lines 523-527), from the value of `globalChainParams` before the call to
its value after it.  `SelectBaseParams` belongs to `chainparamsbase.cpp` and is a parameter:
it returns, or stops with a fault. -/
def SelectParams (ext : Externals) (prim : Primitives) (gArgs : ArgsManager)
    (SelectBaseParams : String → Result Unit) (network : String)
    (_globalChainParams : Option CChainParams) : Result (Option CChainParams) := do
  SelectBaseParams network
  let created ← CreateChainParams ext prim gArgs network
  return some created

/-! ## The proof-of-stake reward, with every overflow a fault -/

/-- The values of a C++ `int` (32 bits). -/
def fitsInt32 (x : Int) : Prop := -2147483648 ≤ x ∧ x ≤ 2147483647

/-- The values of an `int64_t`. -/
def fitsInt64 (x : Int) : Prop := -9223372036854775808 ≤ x ∧ x ≤ 9223372036854775807

instance (x : Int) : Decidable (fitsInt32 x) := by
  unfold fitsInt32
  infer_instance

instance (x : Int) : Decidable (fitsInt64 x) := by
  unfold fitsInt64
  infer_instance

/-- The result of an `int` operation whose mathematical value is `x`: signed overflow is
undefined. -/
def checked32 (x : Int) : Result Int :=
  if fitsInt32 x then .ok x else .error (.undefined "signed overflow")

/-- The result of an `int64_t` operation whose mathematical value is `x`: signed overflow
is undefined. -/
def checked64 (x : Int) : Result Int :=
  if fitsInt64 x then .ok x else .error (.undefined "signed overflow")

/-- `GetInitialRewards` (lines 61-80) with the result of every arithmetic operation checked
against the width of its C++ type: `halvings` is an `int`, the amounts are `int64_t`. -/
def GetInitialRewardsChecked (nHeight : Int) (consensusParams : Consensus.Params) :
    Result Int := do
  let halvings ← checked32 (← cdiv nHeight consensusParams.nSubsidyHalvingInterval)
  if halvings ≥ 64 then
    return 0
  let nSubsidy ← checked64 (64 * COIN)
  let nSubsidy ← shr64 nSubsidy halvings
  let nSubsidy ← if nHeight = 1 then checked64 (38000000 * COIN) else pure nSubsidy
  let oneCoin ← checked64 (1 * COIN)
  let nSubsidy ← if nSubsidy < oneCoin then checked64 (1 * COIN) else pure nSubsidy
  return nSubsidy

/-- The divisor `365 * 24 * (60 * 60 / nTargetSpacing)` of lines 90, 92 and 96, with every
operation checked: the literals are `int`, and the operations that involve the member
`nTargetSpacing` are checked at 64 bits. -/
def blocksPerYearChecked (nTargetSpacing : Int) : Result Int := do
  let hour ← checked32 (60 * 60)
  let perHour ← checked64 (← cdiv hour nTargetSpacing)
  let year ← checked32 (365 * 24)
  checked64 (year * perHour)

/-- `CChainParams::GetProofOfStakeReward` (lines 83-100), with the result of every
arithmetic operation checked against the width of its C++ type, so that it returns a value
only when `Params()` does not fail its assertion, no division is by zero and no intermediate
value overflows.  `self` is the object the member function is called on,
`globalChainParams` the global that `Params()` reads. -/
def GetProofOfStakeReward (self : CChainParams)
    (globalChainParams : Option CChainParams) (pindexPrev : CBlockIndex) (nFees : Int)
    (allowInitial : Bool) : Result Int := do
  let nSubsidy ←
    if !pindexPrev.IsProofOfStake then do
      let rPrev ←
        GetInitialRewardsChecked pindexPrev.nHeight (← Params globalChainParams).consensus
      let product ← checked64 (pindexPrev.nHeight * rPrev)
      let rOne ← GetInitialRewardsChecked 1 (← Params globalChainParams).consensus
      let nTotal ← checked64 (product + rOne)
      let coins ← checked64 (← cdiv nTotal COIN)
      let rate ← checked32 (5 * 1000000)
      let scaled ← checked64 (coins * rate)
      checked64 (← cdiv scaled (← blocksPerYearChecked self.nTargetSpacing))
    else do
      let coins ← checked64 (← cdiv pindexPrev.nMoneySupply COIN)
      let scaled ← checked64 (coins * self.nCoinYearReward)
      checked64 (← cdiv scaled (← blocksPerYearChecked self.nTargetSpacing))
  let nSubsidy ←
    if allowInitial && pindexPrev.IsProofOfStake then do
      let coins ← checked64 (← cdiv pindexPrev.nMoneySupply COIN)
      let rate ← checked32 (5 * 1000000)
      let scaled ← checked64 (coins * rate)
      checked64 (← cdiv scaled (← blocksPerYearChecked self.nTargetSpacing))
    else
      pure nSubsidy
  checked64 (nSubsidy + nFees)

/-- The translation of `CChainParams::GetProofOfStakeReward` above, under the name that
the statements on the ranges of its intermediate values use. -/
def GetProofOfStakeRewardChecked (self : CChainParams)
    (globalChainParams : Option CChainParams) (pindexPrev : CBlockIndex) (nFees : Int)
    (allowInitial : Bool) : Result Int :=
  GetProofOfStakeReward self globalChainParams pindexPrev nFees allowInitial

/-! ## Definitions used to state the theorems -/

/-- A rule set with the halving interval 1,050,000 of Main, Test and RegTest; the other
fields play no part in `GetInitialRewards`. -/
def rulesWithMainInterval : Consensus.Params :=
  { (default : Consensus.Params) with nSubsidyHalvingInterval := 1050000 }

/-- A parameter set with the target spacing 120 and the halving interval 1,050,000 of Main,
Test and RegTest, and a coin-year reward of `rate`. -/
def paramsWithMainSpacing (rate : Int) : CChainParams :=
  { (default : CChainParams) with
    consensus := rulesWithMainInterval, nTargetSpacing := 120, nCoinYearReward := rate }

/-- Arguments in which only `-vbparams` is given, with the values `values`. -/
def argsWithVbparams (values : List String) : ArgsManager :=
  { IsArgSet := fun name => name == "-vbparams" && !values.isEmpty
    GetArg := fun _ fallback => fallback
    GetArgs := fun name => if name == "-vbparams" then values else [] }

/-- Arguments in which only `-segwitheight` is given, with the value `height`. -/
def argsWithSegwitHeight (height : Int) : ArgsManager :=
  { IsArgSet := fun name => name == "-segwitheight"
    GetArg := fun name fallback => if name == "-segwitheight" then height else fallback
    GetArgs := fun _ => [] }

/-- The genesis block that each of the three constructors builds (lines 179, 308, 417). -/
def genesisOf (prim : Primitives) : CBlock :=
  CreateGenesisBlock' prim 1522615406 1119233 0x1e0ffff0 1 (0 * COIN)

/-- The two assertions that each constructor makes on its genesis block (lines 181-182,
310-311, 419-420). -/
def GenesisAssertionsHold (prim : Primitives) : Prop :=
  prim.GetHash (genesisOf prim) =
      0xdd28ad86def767c3cfc34267a950d871fc7462bc57ea4a929fc3596d9b598e41 ∧
    (genesisOf prim).hashMerkleRoot =
      0x06c118557a3a44b144a31c9f3a967bd94f94e0d7ff666d30587360f695f0873d

/-- Primitives under which the genesis assertions hold, used to exhibit constructions that
succeed: the two hash functions return the asserted constants, new objects are empty and
the script operators append nothing. -/
def samplePrimitives : Primitives :=
  { GetHash := fun _ => 0xdd28ad86def767c3cfc34267a950d871fc7462bc57ea4a929fc3596d9b598e41
    BlockMerkleRoot := fun _ =>
      0x06c118557a3a44b144a31c9f3a967bd94f94e0d7ff666d30587360f695f0873d
    newTx := { nVersion := 2, vin := [], vout := [], nLockTime := 0 }
    newTxIn :=
      { prevout := { hash := 0, n := 0xffffffff }, scriptSig := [], nSequence := 0xffffffff }
    newTxOut := { nValue := -1, scriptPubKey := [] }
    newBlock :=
      { nVersion := 0, hashPrevBlock := 0, hashMerkleRoot := 0, nTime := 0, nBits := 0,
        nNonce := 0, vtx := [] }
    pushInt64 := fun script _ => script
    pushScriptNum := fun script _ => script
    pushData := fun script _ => script
    newChainParams := default }

/-- A `SelectBaseParams` that returns for every name. -/
def sampleSelectBaseParams : String → Result Unit := fun _ => .ok ()

/-- The heights of a checkpoint table, in its order. -/
def checkpointHeights (table : List (Int × Nat)) : List Int := table.map Prod.fst

/-- A deployment window keeps the data-model invariant: its start time is at most its
timeout, unless the timeout is the no-timeout sentinel. -/
def windowWellFormed (w : Consensus.BIP9Deployment) : Prop :=
  w.nStartTime ≤ w.nTimeout ∨ w.nTimeout = Consensus.BIP9Deployment.NO_TIMEOUT

instance (w : Consensus.BIP9Deployment) : Decidable (windowWellFormed w) := by
  unfold windowWellFormed
  infer_instance

/-- The text `part` occurs in the text `whole`. -/
def occursIn (part whole : String) : Prop := part.data <:+: whole.data

instance (part whole : String) : Decidable (occursIn part whole) := by
  unfold occursIn
  infer_instance

/-- The schedule without the height-1 override: 64 coins halved `k` times, never below
one coin. -/
def halvedSubsidy (k : Nat) : Int :=
  if (64 * COIN) >>> k < 1 * COIN then 1 * COIN else (64 * COIN) >>> k

/-! ## Theorems -/

/-! ### The initial reward -/

theorem halvedSubsidy_of_ge_six (k : Nat) (hk : 6 ≤ k) : halvedSubsidy k = COIN := by
  have h2 : (2 : Int) ^ 6 ≤ 2 ^ k := pow_le_pow_right₀ (by norm_num) hk
  have hpos : (0 : Int) < 2 ^ k := by positivity
  have hle : (6400000000 : Int) / 2 ^ k ≤ 100000000 := by
    have : (6400000000 : Int) / 2 ^ k < 100000000 + 1 := by
      rw [Int.ediv_lt_iff_lt_mul hpos]
      nlinarith
    omega
  unfold halvedSubsidy COIN
  simp only [Int.shiftRight_eq_div_pow]
  push_cast
  norm_num
  omega

theorem halvedSubsidy_ge_coin (k : Nat) : COIN ≤ halvedSubsidy k := by
  unfold halvedSubsidy
  split <;> omega

theorem halvedSubsidy_le (k : Nat) : halvedSubsidy k ≤ 64 * COIN := by
  have hpos : (0 : Int) < 2 ^ k := by positivity
  have h1 : (1 : Int) ≤ 2 ^ k := by omega
  have hle : (6400000000 : Int) / 2 ^ k ≤ 6400000000 := by
    apply Int.ediv_le_self
    norm_num
  unfold halvedSubsidy COIN
  simp only [Int.shiftRight_eq_div_pow]
  push_cast
  split <;> omega

theorem halvedSubsidy_antitone {j k : Nat} (hjk : j ≤ k) :
    halvedSubsidy k ≤ halvedSubsidy j := by
  by_cases hk : 6 ≤ k
  · rw [halvedSubsidy_of_ge_six k hk]
    exact halvedSubsidy_ge_coin j
  · have hk6 : k < 6 := by omega
    have hj6 : j < 6 := by omega
    interval_cases k <;> interval_cases j <;> first | omega | decide

/-- What `GetInitialRewards` computes at a non-negative height under a positive halving
interval. -/
theorem GetInitialRewards_eq (h : Int) (p : Consensus.Params)
    (hI : 0 < p.nSubsidyHalvingInterval) (hh : 0 ≤ h) :
    GetInitialRewards h p = .ok
      (if 64 ≤ h / p.nSubsidyHalvingInterval then 0
       else if h = 1 then 38000000 * COIN
       else halvedSubsidy (h / p.nSubsidyHalvingInterval).toNat) := by
  have hne : p.nSubsidyHalvingInterval ≠ 0 := by omega
  have hq : Int.tdiv h p.nSubsidyHalvingInterval = h / p.nSubsidyHalvingInterval :=
    Int.tdiv_eq_ediv hh (by omega)
  have hq0 : 0 ≤ h / p.nSubsidyHalvingInterval := Int.ediv_nonneg hh (by omega)
  unfold GetInitialRewards cdiv shr64
  simp only [hne, if_false, hq]
  by_cases h64 : 64 ≤ h / p.nSubsidyHalvingInterval
  · simp [h64, bind, Except.bind, pure, Except.pure]
  · have hlt : h / p.nSubsidyHalvingInterval < 64 := by omega
    by_cases h1 : h = 1
    · subst h1
      simp [h64, hq0, hlt, bind, Except.bind, pure, Except.pure, COIN]
    · simp [h64, hq0, hlt, h1, bind, Except.bind, pure, Except.pure, halvedSubsidy]

theorem one_ediv_lt_six (I : Int) : (1 : Int) / I < 6 := by
  have : (1 : Int) / I ≤ 1 := Int.ediv_le_self I (by norm_num)
  omega

theorem GetInitialRewards_one (p : Consensus.Params) (hI : 0 < p.nSubsidyHalvingInterval) :
    GetInitialRewards 1 p = .ok (38000000 * COIN) := by
  have h6 := one_ediv_lt_six p.nSubsidyHalvingInterval
  rw [GetInitialRewards_eq 1 p hI (by norm_num)]
  have h64 : ¬ (64 ≤ (1 : Int) / p.nSubsidyHalvingInterval) := by omega
  simp [h64]

theorem GetInitialRewards_nonneg (h : Int) (p : Consensus.Params)
    (hI : 0 < p.nSubsidyHalvingInterval) (hh : 0 ≤ h) :
    ∃ v, GetInitialRewards h p = .ok v ∧ 0 ≤ v := by
  refine ⟨_, GetInitialRewards_eq h p hI hh, ?_⟩
  split
  · exact le_refl _
  · split
    · decide
    · have := halvedSubsidy_ge_coin (h / p.nSubsidyHalvingInterval).toNat
      unfold COIN at this
      omega

/-- C1: for every rule set whose halving interval is positive, `GetInitialRewards(1, rules)`
is exactly 38,000,000 x COIN with COIN = 100,000,000, and this is not the 64 x COIN that
the halving formula gives for halving count 0. -/
theorem C1_height_one_is_airdrop (p : Consensus.Params) (hI : 0 < p.nSubsidyHalvingInterval) :
    GetInitialRewards 1 p = .ok (38000000 * COIN) ∧ COIN = 100000000 ∧
      halvedSubsidy 0 = 64 * COIN ∧ (38000000 * COIN ≠ 64 * COIN) := by
  exact ⟨GetInitialRewards_one p hI, rfl, by decide, by decide⟩

theorem C1_height_one_is_airdrop_witness :
    0 < rulesWithMainInterval.nSubsidyHalvingInterval ∧
      (GetInitialRewards 1 rulesWithMainInterval = .ok (38000000 * COIN) ∧ COIN = 100000000 ∧
        halvedSubsidy 0 = 64 * COIN ∧ (38000000 * COIN ≠ 64 * COIN)) :=
  ⟨by decide, C1_height_one_is_airdrop rulesWithMainInterval (by decide)⟩

/-- C2, as stated, fails: with the halving interval 1,050,000 the heights 0 <= 1 have
rewards 64 x COIN and 38,000,000 x COIN, so the reward increases from height 0 to height 1. -/
theorem C2_counterexample :
    rulesWithMainInterval.nSubsidyHalvingInterval = 1050000 ∧ (0 : Int) ≤ 0 ∧ (0 : Int) ≤ 1 ∧
      GetInitialRewards 0 rulesWithMainInterval = .ok 6400000000 ∧
      GetInitialRewards 1 rulesWithMainInterval = .ok 3800000000000000 ∧
      ¬ ((3800000000000000 : Int) ≤ 6400000000) := by
  refine ⟨rfl, by decide, by decide, by decide, by decide, by decide⟩

/-- C2, amended: for every positive halving interval (1,050,000 included) and all heights
0 <= h1 <= h2 other than the pair h1 = 0, h2 = 1, both rewards are defined and
`GetInitialRewards(h2) <= GetInitialRewards(h1)`. -/
theorem C2_nonincreasing_except_airdrop (p : Consensus.Params) (h1 h2 : Int)
    (hI : 0 < p.nSubsidyHalvingInterval) (h0 : 0 ≤ h1) (h12 : h1 ≤ h2)
    (hpair : ¬ (h1 = 0 ∧ h2 = 1)) :
    ∃ v1 v2, GetInitialRewards h1 p = .ok v1 ∧ GetInitialRewards h2 p = .ok v2 ∧ v2 ≤ v1 := by
  refine ⟨_, _, GetInitialRewards_eq h1 p hI h0, GetInitialRewards_eq h2 p hI (by omega), ?_⟩
  have hq : h1 / p.nSubsidyHalvingInterval ≤ h2 / p.nSubsidyHalvingInterval :=
    Int.ediv_le_ediv hI h12
  have hq1 : 0 ≤ h1 / p.nSubsidyHalvingInterval := Int.ediv_nonneg h0 (by omega)
  have h6 := one_ediv_lt_six p.nSubsidyHalvingInterval
  by_cases c2 : 64 ≤ h2 / p.nSubsidyHalvingInterval
  · rw [if_pos c2]
    split
    · exact le_refl _
    · split
      · decide
      · have := halvedSubsidy_ge_coin (h1 / p.nSubsidyHalvingInterval).toNat
        unfold COIN at this
        omega
  · have c1 : ¬ (64 ≤ h1 / p.nSubsidyHalvingInterval) := by omega
    rw [if_neg c2, if_neg c1]
    by_cases e1 : h1 = 1
    · rw [if_pos e1]
      split
      · exact le_refl _
      · have := halvedSubsidy_le (h2 / p.nSubsidyHalvingInterval).toNat
        unfold COIN at this ⊢
        omega
    · have e2 : h2 ≠ 1 := by
        intro e
        apply hpair
        omega
      rw [if_neg e1, if_neg e2]
      exact halvedSubsidy_antitone (Int.toNat_le_toNat hq)

theorem C2_nonincreasing_except_airdrop_witness :
    0 < rulesWithMainInterval.nSubsidyHalvingInterval ∧ (0 : Int) ≤ 1 ∧ (1 : Int) ≤ 1050000 ∧
      ¬ ((1 : Int) = 0 ∧ (1050000 : Int) = 1) ∧
      ∃ v1 v2, GetInitialRewards 1 rulesWithMainInterval = .ok v1 ∧
        GetInitialRewards 1050000 rulesWithMainInterval = .ok v2 ∧ v2 ≤ v1 :=
  ⟨by decide, by decide, by decide, by decide,
    C2_nonincreasing_except_airdrop rulesWithMainInterval 1 1050000 (by decide) (by decide)
      (by decide) (by decide)⟩

/-- C3: for every height h >= 0 and positive halving interval I with h / I >= 64,
`GetInitialRewards(h)` returns exactly 0; the shift, which the embedding leaves undefined
for a count of 64 or more, is not evaluated.  With I = 1,050,000 the condition is
h >= 67,200,000. -/
theorem C3_zero_from_64_halvings (p : Consensus.Params) (h : Int)
    (hI : 0 < p.nSubsidyHalvingInterval) (hh : 0 ≤ h)
    (h64 : 64 ≤ h / p.nSubsidyHalvingInterval) :
    GetInitialRewards h p = .ok 0 ∧
      shr64 (64 * COIN) (h / p.nSubsidyHalvingInterval) =
        .error (.undefined "shift count out of range") ∧
      (p.nSubsidyHalvingInterval = 1050000 → 67200000 ≤ h) := by
  refine ⟨?_, ?_, ?_⟩
  · rw [GetInitialRewards_eq h p hI hh, if_pos h64]
  · unfold shr64
    rw [if_neg]
    omega
  · intro e
    rw [e] at h64
    omega

theorem C3_zero_from_64_halvings_witness :
    0 < rulesWithMainInterval.nSubsidyHalvingInterval ∧ (0 : Int) ≤ 67200000 ∧
      64 ≤ (67200000 : Int) / rulesWithMainInterval.nSubsidyHalvingInterval ∧
      (GetInitialRewards 67200000 rulesWithMainInterval = .ok 0 ∧
        shr64 (64 * COIN) (67200000 / rulesWithMainInterval.nSubsidyHalvingInterval) =
          .error (.undefined "shift count out of range") ∧
        (rulesWithMainInterval.nSubsidyHalvingInterval = 1050000 →
          (67200000 : Int) ≤ 67200000)) :=
  ⟨by decide, by decide, by decide,
    C3_zero_from_64_halvings rulesWithMainInterval 67200000 (by decide) (by decide) (by decide)⟩

/-- C4: for every height h >= 0 and positive halving interval I whose halving count
k = h / I satisfies 6 <= k < 64, `GetInitialRewards(h)` is exactly 1 x COIN;
64 x COIN >> 6 is one coin. -/
theorem C4_floor_one_coin (p : Consensus.Params) (h : Int)
    (hI : 0 < p.nSubsidyHalvingInterval) (hh : 0 ≤ h) (h6 : 6 ≤ h / p.nSubsidyHalvingInterval)
    (h64 : h / p.nSubsidyHalvingInterval < 64) :
    GetInitialRewards h p = .ok (1 * COIN) ∧ shr64 (64 * COIN) 6 = .ok (1 * COIN) := by
  refine ⟨?_, by decide⟩
  have hone := one_ediv_lt_six p.nSubsidyHalvingInterval
  have hne : h ≠ 1 := by
    intro e
    rw [e] at h6
    omega
  rw [GetInitialRewards_eq h p hI hh, if_neg (by omega), if_neg hne,
    halvedSubsidy_of_ge_six _ (by omega), one_mul]

theorem C4_floor_one_coin_witness :
    0 < rulesWithMainInterval.nSubsidyHalvingInterval ∧ (0 : Int) ≤ 7350000 ∧
      6 ≤ (7350000 : Int) / rulesWithMainInterval.nSubsidyHalvingInterval ∧
      (7350000 : Int) / rulesWithMainInterval.nSubsidyHalvingInterval < 64 ∧
      (GetInitialRewards 7350000 rulesWithMainInterval = .ok (1 * COIN) ∧
        shr64 (64 * COIN) 6 = .ok (1 * COIN)) :=
  ⟨by decide, by decide, by decide, by decide,
    C4_floor_one_coin rulesWithMainInterval 7350000 (by decide) (by decide) (by decide)
      (by decide)⟩

/-- C5: for every height h >= 0 and positive halving interval I the reward is defined; when
h / I < 64 it is at least 1 x COIN, and a reward below one coin is the zero returned at
halving count >= 64. -/
theorem C5_at_least_one_coin_before_cutoff (p : Consensus.Params) (h : Int)
    (hI : 0 < p.nSubsidyHalvingInterval) (hh : 0 ≤ h) :
    ∃ v, GetInitialRewards h p = .ok v ∧
      (h / p.nSubsidyHalvingInterval < 64 → 1 * COIN ≤ v) ∧
      (v < 1 * COIN → v = 0 ∧ 64 ≤ h / p.nSubsidyHalvingInterval) := by
  refine ⟨_, GetInitialRewards_eq h p hI hh, ?_, ?_⟩
  · intro hlt
    rw [if_neg (by omega)]
    split
    · decide
    · rw [one_mul]
      exact halvedSubsidy_ge_coin _
  · intro hv
    by_cases c : 64 ≤ h / p.nSubsidyHalvingInterval
    · exact ⟨if_pos c, c⟩
    · exfalso
      rw [if_neg c] at hv
      split at hv
      · exact absurd hv (by decide)
      · have := halvedSubsidy_ge_coin (h / p.nSubsidyHalvingInterval).toNat
        omega

theorem C5_at_least_one_coin_before_cutoff_witness :
    0 < rulesWithMainInterval.nSubsidyHalvingInterval ∧ (0 : Int) ≤ 2100000 ∧
      ∃ v, GetInitialRewards 2100000 rulesWithMainInterval = .ok v ∧
        ((2100000 : Int) / rulesWithMainInterval.nSubsidyHalvingInterval < 64 →
          1 * COIN ≤ v) ∧
        (v < 1 * COIN →
          v = 0 ∧ 64 ≤ (2100000 : Int) / rulesWithMainInterval.nSubsidyHalvingInterval) :=
  ⟨by decide, by decide,
    C5_at_least_one_coin_before_cutoff rulesWithMainInterval 2100000 (by decide) (by decide)⟩

/-! ### Integer division -/

theorem cdiv_eq_fdiv {a b : Int} (ha : 0 ≤ a) (hb : 0 < b) : cdiv a b = .ok (Int.fdiv a b) := by
  unfold cdiv
  rw [if_neg (by omega), Int.tdiv_eq_ediv ha hb.le, Int.fdiv_eq_ediv a hb.le]

theorem cdiv_of_ne_zero (a : Int) {b : Int} (hb : b ≠ 0) : cdiv a b = .ok (Int.tdiv a b) := by
  unfold cdiv
  rw [if_neg hb]

theorem fdiv_nonneg_of_nonneg {a b : Int} (ha : 0 ≤ a) (hb : 0 < b) : 0 ≤ Int.fdiv a b := by
  rw [Int.fdiv_eq_ediv a hb.le]
  exact Int.ediv_nonneg ha hb.le

theorem hourly_blocks_pos {s : Int} (hs : 0 < s) (hs' : s ≤ 60 * 60) :
    0 < 365 * 24 * Int.fdiv (60 * 60) s := by
  have h1 : 1 ≤ (60 * 60 : Int) / s := by
    rw [Int.le_ediv_iff_mul_le hs]
    omega
  rw [Int.fdiv_eq_ediv _ hs.le]
  omega

/-! ### The `-vbparams` overrides of the regression-test chain -/

theorem UpdateVersionBitsParameters_eq (c : Consensus.Params) (d : Nat) (s t : Int) :
    UpdateVersionBitsParameters c d s t =
      { c with
        vDeployments := Function.update c.vDeployments d
          { bit := (c.vDeployments d).bit, nStartTime := s, nTimeout := t } } := by
  simp [UpdateVersionBitsParameters]

theorem deploymentLoop_of_not_mem (name : String) (s t : Int) (names : List String) (j : Nat)
    (c : Consensus.Params) (h : name ∉ names) :
    deploymentLoop name s t names j c = (c, false) := by
  induction names generalizing j with
  | nil => rfl
  | cons n rest ih =>
    have hn : name ≠ n := fun e => h (e ▸ List.mem_cons_self _ _)
    have hr : name ∉ rest := fun e => h (List.mem_cons_of_mem _ e)
    simp only [deploymentLoop, if_neg hn]
    exact ih (j + 1) hr

theorem deploymentLoop_of_mem (name : String) (s t : Int) (names : List String) (j : Nat)
    (c : Consensus.Params) (h : name ∈ names) :
    ∃ i, i < names.length ∧ names.get? i = some name ∧
      (∀ k, k < i → names.get? k ≠ some name) ∧
      deploymentLoop name s t names j c = (UpdateVersionBitsParameters c (j + i) s t, true) := by
  induction names generalizing j with
  | nil => cases h
  | cons n rest ih =>
    by_cases hn : name = n
    · refine ⟨0, by simp, by simp [hn], by simp, ?_⟩
      simp [deploymentLoop, hn]
    · have hr : name ∈ rest := by
        rcases List.mem_cons.mp h with e | e
        · exact absurd e hn
        · exact e
      obtain ⟨i, hi, hget, hfirst, hloop⟩ := ih (j + 1) hr
      refine ⟨i + 1, by simp [hi], by simpa using hget, ?_, ?_⟩
      · intro k hk
        cases k with
        | zero =>
          simp only [List.get?_cons_zero, ne_eq, Option.some.injEq]
          exact fun e => hn e.symm
        | succ k =>
          simpa using hfirst k (by omega)
      · simp only [deploymentLoop, if_neg hn, hloop]
        rw [show j + 1 + i = j + (i + 1) by omega]

theorem vbparamsBody_of_length_ne (ext : Externals) (d : String) (c : Consensus.Params)
    (h : (boost_split d (is_any_of ":")).length ≠ 3) :
    vbparamsBody ext d c = .error (.runtime_error
      "Version bits parameters malformed, expecting deployment:start:end") := by
  simp [vbparamsBody, h, bind, Except.bind, throw, throwThe, MonadExceptOf.throw]

theorem vbparamsBody_of_fields (ext : Externals) (d : String) (c : Consensus.Params)
    (name start end_ : String) (h : boost_split d (is_any_of ":") = [name, start, end_]) :
    vbparamsBody ext d c =
      match ext.ParseInt64 start with
      | none => .error (.runtime_error ("Invalid nStartTime (" ++ start ++ ")"))
      | some s =>
        match ext.ParseInt64 end_ with
        | none => .error (.runtime_error ("Invalid nTimeout (" ++ end_ ++ ")"))
        | some t =>
          if (deploymentLoop name s t ext.VersionBitsDeploymentInfo 0 c).2 = true then
            .ok (deploymentLoop name s t ext.VersionBitsDeploymentInfo 0 c).1
          else .error (.runtime_error ("Invalid deployment (" ++ name ++ ")")) := by
  unfold vbparamsBody
  simp only [h]
  cases hs : ext.ParseInt64 start with
  | none => simp [hs, bind, Except.bind, throw, throwThe, MonadExceptOf.throw, pure, Except.pure]
  | some s =>
    cases ht : ext.ParseInt64 end_ with
    | none =>
      simp [hs, ht, bind, Except.bind, throw, throwThe, MonadExceptOf.throw, pure, Except.pure]
    | some t =>
      cases hf : (deploymentLoop name s t ext.VersionBitsDeploymentInfo 0 c).2 <;>
      simp [hs, ht, hf, bind, Except.bind, throw, throwThe, MonadExceptOf.throw, pure, Except.pure]

theorem length_eq_three {α : Type} (l : List α) (h : l.length = 3) :
    ∃ a b c, l = [a, b, c] := by
  match l, h with
  | [a, b, c], _ => exact ⟨a, b, c, rfl⟩

/-- The outcome of the loop body is a value or a thrown `runtime_error`. -/
theorem vbparamsBody_ok_or_thrown (ext : Externals) (d : String) (c : Consensus.Params) :
    (∃ c', vbparamsBody ext d c = .ok c') ∨
      ∃ what, vbparamsBody ext d c = .error (.runtime_error what) := by
  by_cases h : (boost_split d (is_any_of ":")).length = 3
  · obtain ⟨name, start, end_, hsplit⟩ := length_eq_three _ h
    rw [vbparamsBody_of_fields ext d c name start end_ hsplit]
    cases ext.ParseInt64 start with
    | none => exact Or.inr ⟨_, rfl⟩
    | some s =>
      cases ext.ParseInt64 end_ with
      | none => exact Or.inr ⟨_, rfl⟩
      | some t =>
        by_cases hf : (deploymentLoop name s t ext.VersionBitsDeploymentInfo 0 c).2 = true
        · exact Or.inl ⟨_, if_pos hf⟩
        · exact Or.inr ⟨_, if_neg hf⟩
  · exact Or.inr ⟨_, vbparamsBody_of_length_ne ext d c h⟩

/-- Whether the loop body accepts a directive: three fields, two numbers, a known name. -/
theorem vbparamsBody_ok_iff (ext : Externals) (d : String) (c : Consensus.Params) :
    (∃ c', vbparamsBody ext d c = .ok c') ↔
      ∃ name start end_, boost_split d (is_any_of ":") = [name, start, end_] ∧
        (∃ s, ext.ParseInt64 start = some s) ∧ (∃ t, ext.ParseInt64 end_ = some t) ∧
        name ∈ ext.VersionBitsDeploymentInfo := by
  constructor
  · rintro ⟨c', hc'⟩
    by_cases h : (boost_split d (is_any_of ":")).length = 3
    · obtain ⟨name, start, end_, hsplit⟩ := length_eq_three _ h
      refine ⟨name, start, end_, hsplit, ?_⟩
      rw [vbparamsBody_of_fields ext d c name start end_ hsplit] at hc'
      cases hs : ext.ParseInt64 start with
      | none => rw [hs] at hc'; cases hc'
      | some s =>
        cases ht : ext.ParseInt64 end_ with
        | none => rw [hs, ht] at hc'; cases hc'
        | some t =>
          refine ⟨⟨s, rfl⟩, ⟨t, rfl⟩, ?_⟩
          by_contra hmem
          rw [hs, ht] at hc'
          simp only [deploymentLoop_of_not_mem name s t _ 0 c hmem] at hc'
          cases hc'
    · rw [vbparamsBody_of_length_ne ext d c h] at hc'
      cases hc'
  · rintro ⟨name, start, end_, hsplit, ⟨s, hs⟩, ⟨t, ht⟩, hmem⟩
    obtain ⟨i, -, -, -, hloop⟩ := deploymentLoop_of_mem name s t _ 0 c hmem
    rw [vbparamsBody_of_fields ext d c name start end_ hsplit, hs, ht]
    exact ⟨UpdateVersionBitsParameters c (0 + i) s t, by simp only [hloop, if_true]⟩

theorem vbparamsLoop_thrown_of_mem (ext : Externals) (l : List String) (d : String)
    (hd : d ∈ l) (hrej : ∀ c, ¬ ∃ c', vbparamsBody ext d c = .ok c') (c : Consensus.Params) :
    ∃ what, vbparamsLoop ext l c = .error (.runtime_error what) := by
  induction l generalizing c with
  | nil => cases hd
  | cons x rest ih =>
    rcases vbparamsBody_ok_or_thrown ext x c with ⟨c', hc'⟩ | ⟨what, hw⟩
    · have hx : d ≠ x := by
        intro e
        subst e
        exact hrej c ⟨c', hc'⟩
      have hr : d ∈ rest := by
        rcases List.mem_cons.mp hd with e | e
        · exact absurd e hx
        · exact e
      obtain ⟨what, hw⟩ := ih hr c'
      exact ⟨what, by simp [vbparamsLoop, hc', hw, bind, Except.bind]⟩
    · exact ⟨what, by simp [vbparamsLoop, hw, bind, Except.bind]⟩

theorem UpdateActivationParametersFromArgs_thrown (ext : Externals) (gArgs args : ArgsManager)
    (c : Consensus.Params) (d : String) (hset : args.IsArgSet "-vbparams" = true)
    (hd : d ∈ args.GetArgs "-vbparams")
    (hrej : ∀ c, ¬ ∃ c', vbparamsBody ext d c = .ok c') :
    ∃ what,
      UpdateActivationParametersFromArgs ext gArgs args c = .error (.runtime_error what) := by
  unfold UpdateActivationParametersFromArgs
  by_cases hseg : gArgs.IsArgSet "-segwitheight" = true
  · by_cases hrange : gArgs.GetArg "-segwitheight" c.SegwitHeight < -1 ∨
        gArgs.GetArg "-segwitheight" c.SegwitHeight ≥ INT_MAX
    · exact ⟨"Activation height " ++ toString (gArgs.GetArg "-segwitheight" c.SegwitHeight) ++
          " for segwit is out of valid range. Use -1 to disable segwit.",
        by simp [hseg, hrange, bind, Except.bind, throw, throwThe, MonadExceptOf.throw]⟩
    · obtain ⟨what, hw⟩ := vbparamsLoop_thrown_of_mem ext _ d hd hrej
        { c with SegwitHeight := if gArgs.GetArg "-segwitheight" c.SegwitHeight = -1 then INT_MAX
            else gArgs.GetArg "-segwitheight" c.SegwitHeight }
      refine ⟨what, ?_⟩
      simp [hseg, hrange, hset, hw, bind, Except.bind, pure, Except.pure]
  · obtain ⟨what, hw⟩ := vbparamsLoop_thrown_of_mem ext _ d hd hrej c
    refine ⟨what, ?_⟩
    simp [hseg, hset, hw, bind, Except.bind, pure, Except.pure]

theorem CRegTestParams_thrown (ext : Externals) (prim : Primitives) (gArgs args : ArgsManager)
    (what : String)
    (h : UpdateActivationParametersFromArgs ext gArgs args
      (CRegTestParams.beforeArgs prim).consensus = .error (.runtime_error what)) :
    CRegTestParams ext prim gArgs args = .error (.runtime_error what) := by
  simp [CRegTestParams, h, bind, Except.bind]

theorem UpdateActivationParametersFromArgs_single (ext : Externals) (gArgs args : ArgsManager)
    (c : Consensus.Params) (d : String) (hseg : gArgs.IsArgSet "-segwitheight" = false)
    (hd : args.GetArgs "-vbparams" = [d]) (c' : Consensus.Params)
    (hok : vbparamsBody ext d c = .ok c') :
    UpdateActivationParametersFromArgs ext gArgs args c = .ok c' ∨
      UpdateActivationParametersFromArgs ext gArgs args c = .ok c := by
  unfold UpdateActivationParametersFromArgs
  by_cases hset : args.IsArgSet "-vbparams" = true
  · left
    simp [hseg, hset, hd, vbparamsLoop, hok, bind, Except.bind, pure, Except.pure]
  · right
    simp [hseg, hset, bind, Except.bind, pure, Except.pure]

/-- C9: a `-vbparams` directive is accepted by the loop body if and only if splitting it on
':' yields exactly three fields, the second and third parse as signed 64-bit integers and the
first is a name of the deployment table; a directive that is not accepted makes the
construction of the regression-test parameters throw, and an accepted one alone does not make
`UpdateActivationParametersFromArgs` fail.  "foo:100", "foo:abc:200" and
"unknownfeature:0:100" are rejected and "testdummy:0:9223372036854775807" is accepted. -/
theorem C9_directive_accepted_iff (ext : Externals) (consensus : Consensus.Params)
    (strDeployment : String) :
    ((∃ c', vbparamsBody ext strDeployment consensus = .ok c') ↔
      ∃ name start end_, boost_split strDeployment (is_any_of ":") = [name, start, end_] ∧
        (∃ s, ext.ParseInt64 start = some s) ∧ (∃ t, ext.ParseInt64 end_ = some t) ∧
        name ∈ ext.VersionBitsDeploymentInfo) ∧
    ((¬ ∃ c', vbparamsBody ext strDeployment consensus = .ok c') →
      (∃ what, vbparamsBody ext strDeployment consensus = .error (.runtime_error what)) ∧
      ∀ prim gArgs args, args.IsArgSet "-vbparams" = true →
        strDeployment ∈ args.GetArgs "-vbparams" →
        ∃ what, CRegTestParams ext prim gArgs args = .error (.runtime_error what)) ∧
    ((∃ c', vbparamsBody ext strDeployment consensus = .ok c') →
      ∀ gArgs args, gArgs.IsArgSet "-segwitheight" = false →
        args.GetArgs "-vbparams" = [strDeployment] →
        ∃ c', UpdateActivationParametersFromArgs ext gArgs args consensus = .ok c') ∧
    (∀ c, ∃ what, vbparamsBody knownExternals "foo:100" c = .error (.runtime_error what)) ∧
    (∀ c, ∃ what, vbparamsBody knownExternals "foo:abc:200" c = .error (.runtime_error what)) ∧
    (∀ c, ∃ what,
      vbparamsBody knownExternals "unknownfeature:0:100" c = .error (.runtime_error what)) ∧
    (∀ c, ∃ c', vbparamsBody knownExternals "testdummy:0:9223372036854775807" c = .ok c') := by
  refine ⟨vbparamsBody_ok_iff ext strDeployment consensus, ?_, ?_, ?_, ?_, ?_, ?_⟩
  · intro hrej
    have hall : ∀ c, ¬ ∃ c', vbparamsBody ext strDeployment c = .ok c' := by
      intro c hc
      exact hrej ((vbparamsBody_ok_iff ext strDeployment consensus).mpr
        ((vbparamsBody_ok_iff ext strDeployment c).mp hc))
    refine ⟨?_, ?_⟩
    · rcases vbparamsBody_ok_or_thrown ext strDeployment consensus with h | h
      · exact absurd h hrej
      · exact h
    · intro prim gArgs args hset hmem
      obtain ⟨what, hw⟩ := UpdateActivationParametersFromArgs_thrown ext gArgs args
        (CRegTestParams.beforeArgs prim).consensus strDeployment hset hmem hall
      exact ⟨what, CRegTestParams_thrown ext prim gArgs args what hw⟩
  · rintro ⟨c', hc'⟩ gArgs args hseg hd
    rcases UpdateActivationParametersFromArgs_single ext gArgs args consensus strDeployment
      hseg hd c' hc' with h | h
    · exact ⟨_, h⟩
    · exact ⟨_, h⟩
  · intro c
    exact ⟨_, vbparamsBody_of_length_ne knownExternals "foo:100" c (by decide)⟩
  · intro c
    refine ⟨"Invalid nStartTime (abc)", ?_⟩
    rw [vbparamsBody_of_fields knownExternals "foo:abc:200" c "foo" "abc" "200" (by decide)]
    rfl
  · intro c
    refine ⟨"Invalid deployment (unknownfeature)", ?_⟩
    rw [vbparamsBody_of_fields knownExternals "unknownfeature:0:100" c "unknownfeature" "0" "100"
      (by decide)]
    rfl
  · intro c
    exact (vbparamsBody_ok_iff knownExternals "testdummy:0:9223372036854775807" c).mpr
      ⟨"testdummy", "0", "9223372036854775807", by decide, ⟨0, by decide⟩,
        ⟨9223372036854775807, by decide⟩, by decide⟩

/-- C10: for a directive whose three fields are `name`, `start`, `end_`, with parsed numbers
`nStartTime` and `nTimeout` and `name` in the deployment table, the loop body returns the
rules in which the deployment at the first table index `j` holding `name` has start time
`nStartTime` and timeout `nTimeout` and its old bit, and nothing else differs: every other
deployment and every other field of the rules is as before.  In the regression-test rules
the directive "testdummy:0:9223372036854775807" leaves testdummy with bit 28, start 0 and
timeout 9223372036854775807. -/
theorem C10_override_changes_only_the_window (ext : Externals) (consensus : Consensus.Params)
    (strDeployment name start end_ : String) (nStartTime nTimeout : Int)
    (hsplit : boost_split strDeployment (is_any_of ":") = [name, start, end_])
    (hstart : ext.ParseInt64 start = some nStartTime)
    (hend : ext.ParseInt64 end_ = some nTimeout)
    (hname : name ∈ ext.VersionBitsDeploymentInfo) :
    (∃ j c', j < MAX_VERSION_BITS_DEPLOYMENTS ext ∧
      ext.VersionBitsDeploymentInfo.get? j = some name ∧
      (∀ k, k < j → ext.VersionBitsDeploymentInfo.get? k ≠ some name) ∧
      vbparamsBody ext strDeployment consensus = .ok c' ∧
      c' = { consensus with
              vDeployments := Function.update consensus.vDeployments j
                { bit := (consensus.vDeployments j).bit, nStartTime := nStartTime,
                  nTimeout := nTimeout } } ∧
      (c'.vDeployments j).nStartTime = nStartTime ∧
      (c'.vDeployments j).nTimeout = nTimeout ∧
      (c'.vDeployments j).bit = (consensus.vDeployments j).bit ∧
      (∀ i, i ≠ j → c'.vDeployments i = consensus.vDeployments i) ∧
      { c' with vDeployments := consensus.vDeployments } = consensus) ∧
    (∀ prim, ∃ c',
      UpdateActivationParametersFromArgs knownExternals (argsWithVbparams [])
        (argsWithVbparams ["testdummy:0:9223372036854775807"])
        (CRegTestParams.beforeArgs prim).consensus = .ok c' ∧
      c'.vDeployments Consensus.DEPLOYMENT_TESTDUMMY =
        { bit := 28, nStartTime := 0, nTimeout := 9223372036854775807 }) := by
  constructor
  · obtain ⟨j, hj, hget, hfirst, hloop⟩ :=
      deploymentLoop_of_mem name nStartTime nTimeout _ 0 consensus hname
    rw [Nat.zero_add, UpdateVersionBitsParameters_eq] at hloop
    refine ⟨j, _, hj, hget, hfirst, ?_, rfl, ?_, ?_, ?_, ?_, rfl⟩
    · rw [vbparamsBody_of_fields ext strDeployment consensus name start end_ hsplit, hstart, hend]
      simp only [hloop, if_true]
    · simp
    · simp
    · simp
    · intro i hi
      simp [Function.update_noteq hi]
  · intro prim
    have hbody := vbparamsBody_of_fields knownExternals "testdummy:0:9223372036854775807"
      (CRegTestParams.beforeArgs prim).consensus "testdummy" "0" "9223372036854775807" (by decide)
    have hs : knownExternals.ParseInt64 "0" = some 0 := by decide
    have ht : knownExternals.ParseInt64 "9223372036854775807" = some 9223372036854775807 := by
      decide
    rw [hs, ht] at hbody
    have hloop : deploymentLoop "testdummy" 0 9223372036854775807
        knownExternals.VersionBitsDeploymentInfo 0 (CRegTestParams.beforeArgs prim).consensus =
        (UpdateVersionBitsParameters (CRegTestParams.beforeArgs prim).consensus 0 0
          9223372036854775807, true) := by
      simp [knownExternals, VersionBitsDeploymentInfo, deploymentLoop]
    simp only [hloop, if_true] at hbody
    refine ⟨UpdateVersionBitsParameters (CRegTestParams.beforeArgs prim).consensus 0 0
      9223372036854775807, ?_, ?_⟩
    · unfold UpdateActivationParametersFromArgs
      have h1 : (argsWithVbparams []).IsArgSet "-segwitheight" = false := by decide
      have h2 : (argsWithVbparams ["testdummy:0:9223372036854775807"]).IsArgSet "-vbparams"
          = true := by decide
      have h3 : (argsWithVbparams ["testdummy:0:9223372036854775807"]).GetArgs "-vbparams"
          = ["testdummy:0:9223372036854775807"] := by decide
      simp only [h1, h2, h3, vbparamsLoop, hbody, bind, Except.bind, pure, Except.pure]
      rfl
    · rw [UpdateVersionBitsParameters_eq]
      simp [CRegTestParams.beforeArgs, Consensus.DEPLOYMENT_TESTDUMMY]

theorem C10_override_changes_only_the_window_witness :
    boost_split "testdummy:7:9" (is_any_of ":") = ["testdummy", "7", "9"] ∧
      knownExternals.ParseInt64 "7" = some 7 ∧ knownExternals.ParseInt64 "9" = some 9 ∧
      "testdummy" ∈ knownExternals.VersionBitsDeploymentInfo ∧
      ∃ c', vbparamsBody knownExternals "testdummy:7:9" rulesWithMainInterval = .ok c' ∧
        (c'.vDeployments 0).nStartTime = 7 ∧ (c'.vDeployments 0).nTimeout = 9 :=
  ⟨by decide, by decide, by decide, by decide,
    (C10_override_changes_only_the_window knownExternals rulesWithMainInterval "testdummy:7:9"
      "testdummy" "7" "9" 7 9 (by decide) (by decide) (by decide) (by decide)).1.elim
      fun j h => h.elim fun c' h =>
        have hj : j = 0 := by
          have := h.1
          simp [MAX_VERSION_BITS_DEPLOYMENTS, knownExternals, VersionBitsDeploymentInfo] at this
          exact this
        ⟨c', h.2.2.2.1, hj ▸ h.2.2.2.2.2.1, hj ▸ h.2.2.2.2.2.2.1⟩⟩


/-! ### The three constructors -/

theorem CMainParams_of_ok (prim : Primitives) (cp : CChainParams)
    (h : CMainParams prim = .ok cp) :
    GenesisAssertionsHold prim ∧
      cp.consensus = { (CMainParams.beforeGenesis prim).consensus with
        hashGenesisBlock := prim.GetHash (genesisOf prim) } ∧
      cp.strNetworkID = CBaseChainParams.MAIN ∧
      cp.checkpointData = CMainParams.checkpoints ∧ cp.genesis = genesisOf prim := by
  unfold CMainParams at h
  simp only [bind, Except.bind, pure, Except.pure, throw, throwThe, MonadExceptOf.throw] at h
  split at h
  · cases h
  · split at h
    · cases h
    · rename_i h1 h2
      injection h with h
      subst h
      exact ⟨⟨by simpa using h1, by simpa using h2⟩, rfl, rfl, rfl, rfl⟩

theorem CMainParams_ok_of_assertions (prim : Primitives) (hA : GenesisAssertionsHold prim) :
    ∃ cp, CMainParams prim = .ok cp := by
  obtain ⟨h1, h2⟩ := hA
  unfold genesisOf at h1 h2
  unfold CMainParams
  simp only [bind, Except.bind, pure, Except.pure, throw, throwThe, MonadExceptOf.throw]
  simp only [h1, h2, ne_eq, not_true_eq_false, if_false]
  exact ⟨_, rfl⟩

theorem CTestNetParams_of_ok (prim : Primitives) (cp : CChainParams)
    (h : CTestNetParams prim = .ok cp) :
    GenesisAssertionsHold prim ∧
      cp.consensus = { (CTestNetParams.beforeGenesis prim).consensus with
        hashGenesisBlock := prim.GetHash (genesisOf prim) } ∧
      cp.strNetworkID = CBaseChainParams.TESTNET ∧
      cp.checkpointData =
        [(0, 0xdd28ad86def767c3cfc34267a950d871fc7462bc57ea4a929fc3596d9b598e41)] ∧
      cp.genesis = genesisOf prim := by
  unfold CTestNetParams at h
  simp only [bind, Except.bind, pure, Except.pure, throw, throwThe, MonadExceptOf.throw] at h
  split at h
  · cases h
  · split at h
    · cases h
    · rename_i h1 h2
      injection h with h
      subst h
      exact ⟨⟨by simpa using h1, by simpa using h2⟩, rfl, rfl, rfl, rfl⟩

theorem CTestNetParams_ok_of_assertions (prim : Primitives) (hA : GenesisAssertionsHold prim) :
    ∃ cp, CTestNetParams prim = .ok cp := by
  obtain ⟨h1, h2⟩ := hA
  unfold genesisOf at h1 h2
  unfold CTestNetParams
  simp only [bind, Except.bind, pure, Except.pure, throw, throwThe, MonadExceptOf.throw]
  simp only [h1, h2, ne_eq, not_true_eq_false, if_false]
  exact ⟨_, rfl⟩

theorem CRegTestParams_of_ok (ext : Externals) (prim : Primitives) (gArgs args : ArgsManager)
    (cp : CChainParams) (h : CRegTestParams ext prim gArgs args = .ok cp) :
    ∃ c, UpdateActivationParametersFromArgs ext gArgs args
        (CRegTestParams.beforeArgs prim).consensus = .ok c ∧
      GenesisAssertionsHold prim ∧
      cp.consensus = { c with hashGenesisBlock := prim.GetHash (genesisOf prim) } ∧
      cp.strNetworkID = CBaseChainParams.REGTEST ∧
      cp.checkpointData =
        [(0, 0xe734db844dfe5a7a06ec42a71c0540f723033830be91bb59524b6e9acbd3345b)] ∧
      cp.genesis = genesisOf prim := by
  unfold CRegTestParams at h
  cases hu : UpdateActivationParametersFromArgs ext gArgs args
      (CRegTestParams.beforeArgs prim).consensus with
  | error e =>
    simp [hu, bind, Except.bind] at h
  | ok c =>
    simp only [hu, bind, Except.bind, pure, Except.pure, throw, throwThe,
      MonadExceptOf.throw] at h
    split at h
    · cases h
    · split at h
      · cases h
      · rename_i h1 h2
        injection h with h
        subst h
        exact ⟨c, rfl, ⟨by simpa using h1, by simpa using h2⟩, rfl, rfl, rfl, rfl⟩

theorem CRegTestParams_ok_of_assertions (ext : Externals) (prim : Primitives)
    (gArgs args : ArgsManager) (c : Consensus.Params)
    (hu : UpdateActivationParametersFromArgs ext gArgs args
      (CRegTestParams.beforeArgs prim).consensus = .ok c)
    (hA : GenesisAssertionsHold prim) :
    ∃ cp, CRegTestParams ext prim gArgs args = .ok cp := by
  obtain ⟨h1, h2⟩ := hA
  unfold genesisOf at h1 h2
  unfold CRegTestParams
  simp only [hu, bind, Except.bind, pure, Except.pure, throw, throwThe, MonadExceptOf.throw]
  simp only [h1, h2, ne_eq, not_true_eq_false, if_false]
  exact ⟨_, rfl⟩

theorem CreateChainParams_main (ext : Externals) (prim : Primitives) (gArgs : ArgsManager) :
    CreateChainParams ext prim gArgs "main" = CMainParams prim := by
  simp [CreateChainParams, CBaseChainParams.MAIN]

theorem CreateChainParams_test (ext : Externals) (prim : Primitives) (gArgs : ArgsManager) :
    CreateChainParams ext prim gArgs "test" = CTestNetParams prim := by
  simp [CreateChainParams, CBaseChainParams.MAIN, CBaseChainParams.TESTNET]

theorem CreateChainParams_regtest (ext : Externals) (prim : Primitives) (gArgs : ArgsManager) :
    CreateChainParams ext prim gArgs "regtest" = CRegTestParams ext prim gArgs gArgs := by
  simp [CreateChainParams, CBaseChainParams.MAIN, CBaseChainParams.TESTNET,
    CBaseChainParams.REGTEST]

theorem CreateChainParams_unknown (ext : Externals) (prim : Primitives) (gArgs : ArgsManager)
    (chain : String) (h1 : chain ≠ "main") (h2 : chain ≠ "test") (h3 : chain ≠ "regtest") :
    CreateChainParams ext prim gArgs chain =
      .error (.runtime_error ("CreateChainParams: Unknown chain " ++ chain ++ ".")) := by
  simp only [CreateChainParams, CBaseChainParams.MAIN, CBaseChainParams.TESTNET,
    CBaseChainParams.REGTEST, if_neg h1, if_neg h2, if_neg h3]
  rfl

/-- A chain that `CreateChainParams` builds is one of the three networks. -/
theorem CreateChainParams_cases (ext : Externals) (prim : Primitives) (gArgs : ArgsManager)
    (chain : String) (cp : CChainParams) (h : CreateChainParams ext prim gArgs chain = .ok cp) :
    (chain = "main" ∧ CMainParams prim = .ok cp) ∨
      (chain = "test" ∧ CTestNetParams prim = .ok cp) ∨
      (chain = "regtest" ∧ CRegTestParams ext prim gArgs gArgs = .ok cp) := by
  by_cases h1 : chain = "main"
  · subst h1
    rw [CreateChainParams_main] at h
    exact Or.inl ⟨rfl, h⟩
  · by_cases h2 : chain = "test"
    · subst h2
      rw [CreateChainParams_test] at h
      exact Or.inr (Or.inl ⟨rfl, h⟩)
    · by_cases h3 : chain = "regtest"
      · subst h3
        rw [CreateChainParams_regtest] at h
        exact Or.inr (Or.inr ⟨rfl, h⟩)
      · rw [CreateChainParams_unknown ext prim gArgs chain h1 h2 h3] at h
        cases h

/-! ### The argument overrides, step by step -/

theorem vbparamsBody_of_ok (ext : Externals) (d : String) (c c' : Consensus.Params)
    (h : vbparamsBody ext d c = .ok c') :
    ∃ name start end_ s t j, boost_split d (is_any_of ":") = [name, start, end_] ∧
      ext.ParseInt64 start = some s ∧ ext.ParseInt64 end_ = some t ∧
      j < ext.VersionBitsDeploymentInfo.length ∧
      c' = { c with
        vDeployments := Function.update c.vDeployments j
          { bit := (c.vDeployments j).bit, nStartTime := s, nTimeout := t } } := by
  obtain ⟨name, start, end_, hsplit, ⟨s, hs⟩, ⟨t, ht⟩, hmem⟩ :=
    (vbparamsBody_ok_iff ext d c).mp ⟨c', h⟩
  obtain ⟨j, hj, -, -, hloop⟩ := deploymentLoop_of_mem name s t _ 0 c hmem
  rw [Nat.zero_add, UpdateVersionBitsParameters_eq] at hloop
  rw [vbparamsBody_of_fields ext d c name start end_ hsplit, hs, ht] at h
  simp only [hloop, if_true] at h
  exact ⟨name, start, end_, s, t, j, hsplit, hs, ht, hj, (Except.ok.inj h).symm⟩

/-- The loop over the directives changes no field other than `vDeployments`. -/
theorem vbparamsLoop_frame (ext : Externals) (l : List String) (c c' : Consensus.Params)
    (h : vbparamsLoop ext l c = .ok c') :
    { c' with vDeployments := c.vDeployments } = c := by
  induction l generalizing c with
  | nil =>
    simp only [vbparamsLoop] at h
    rw [← Except.ok.inj h]
  | cons d rest ih =>
    cases hb : vbparamsBody ext d c with
    | error e => simp [vbparamsLoop, hb, bind, Except.bind] at h
    | ok c1 =>
      simp only [vbparamsLoop, hb, bind, Except.bind] at h
      have h1 := ih c1 h
      obtain ⟨_, _, _, s, t, j, -, -, -, -, hc1⟩ := vbparamsBody_of_ok ext d c c1 hb
      subst hc1
      cases c
      cases c'
      simp only [Consensus.Params.mk.injEq] at h1 ⊢
      tauto

/-- The loop over the directives keeps every window well formed when every directive has a
start time that is at most its timeout, or the no-timeout sentinel as timeout. -/
theorem vbparamsLoop_windows (ext : Externals) (l : List String) (c c' : Consensus.Params)
    (h : vbparamsLoop ext l c = .ok c')
    (hdir : ∀ d ∈ l, ∀ name start end_ s t, boost_split d (is_any_of ":") = [name, start, end_] →
      ext.ParseInt64 start = some s → ext.ParseInt64 end_ = some t →
      s ≤ t ∨ t = Consensus.BIP9Deployment.NO_TIMEOUT)
    (j : Nat) (hj : windowWellFormed (c.vDeployments j)) :
    windowWellFormed (c'.vDeployments j) := by
  induction l generalizing c with
  | nil =>
    simp only [vbparamsLoop] at h
    rw [← Except.ok.inj h]
    exact hj
  | cons d rest ih =>
    cases hb : vbparamsBody ext d c with
    | error e => simp [vbparamsLoop, hb, bind, Except.bind] at h
    | ok c1 =>
      simp only [vbparamsLoop, hb, bind, Except.bind] at h
      refine ih c1 h (fun d' hd' => hdir d' (List.mem_cons_of_mem _ hd')) ?_
      obtain ⟨name, start, end_, s, t, i, hsplit, hs, ht, -, hc1⟩ :=
        vbparamsBody_of_ok ext d c c1 hb
      have hst := hdir d (List.mem_cons_self _ _) name start end_ s t hsplit hs ht
      rw [hc1]
      by_cases hij : j = i
      · subst hij
        simpa [windowWellFormed] using hst
      · simpa [Function.update_noteq hij] using hj

/-- `UpdateActivationParametersFromArgs` by cases: the segwit height first, then the
`-vbparams` loop. -/
theorem UpdateActivationParametersFromArgs_eq (ext : Externals) (gArgs args : ArgsManager)
    (c : Consensus.Params) :
    UpdateActivationParametersFromArgs ext gArgs args c =
      if gArgs.IsArgSet "-segwitheight" = true then
        if gArgs.GetArg "-segwitheight" c.SegwitHeight < -1 ∨
            gArgs.GetArg "-segwitheight" c.SegwitHeight ≥ INT_MAX then
          .error (.runtime_error ("Activation height " ++
            toString (gArgs.GetArg "-segwitheight" c.SegwitHeight) ++
            " for segwit is out of valid range. Use -1 to disable segwit."))
        else if args.IsArgSet "-vbparams" = true then
          vbparamsLoop ext (args.GetArgs "-vbparams")
            { c with SegwitHeight :=
                if gArgs.GetArg "-segwitheight" c.SegwitHeight = -1 then INT_MAX
                else gArgs.GetArg "-segwitheight" c.SegwitHeight }
        else
          .ok { c with SegwitHeight :=
                if gArgs.GetArg "-segwitheight" c.SegwitHeight = -1 then INT_MAX
                else gArgs.GetArg "-segwitheight" c.SegwitHeight }
      else if args.IsArgSet "-vbparams" = true then
        vbparamsLoop ext (args.GetArgs "-vbparams") c
      else .ok c := by
  unfold UpdateActivationParametersFromArgs
  by_cases hseg : gArgs.IsArgSet "-segwitheight" = true
  · by_cases hrange : gArgs.GetArg "-segwitheight" c.SegwitHeight < -1 ∨
        gArgs.GetArg "-segwitheight" c.SegwitHeight ≥ INT_MAX
    · simp [hseg, hrange, bind, Except.bind, throw, throwThe, MonadExceptOf.throw]
    · by_cases hset : args.IsArgSet "-vbparams" = true
      · simp [hseg, hrange, hset, bind, Except.bind, pure, Except.pure]
      · simp [hseg, hrange, hset, bind, Except.bind, pure, Except.pure]
  · by_cases hset : args.IsArgSet "-vbparams" = true
    · simp [hseg, hset, bind, Except.bind, pure, Except.pure]
    · simp [hseg, hset, bind, Except.bind, pure, Except.pure]

/-- What a successful `UpdateActivationParametersFromArgs` leaves: only `SegwitHeight` and
`vDeployments` can differ, and `SegwitHeight` is the accepted override or the old value. -/
theorem UpdateActivationParametersFromArgs_of_ok (ext : Externals) (gArgs args : ArgsManager)
    (c c' : Consensus.Params) (h : UpdateActivationParametersFromArgs ext gArgs args c = .ok c') :
    { c' with vDeployments := c.vDeployments, SegwitHeight := c.SegwitHeight } = c ∧
      c'.SegwitHeight =
        (if gArgs.IsArgSet "-segwitheight" = true then
          (if gArgs.GetArg "-segwitheight" c.SegwitHeight = -1 then INT_MAX
           else gArgs.GetArg "-segwitheight" c.SegwitHeight)
         else c.SegwitHeight) ∧
      (gArgs.IsArgSet "-segwitheight" = true →
        -1 ≤ gArgs.GetArg "-segwitheight" c.SegwitHeight ∧
          gArgs.GetArg "-segwitheight" c.SegwitHeight < INT_MAX) := by
  rw [UpdateActivationParametersFromArgs_eq] at h
  by_cases hseg : gArgs.IsArgSet "-segwitheight" = true
  · rw [if_pos hseg] at h
    by_cases hrange : gArgs.GetArg "-segwitheight" c.SegwitHeight < -1 ∨
        gArgs.GetArg "-segwitheight" c.SegwitHeight ≥ INT_MAX
    · rw [if_pos hrange] at h
      cases h
    · rw [if_neg hrange] at h
      have hr : -1 ≤ gArgs.GetArg "-segwitheight" c.SegwitHeight ∧
          gArgs.GetArg "-segwitheight" c.SegwitHeight < INT_MAX := by
        constructor <;> omega
      by_cases hset : args.IsArgSet "-vbparams" = true
      · rw [if_pos hset] at h
        have hf := vbparamsLoop_frame ext _ _ c' h
        refine ⟨?_, ?_, fun _ => hr⟩
        · cases c
          cases c'
          simp only [Consensus.Params.mk.injEq] at hf ⊢
          tauto
        · rw [if_pos hseg]
          have := congrArg Consensus.Params.SegwitHeight hf
          simpa using this
      · rw [if_neg hset] at h
        rw [← Except.ok.inj h]
        exact ⟨rfl, by rw [if_pos hseg], fun _ => hr⟩
  · rw [if_neg hseg] at h
    by_cases hset : args.IsArgSet "-vbparams" = true
    · rw [if_pos hset] at h
      have hf := vbparamsLoop_frame ext _ _ c' h
      refine ⟨?_, ?_, fun e => absurd e hseg⟩
      · cases c
        cases c'
        simp only [Consensus.Params.mk.injEq] at hf ⊢
        tauto
      · rw [if_neg hseg]
        have := congrArg Consensus.Params.SegwitHeight hf
        simpa using this
    · rw [if_neg hset] at h
      rw [← Except.ok.inj h]
      exact ⟨rfl, by rw [if_neg hseg], fun e => absurd e hseg⟩

theorem UpdateActivationParametersFromArgs_windows (ext : Externals) (gArgs args : ArgsManager)
    (c c' : Consensus.Params) (h : UpdateActivationParametersFromArgs ext gArgs args c = .ok c')
    (hdir : ∀ d ∈ args.GetArgs "-vbparams", ∀ name start end_ s t,
      boost_split d (is_any_of ":") = [name, start, end_] →
      ext.ParseInt64 start = some s → ext.ParseInt64 end_ = some t →
      s ≤ t ∨ t = Consensus.BIP9Deployment.NO_TIMEOUT)
    (j : Nat) (hj : windowWellFormed (c.vDeployments j)) :
    windowWellFormed (c'.vDeployments j) := by
  rw [UpdateActivationParametersFromArgs_eq] at h
  by_cases hseg : gArgs.IsArgSet "-segwitheight" = true
  · rw [if_pos hseg] at h
    by_cases hrange : gArgs.GetArg "-segwitheight" c.SegwitHeight < -1 ∨
        gArgs.GetArg "-segwitheight" c.SegwitHeight ≥ INT_MAX
    · rw [if_pos hrange] at h
      cases h
    · rw [if_neg hrange] at h
      by_cases hset : args.IsArgSet "-vbparams" = true
      · rw [if_pos hset] at h
        exact vbparamsLoop_windows ext _ _ c' h hdir j hj
      · rw [if_neg hset] at h
        rw [← Except.ok.inj h]
        exact hj
  · rw [if_neg hseg] at h
    by_cases hset : args.IsArgSet "-vbparams" = true
    · rw [if_pos hset] at h
      exact vbparamsLoop_windows ext _ _ c' h hdir j hj
    · rw [if_neg hset] at h
      rw [← Except.ok.inj h]
      exact hj

/-- C11, as stated, fails: the regression-test chain built with the accepted override
"testdummy:5:1" (the genesis assertions holding) has a testdummy window with start time 5
and timeout 1, which is not the no-timeout sentinel. -/
theorem C11_counterexample :
    ∃ cp, CreateChainParams knownExternals samplePrimitives (argsWithVbparams ["testdummy:5:1"])
        "regtest" = .ok cp ∧
      Consensus.DEPLOYMENT_TESTDUMMY < MAX_VERSION_BITS_DEPLOYMENTS knownExternals ∧
      (cp.consensus.vDeployments Consensus.DEPLOYMENT_TESTDUMMY).nStartTime = 5 ∧
      (cp.consensus.vDeployments Consensus.DEPLOYMENT_TESTDUMMY).nTimeout = 1 ∧
      ¬ windowWellFormed (cp.consensus.vDeployments Consensus.DEPLOYMENT_TESTDUMMY) :=
  ⟨_, rfl, by decide, rfl, rfl, by decide⟩

/-- C11, amended: in every rule set that `CreateChainParams` builds for a deployment table of
one row, every deployment window has a start time at most its timeout, or the no-timeout
sentinel as timeout, provided that for the regression-test chain every `-vbparams` override
has a start at most its end, or the sentinel as end. -/
theorem C11_windows_well_formed (ext : Externals) (prim : Primitives) (gArgs : ArgsManager)
    (chain : String) (cp : CChainParams)
    (hmax : MAX_VERSION_BITS_DEPLOYMENTS ext = 1)
    (h : CreateChainParams ext prim gArgs chain = .ok cp)
    (hdir : chain = "regtest" → ∀ d ∈ gArgs.GetArgs "-vbparams", ∀ name start end_ s t,
      boost_split d (is_any_of ":") = [name, start, end_] →
      ext.ParseInt64 start = some s → ext.ParseInt64 end_ = some t →
      s ≤ t ∨ t = Consensus.BIP9Deployment.NO_TIMEOUT) :
    ∀ j, j < MAX_VERSION_BITS_DEPLOYMENTS ext →
      (cp.consensus.vDeployments j).nStartTime ≤ (cp.consensus.vDeployments j).nTimeout ∨
        (cp.consensus.vDeployments j).nTimeout = Consensus.BIP9Deployment.NO_TIMEOUT := by
  intro j hj
  have hj0 : j = 0 := by omega
  subst hj0
  change windowWellFormed (cp.consensus.vDeployments 0)
  rcases CreateChainParams_cases ext prim gArgs chain cp h with
    ⟨-, hm⟩ | ⟨-, ht⟩ | ⟨hc, hr⟩
  · obtain ⟨-, hcons, -⟩ := CMainParams_of_ok prim cp hm
    rw [hcons]
    simp [CMainParams.beforeGenesis, Consensus.DEPLOYMENT_TESTDUMMY, windowWellFormed]
  · obtain ⟨-, hcons, -⟩ := CTestNetParams_of_ok prim cp ht
    rw [hcons]
    simp [CTestNetParams.beforeGenesis, Consensus.DEPLOYMENT_TESTDUMMY, windowWellFormed]
  · obtain ⟨c, hu, -, hcons, -⟩ := CRegTestParams_of_ok ext prim gArgs gArgs cp hr
    rw [hcons]
    refine UpdateActivationParametersFromArgs_windows ext gArgs gArgs _ c hu (hdir hc) 0 ?_
    simp [CRegTestParams.beforeArgs, Consensus.DEPLOYMENT_TESTDUMMY, windowWellFormed]

theorem C11_windows_well_formed_witness :
    MAX_VERSION_BITS_DEPLOYMENTS knownExternals = 1 ∧
      ∃ cp, CreateChainParams knownExternals samplePrimitives
          (argsWithVbparams ["testdummy:7:9"]) "regtest" = .ok cp ∧
        ∀ j, j < MAX_VERSION_BITS_DEPLOYMENTS knownExternals →
          (cp.consensus.vDeployments j).nStartTime ≤ (cp.consensus.vDeployments j).nTimeout ∨
            (cp.consensus.vDeployments j).nTimeout = Consensus.BIP9Deployment.NO_TIMEOUT :=
  ⟨rfl, _, rfl,
    C11_windows_well_formed knownExternals samplePrimitives (argsWithVbparams ["testdummy:7:9"])
      "regtest" _ rfl rfl (by
        intro _ d hd name start end_ s t hsplit hs ht
        have hd' : d = "testdummy:7:9" := by
          simpa [argsWithVbparams] using hd
        subst hd'
        have e : boost_split "testdummy:7:9" (is_any_of ":") = ["testdummy", "7", "9"] := by
          decide
        rw [e] at hsplit
        injection hsplit with _ h2
        injection h2 with hstart h3
        injection h3 with hend _
        subst hstart
        subst hend
        have e7 : knownExternals.ParseInt64 "7" = some 7 := by decide
        have e9 : knownExternals.ParseInt64 "9" = some 9 := by decide
        rw [e7] at hs
        rw [e9] at ht
        injection hs with hs
        injection ht with ht
        omega)⟩

/-- C12, as stated, fails: the value 2,147,483,647 is representable as a signed 32-bit
height and is not below -1, yet the override is rejected. -/
theorem C12_counterexample :
    ((-2147483648 : Int) ≤ 2147483647 ∧ (2147483647 : Int) ≤ 2147483647 ∧
      ¬ ((2147483647 : Int) < -1)) ∧
      UpdateActivationParametersFromArgs knownExternals (argsWithSegwitHeight 2147483647)
          (argsWithSegwitHeight 2147483647) (CRegTestParams.beforeArgs samplePrimitives).consensus =
        .error (.runtime_error ("Activation height 2147483647 for segwit is out of valid range." ++
          " Use -1 to disable segwit.")) ∧
      CRegTestParams knownExternals samplePrimitives (argsWithSegwitHeight 2147483647)
          (argsWithSegwitHeight 2147483647) =
        .error (.runtime_error ("Activation height 2147483647 for segwit is out of valid range." ++
          " Use -1 to disable segwit.")) :=
  ⟨by decide, rfl, rfl⟩

/-- C12, amended: with `-segwitheight` given as the 64-bit value v and no `-vbparams`, the
override is rejected with an error if and only if v < -1 or v >= 2,147,483,647 (the largest
signed 32-bit value is itself rejected); every other value is accepted. -/
theorem C12_segwit_height_rejected_iff (ext : Externals) (prim : Primitives)
    (gArgs args : ArgsManager) (c : Consensus.Params) (v : Int)
    (hseg : gArgs.IsArgSet "-segwitheight" = true)
    (hv : gArgs.GetArg "-segwitheight" c.SegwitHeight = v)
    (hset : args.IsArgSet "-vbparams" = false) :
    ((∃ what, UpdateActivationParametersFromArgs ext gArgs args c =
        .error (.runtime_error what)) ↔ (v < -1 ∨ 2147483647 ≤ v)) ∧
      (¬ (v < -1 ∨ 2147483647 ≤ v) →
        ∃ c', UpdateActivationParametersFromArgs ext gArgs args c = .ok c') ∧
      (c = (CRegTestParams.beforeArgs prim).consensus →
        ((∃ what, CRegTestParams ext prim gArgs args = .error (.runtime_error what)) ↔
          (v < -1 ∨ 2147483647 ≤ v))) := by
  have hu := UpdateActivationParametersFromArgs_eq ext gArgs args c
  rw [if_pos hseg, hv] at hu
  have hset' : ¬ args.IsArgSet "-vbparams" = true := by simp [hset]
  rw [if_neg hset'] at hu
  have hiff : (∃ what, UpdateActivationParametersFromArgs ext gArgs args c =
      .error (.runtime_error what)) ↔ (v < -1 ∨ 2147483647 ≤ v) := by
    constructor
    · rintro ⟨what, hw⟩
      by_contra hn
      rw [hu, if_neg (by simpa [INT_MAX] using hn)] at hw
      cases hw
    · intro hr
      rw [hu, if_pos (by simpa [INT_MAX] using hr)]
      exact ⟨_, rfl⟩
  refine ⟨hiff, ?_, ?_⟩
  · intro hn
    rw [hu, if_neg (by simpa [INT_MAX] using hn)]
    exact ⟨_, rfl⟩
  · intro hc
    subst hc
    constructor
    · rintro ⟨what, hw⟩
      by_contra hn
      have hok : ¬ (v < -1 ∨ v ≥ INT_MAX) := by simpa [INT_MAX] using hn
      rw [if_neg hok] at hu
      unfold CRegTestParams at hw
      simp only [hu, bind, Except.bind, pure, Except.pure, throw, throwThe,
        MonadExceptOf.throw] at hw
      split at hw
      · cases hw
      · split at hw
        · cases hw
        · cases hw
    · intro hr
      obtain ⟨what, hw⟩ := hiff.mpr hr
      exact ⟨what, CRegTestParams_thrown ext prim gArgs args what hw⟩

theorem C12_segwit_height_rejected_iff_witness :
    (argsWithSegwitHeight (-2)).IsArgSet "-segwitheight" = true ∧
      (argsWithSegwitHeight (-2)).IsArgSet "-vbparams" = false ∧
      ∃ what, UpdateActivationParametersFromArgs knownExternals (argsWithSegwitHeight (-2))
        (argsWithSegwitHeight (-2)) rulesWithMainInterval = .error (.runtime_error what) :=
  ⟨rfl, rfl,
    (C12_segwit_height_rejected_iff knownExternals samplePrimitives (argsWithSegwitHeight (-2))
      (argsWithSegwitHeight (-2)) rulesWithMainInterval (-2) rfl rfl rfl).1.mpr
      (Or.inl (by decide))⟩

/-- C13: a regression-test construction that succeeds has `SegwitHeight` 2,147,483,647 when
`-segwitheight` is -1, exactly the given value for every other accepted value, and the
default 6 when `-segwitheight` is not given; with an accepted value (or none), no
`-vbparams` and the genesis assertions holding, the construction does succeed. -/
theorem C13_segwit_height_value (ext : Externals) (prim : Primitives)
    (gArgs args : ArgsManager) (cp : CChainParams)
    (h : CRegTestParams ext prim gArgs args = .ok cp) :
    (cp.consensus.SegwitHeight =
        if gArgs.IsArgSet "-segwitheight" = true then
          (if gArgs.GetArg "-segwitheight" 6 = -1 then 2147483647
           else gArgs.GetArg "-segwitheight" 6)
        else 6) ∧
      (gArgs.IsArgSet "-segwitheight" = true →
        -1 ≤ gArgs.GetArg "-segwitheight" 6 ∧ gArgs.GetArg "-segwitheight" 6 < 2147483647) ∧
      (∀ gArgs' args' : ArgsManager, GenesisAssertionsHold prim →
        args'.IsArgSet "-vbparams" = false →
        (gArgs'.IsArgSet "-segwitheight" = true →
          -1 ≤ gArgs'.GetArg "-segwitheight" 6 ∧ gArgs'.GetArg "-segwitheight" 6 < 2147483647) →
        ∃ cp', CRegTestParams ext prim gArgs' args' = .ok cp') := by
  obtain ⟨c, hu, -, hcons, -⟩ := CRegTestParams_of_ok ext prim gArgs args cp h
  obtain ⟨-, hseg, hrange⟩ := UpdateActivationParametersFromArgs_of_ok ext gArgs args _ c hu
  have h6 : (CRegTestParams.beforeArgs prim).consensus.SegwitHeight = 6 := rfl
  rw [h6] at hseg hrange
  refine ⟨?_, ?_, ?_⟩
  · rw [hcons]
    simpa [INT_MAX] using hseg
  · simpa [INT_MAX] using hrange
  · intro gArgs' args' hA hset hacc
    have hu' := UpdateActivationParametersFromArgs_eq ext gArgs' args'
      (CRegTestParams.beforeArgs prim).consensus
    rw [h6] at hu'
    have hset' : ¬ args'.IsArgSet "-vbparams" = true := by simp [hset]
    rw [if_neg hset', if_neg hset'] at hu'
    by_cases hs : gArgs'.IsArgSet "-segwitheight" = true
    · have hr := hacc hs
      rw [if_pos hs, if_neg (by unfold INT_MAX; omega)] at hu'
      exact CRegTestParams_ok_of_assertions ext prim gArgs' args' _ hu' hA
    · rw [if_neg hs] at hu'
      exact CRegTestParams_ok_of_assertions ext prim gArgs' args' _ hu' hA

theorem C13_segwit_height_value_witness :
    ∃ cp, CRegTestParams knownExternals samplePrimitives (argsWithSegwitHeight (-1))
        (argsWithSegwitHeight (-1)) = .ok cp ∧ cp.consensus.SegwitHeight = 2147483647 :=
  ⟨_, rfl,
    (C13_segwit_height_value knownExternals samplePrimitives (argsWithSegwitHeight (-1))
      (argsWithSegwitHeight (-1)) _ rfl).1⟩

/-- C14: in every rule set that `CreateChainParams` builds (Main, Test, and RegTest with any
accepted overrides) the halving interval is greater than 0 and every height field is
non-negative. -/
theorem C14_heights_nonnegative (ext : Externals) (prim : Primitives) (gArgs : ArgsManager)
    (chain : String) (cp : CChainParams)
    (h : CreateChainParams ext prim gArgs chain = .ok cp) :
    0 < cp.consensus.nSubsidyHalvingInterval ∧
      0 ≤ cp.consensus.BIP34Height ∧ 0 ≤ cp.consensus.BIP65Height ∧
      0 ≤ cp.consensus.BIP66Height ∧ 0 ≤ cp.consensus.CSVHeight ∧
      0 ≤ cp.consensus.SegwitHeight ∧ 0 ≤ cp.consensus.MinBIP9WarningHeight ∧
      0 ≤ cp.consensus.nPosHeightActivate ∧ 0 ≤ cp.consensus.nCoinMaturityReductionHeight ∧
      0 ≤ cp.consensus.nStartGhostFeeDistribution ∧
      0 ≤ cp.consensus.nNewDevelopmentPayoutCycleStartHeight ∧
      0 ≤ cp.consensus.nGhostnodePaymentsStartBlock ∧ 0 ≤ cp.consensus.nGhostnodeInitialize ∧
      0 ≤ cp.consensus.nZerocoinDisableBlock ∧ 0 ≤ cp.consensus.nSigmaStartBlock ∧
      0 ≤ cp.consensus.nStartWitnessLposContracts := by
  rcases CreateChainParams_cases ext prim gArgs chain cp h with
    ⟨-, hm⟩ | ⟨-, ht⟩ | ⟨-, hr⟩
  · obtain ⟨-, hcons, -⟩ := CMainParams_of_ok prim cp hm
    rw [hcons]
    simp [CMainParams.beforeGenesis]
  · obtain ⟨-, hcons, -⟩ := CTestNetParams_of_ok prim cp ht
    rw [hcons]
    simp [CTestNetParams.beforeGenesis]
  · obtain ⟨c, hu, -, hcons, -⟩ := CRegTestParams_of_ok ext prim gArgs gArgs cp hr
    obtain ⟨hframe, hseg, hrange⟩ :=
      UpdateActivationParametersFromArgs_of_ok ext gArgs gArgs _ c hu
    have h6 : (CRegTestParams.beforeArgs prim).consensus.SegwitHeight = 6 := rfl
    rw [h6] at hseg hrange
    have hs : 0 ≤ c.SegwitHeight := by
      rw [hseg]
      by_cases hset : gArgs.IsArgSet "-segwitheight" = true
      · have := hrange hset
        rw [if_pos hset]
        split
        · decide
        · omega
      · rw [if_neg hset]
        decide
    rw [hcons]
    have f := fun {β : Type} (g : Consensus.Params → β) => congrArg g hframe
    have e1 := f Consensus.Params.nSubsidyHalvingInterval
    have e2 := f Consensus.Params.BIP34Height
    have e3 := f Consensus.Params.BIP65Height
    have e4 := f Consensus.Params.BIP66Height
    have e5 := f Consensus.Params.CSVHeight
    have e6 := f Consensus.Params.MinBIP9WarningHeight
    have e7 := f Consensus.Params.nPosHeightActivate
    have e8 := f Consensus.Params.nCoinMaturityReductionHeight
    have e9 := f Consensus.Params.nStartGhostFeeDistribution
    have e10 := f Consensus.Params.nNewDevelopmentPayoutCycleStartHeight
    have e11 := f Consensus.Params.nGhostnodePaymentsStartBlock
    have e12 := f Consensus.Params.nGhostnodeInitialize
    have e13 := f Consensus.Params.nZerocoinDisableBlock
    have e14 := f Consensus.Params.nSigmaStartBlock
    have e15 := f Consensus.Params.nStartWitnessLposContracts
    simp only [CRegTestParams.beforeArgs] at e1 e2 e3 e4 e5 e6 e7 e8 e9 e10 e11 e12 e13 e14 e15
    simp only [e1, e2, e3, e4, e5, e6, e7, e8, e9, e10, e11, e12, e13, e14, e15]
    refine ⟨by decide, by decide, by decide, by decide, by decide, hs, by decide, by decide,
      by decide, by decide, by decide, by decide, by decide, by decide, by decide, by decide⟩

theorem C14_heights_nonnegative_witness :
    ∃ cp, CreateChainParams knownExternals samplePrimitives (argsWithSegwitHeight (-1))
        "regtest" = .ok cp ∧
      0 < cp.consensus.nSubsidyHalvingInterval ∧ 0 ≤ cp.consensus.SegwitHeight :=
  have built : ∃ cp, CreateChainParams knownExternals samplePrimitives
      (argsWithSegwitHeight (-1)) "regtest" = .ok cp := ⟨_, rfl⟩
  built.elim fun cp hcp =>
    have all := C14_heights_nonnegative knownExternals samplePrimitives
      (argsWithSegwitHeight (-1)) "regtest" cp hcp
    ⟨cp, hcp, all.1, all.2.2.2.2.2.1⟩

/-- C15: for each of the names "main", "test", "regtest" and every prior value of the
registry slot, after `SelectParams(n)` succeeds `Params()` returns the stored parameter set,
whose network identifier is n; `SelectParams("main")` followed by `SelectParams("test")`
leaves the Test set active. -/
theorem C15_select_then_params (ext : Externals) (prim : Primitives) (gArgs : ArgsManager)
    (SelectBaseParams : String → Result Unit) (n : String)
    (prior after : Option CChainParams)
    (hn : n = "main" ∨ n = "test" ∨ n = "regtest")
    (h : SelectParams ext prim gArgs SelectBaseParams n prior = .ok after) :
    (∃ cp, after = some cp ∧ Params after = .ok cp ∧ cp.strNetworkID = n) ∧
      (∀ s1 s2, SelectParams ext prim gArgs SelectBaseParams "main" prior = .ok s1 →
        SelectParams ext prim gArgs SelectBaseParams "test" s1 = .ok s2 →
        ∃ cp, Params s2 = .ok cp ∧ cp.strNetworkID = "test") := by
  have key : ∀ (m : String) (p a : Option CChainParams),
      (m = "main" ∨ m = "test" ∨ m = "regtest") →
      SelectParams ext prim gArgs SelectBaseParams m p = .ok a →
      ∃ cp, a = some cp ∧ Params a = .ok cp ∧ cp.strNetworkID = m := by
    intro m p a hm hsel
    unfold SelectParams at hsel
    cases hb : SelectBaseParams m with
    | error e => simp [hb, bind, Except.bind] at hsel
    | ok u =>
      cases hc : CreateChainParams ext prim gArgs m with
      | error e => simp [hb, hc, bind, Except.bind] at hsel
      | ok cp =>
        simp only [hb, hc, bind, Except.bind, pure, Except.pure] at hsel
        have ha : a = some cp := (Except.ok.inj hsel).symm
        refine ⟨cp, ha, by rw [ha]; rfl, ?_⟩
        rcases CreateChainParams_cases ext prim gArgs m cp hc with
          ⟨e, hm'⟩ | ⟨e, ht⟩ | ⟨e, hr⟩
        · rw [e]
          exact (CMainParams_of_ok prim cp hm').2.2.1
        · rw [e]
          exact (CTestNetParams_of_ok prim cp ht).2.2.1
        · rw [e]
          obtain ⟨c, -, -, -, hid, -⟩ := CRegTestParams_of_ok ext prim gArgs gArgs cp hr
          exact hid
  refine ⟨key n prior after hn h, ?_⟩
  intro s1 s2 _ h2
  obtain ⟨cp, -, hp, hid⟩ := key "test" s1 s2 (Or.inr (Or.inl rfl)) h2
  exact ⟨cp, hp, hid⟩

theorem C15_select_then_params_witness :
    ∃ s1 s2 cp,
      SelectParams knownExternals samplePrimitives (argsWithVbparams []) sampleSelectBaseParams
        "main" globalChainParams₀ = .ok s1 ∧
      SelectParams knownExternals samplePrimitives (argsWithVbparams []) sampleSelectBaseParams
        "test" s1 = .ok s2 ∧
      Params s2 = .ok cp ∧ cp.strNetworkID = "test" :=
  have first : ∃ s1, SelectParams knownExternals samplePrimitives (argsWithVbparams [])
      sampleSelectBaseParams "main" globalChainParams₀ = .ok s1 := ⟨_, rfl⟩
  first.elim fun s1 h1 =>
    have second : ∃ s2, SelectParams knownExternals samplePrimitives (argsWithVbparams [])
        sampleSelectBaseParams "test" s1 = .ok s2 := ⟨_, rfl⟩
    second.elim fun s2 h2 =>
      (C15_select_then_params knownExternals samplePrimitives (argsWithVbparams [])
        sampleSelectBaseParams "test" s1 s2 (Or.inr (Or.inl rfl)) h2).1.elim
        fun cp hcp => ⟨s1, s2, cp, h1, h2, hcp.2.1, hcp.2.2⟩

theorem occursIn_middle (a part b : String) : occursIn part (a ++ part ++ b) := by
  unfold occursIn
  refine ⟨a.data, b.data, ?_⟩
  simp [String.data_append]

/-- C16: when the genesis assertions hold and the regression-test overrides are valid,
`CreateChainParams(name)` fails if and only if name is none of "main", "test", "regtest";
for such a name it throws "CreateChainParams: Unknown chain name.", which contains the
name. -/
theorem C16_create_fails_iff_unknown (ext : Externals) (prim : Primitives)
    (gArgs : ArgsManager) (chain : String) (hA : GenesisAssertionsHold prim)
    (hOv : ∃ c, UpdateActivationParametersFromArgs ext gArgs gArgs
      (CRegTestParams.beforeArgs prim).consensus = .ok c) :
    ((∃ fault, CreateChainParams ext prim gArgs chain = .error fault) ↔
        (chain ≠ "main" ∧ chain ≠ "test" ∧ chain ≠ "regtest")) ∧
      ((chain ≠ "main" ∧ chain ≠ "test" ∧ chain ≠ "regtest") →
        CreateChainParams ext prim gArgs chain =
            .error (.runtime_error ("CreateChainParams: Unknown chain " ++ chain ++ ".")) ∧
          occursIn chain ("CreateChainParams: Unknown chain " ++ chain ++ ".")) := by
  constructor
  · constructor
    · rintro ⟨fault, hf⟩
      refine ⟨?_, ?_, ?_⟩
      · intro e
        subst e
        obtain ⟨cp, hcp⟩ := CMainParams_ok_of_assertions prim hA
        rw [CreateChainParams_main, hcp] at hf
        cases hf
      · intro e
        subst e
        obtain ⟨cp, hcp⟩ := CTestNetParams_ok_of_assertions prim hA
        rw [CreateChainParams_test, hcp] at hf
        cases hf
      · intro e
        subst e
        obtain ⟨c, hc⟩ := hOv
        obtain ⟨cp, hcp⟩ := CRegTestParams_ok_of_assertions ext prim gArgs gArgs c hc hA
        rw [CreateChainParams_regtest, hcp] at hf
        cases hf
    · rintro ⟨h1, h2, h3⟩
      exact ⟨_, CreateChainParams_unknown ext prim gArgs chain h1 h2 h3⟩
  · rintro ⟨h1, h2, h3⟩
    exact ⟨CreateChainParams_unknown ext prim gArgs chain h1 h2 h3,
      occursIn_middle "CreateChainParams: Unknown chain " chain "."⟩

theorem C16_create_fails_iff_unknown_witness :
    GenesisAssertionsHold samplePrimitives ∧
      CreateChainParams knownExternals samplePrimitives (argsWithVbparams []) "mainnet" =
        .error (.runtime_error "CreateChainParams: Unknown chain mainnet.") ∧
      occursIn "mainnet" "CreateChainParams: Unknown chain mainnet." :=
  ⟨⟨rfl, rfl⟩,
    (C16_create_fails_iff_unknown knownExternals samplePrimitives (argsWithVbparams [])
      "mainnet" ⟨rfl, rfl⟩ ⟨_, rfl⟩).2 ⟨by decide, by decide, by decide⟩⟩

/-- C17: in the initial registry state `Params()` fails the assertion on the global slot;
in the state after any successful `SelectParams` call `Params()` succeeds and returns the
stored set; such calls exist. -/
theorem C17_params_contract :
    Params globalChainParams₀ = .error (.assertion "globalChainParams") ∧
      (∀ (ext : Externals) (prim : Primitives) (gArgs : ArgsManager)
        (SelectBaseParams : String → Result Unit) (network : String)
        (prior after : Option CChainParams),
        SelectParams ext prim gArgs SelectBaseParams network prior = .ok after →
        ∃ cp, after = some cp ∧ Params after = .ok cp) ∧
      (∃ after, SelectParams knownExternals samplePrimitives (argsWithVbparams [])
        sampleSelectBaseParams "main" globalChainParams₀ = .ok after) := by
  refine ⟨rfl, ?_, ⟨_, rfl⟩⟩
  intro ext prim gArgs SelectBaseParams network prior after hsel
  unfold SelectParams at hsel
  cases hb : SelectBaseParams network with
  | error e => simp [hb, bind, Except.bind] at hsel
  | ok u =>
    cases hc : CreateChainParams ext prim gArgs network with
    | error e => simp [hb, hc, bind, Except.bind] at hsel
    | ok cp =>
      simp only [hb, hc, bind, Except.bind, pure, Except.pure] at hsel
      have ha : after = some cp := (Except.ok.inj hsel).symm
      exact ⟨cp, ha, by rw [ha]; rfl⟩

/-- C18: in every parameter set that `CreateChainParams` builds, the heights of the
checkpoint table, in the order it is written, are strictly increasing: Main has the 20
entries from 0 to 399211, Test and RegTest the single entry at height 0. -/
theorem C18_checkpoint_heights_increasing (ext : Externals) (prim : Primitives)
    (gArgs : ArgsManager) (chain : String) (cp : CChainParams)
    (h : CreateChainParams ext prim gArgs chain = .ok cp) :
    List.Pairwise (fun a b => a < b) (checkpointHeights cp.checkpointData) ∧
      (chain = "main" →
        checkpointHeights cp.checkpointData =
            [0, 820, 1238, 47800, 61880, 63701, 73321, 85191, 108750, 169900, 199296, 208017,
              224285, 230020, 241413, 242323, 250881, 314100, 352132, 399211] ∧
          cp.checkpointData.length = 20) ∧
      (chain = "test" → checkpointHeights cp.checkpointData = [0]) ∧
      (chain = "regtest" → checkpointHeights cp.checkpointData = [0]) := by
  rcases CreateChainParams_cases ext prim gArgs chain cp h with
    ⟨e, hm⟩ | ⟨e, ht⟩ | ⟨e, hr⟩
  · obtain ⟨-, -, -, hcp, -⟩ := CMainParams_of_ok prim cp hm
    subst e
    rw [hcp]
    exact ⟨by decide, fun _ => ⟨rfl, rfl⟩, fun e => absurd e (by decide),
      fun e => absurd e (by decide)⟩
  · obtain ⟨-, -, -, hcp, -⟩ := CTestNetParams_of_ok prim cp ht
    subst e
    rw [hcp]
    exact ⟨by decide, fun e => absurd e (by decide), fun _ => rfl,
      fun e => absurd e (by decide)⟩
  · obtain ⟨c, -, -, -, -, hcp, -⟩ := CRegTestParams_of_ok ext prim gArgs gArgs cp hr
    subst e
    rw [hcp]
    exact ⟨by decide, fun e => absurd e (by decide), fun e => absurd e (by decide),
      fun _ => rfl⟩

theorem C18_checkpoint_heights_increasing_witness :
    ∃ cp, CreateChainParams knownExternals samplePrimitives (argsWithVbparams []) "main" =
        .ok cp ∧
      List.Pairwise (fun a b => a < b) (checkpointHeights cp.checkpointData) ∧
      cp.checkpointData.length = 20 :=
  have built : ∃ cp, CreateChainParams knownExternals samplePrimitives
      (argsWithVbparams []) "main" = .ok cp := ⟨_, rfl⟩
  built.elim fun cp hcp =>
    have all := C18_checkpoint_heights_increasing knownExternals samplePrimitives
      (argsWithVbparams []) "main" cp hcp
    ⟨cp, hcp, all.1, (all.2.1 rfl).2⟩

theorem resize_one {α : Type} (v : List α) (fill : α) : ∃ a, resize v 1 fill = [a] := by
  cases v with
  | nil => exact ⟨fill, rfl⟩
  | cons a rest => exact ⟨a, by simp [resize]⟩

/-- C19: when a newly constructed block holds no transaction, `CreateGenesisBlock` returns,
for all arguments, a block with a null previous-block hash, the given time, bits, nonce and
version, and exactly one transaction, of version 1, with exactly one input and exactly one
output, the output carrying the given reward and output script; its merkle root is
`BlockMerkleRoot` of the block holding that one transaction. -/
theorem C19_genesis_block_shape (prim : Primitives) (pszTimestamp : String)
    (genesisOutputScript : CScript) (nTime nNonce nBits : Nat) (nVersion genesisReward : Int)
    (hnew : prim.newBlock.vtx = []) :
    ∃ tx txin txout,
      (CreateGenesisBlock prim pszTimestamp genesisOutputScript nTime nNonce nBits nVersion
          genesisReward) =
        { nVersion := nVersion, hashPrevBlock := 0,
          hashMerkleRoot := prim.BlockMerkleRoot
            { nVersion := nVersion, hashPrevBlock := 0,
              hashMerkleRoot := prim.newBlock.hashMerkleRoot, nTime := nTime, nBits := nBits,
              nNonce := nNonce, vtx := [tx] },
          nTime := nTime, nBits := nBits, nNonce := nNonce, vtx := [tx] } ∧
      tx.nVersion = 1 ∧ tx.vin = [txin] ∧ tx.vout = [txout] ∧
      txin.scriptSig =
        prim.pushData (prim.pushScriptNum (prim.pushInt64 [] nBits) 4) (bytesOf pszTimestamp) ∧
      txout.nValue = genesisReward ∧ txout.scriptPubKey = genesisOutputScript := by
  obtain ⟨i, hi⟩ := resize_one prim.newTx.vin prim.newTxIn
  obtain ⟨o, ho⟩ := resize_one prim.newTx.vout prim.newTxOut
  refine ⟨{ nVersion := 1,
            vin := [{ i with
              scriptSig := prim.pushData (prim.pushScriptNum (prim.pushInt64 [] nBits) 4)
                (bytesOf pszTimestamp) }],
            vout := [{ o with nValue := genesisReward, scriptPubKey := genesisOutputScript }],
            nLockTime := prim.newTx.nLockTime }, _, _, ?_, rfl, rfl, rfl, rfl, rfl, rfl⟩
  simp only [CreateGenesisBlock, hi, ho, hnew, assignAt, List.nil_append]

theorem C19_genesis_block_shape_witness :
    samplePrimitives.newBlock.vtx = [] ∧
      ∃ tx txin txout,
        (CreateGenesisBlock samplePrimitives "SEC declares Bitcoin a non security 06/07/2018"
            [] 1522615406 1119233 0x1e0ffff0 1 0).vtx = [tx] ∧
          tx.nVersion = 1 ∧ tx.vin = [txin] ∧ tx.vout = [txout] ∧ txout.nValue = 0 ∧
          txout.scriptPubKey = [] :=
  ⟨rfl,
    (C19_genesis_block_shape samplePrimitives "SEC declares Bitcoin a non security 06/07/2018"
      [] 1522615406 1119233 0x1e0ffff0 1 0 rfl).elim fun tx h => h.elim fun txin h =>
        h.elim fun txout h =>
          ⟨tx, txin, txout, congrArg CBlock.vtx h.1, h.2.1, h.2.2.1, h.2.2.2.1, h.2.2.2.2.2.1,
            h.2.2.2.2.2.2⟩⟩

/-- C20, on the code: the directive "foo:100" has two fields, and the error thrown for it at
line 481 is the literal "Version bits parameters malformed, expecting
deployment:start:end", in which "foo:100" does not occur; constructing the regression-test
parameters with `-vbparams=foo:100` fails with this text, and every directive whose field
count is not three gets the same text, also as the only `-vbparams` value of a
construction.  The other throw sites of the function format the
offending input into their message: "testdummy:abc:200" gives "Invalid nStartTime (abc)"
(line 485), "testdummy:100:xyz" gives "Invalid nTimeout (xyz)" (line 488),
"nosuch:100:200" gives "Invalid deployment (nosuch)" (line 500) and `-segwitheight=-2`
gives "Activation height -2 for segwit is out of valid range. Use -1 to disable segwit."
(line 467). -/
theorem C20_malformed_error_omits_directive :
    (boost_split "foo:100" (is_any_of ":")).length = 2 ∧
      vbparamsBody knownExternals "foo:100" rulesWithMainInterval =
        .error (.runtime_error
          "Version bits parameters malformed, expecting deployment:start:end") ∧
      ¬ occursIn "foo:100" "Version bits parameters malformed, expecting deployment:start:end" ∧
      CRegTestParams knownExternals samplePrimitives (argsWithVbparams ["foo:100"])
          (argsWithVbparams ["foo:100"]) =
        .error (.runtime_error
          "Version bits parameters malformed, expecting deployment:start:end") ∧
      (∀ (ext : Externals) (strDeployment : String) (consensus : Consensus.Params),
        (boost_split strDeployment (is_any_of ":")).length ≠ 3 →
        vbparamsBody ext strDeployment consensus =
          .error (.runtime_error
            "Version bits parameters malformed, expecting deployment:start:end")) ∧
      (∀ (ext : Externals) (prim : Primitives) (gArgs args : ArgsManager)
        (strDeployment : String),
        (boost_split strDeployment (is_any_of ":")).length ≠ 3 →
        gArgs.IsArgSet "-segwitheight" = false →
        args.IsArgSet "-vbparams" = true → args.GetArgs "-vbparams" = [strDeployment] →
        CRegTestParams ext prim gArgs args =
          .error (.runtime_error
            "Version bits parameters malformed, expecting deployment:start:end")) ∧
      vbparamsBody knownExternals "testdummy:abc:200" rulesWithMainInterval =
        .error (.runtime_error "Invalid nStartTime (abc)") ∧
      occursIn "abc" "Invalid nStartTime (abc)" ∧
      vbparamsBody knownExternals "testdummy:100:xyz" rulesWithMainInterval =
        .error (.runtime_error "Invalid nTimeout (xyz)") ∧
      occursIn "xyz" "Invalid nTimeout (xyz)" ∧
      vbparamsBody knownExternals "nosuch:100:200" rulesWithMainInterval =
        .error (.runtime_error "Invalid deployment (nosuch)") ∧
      occursIn "nosuch" "Invalid deployment (nosuch)" ∧
      UpdateActivationParametersFromArgs knownExternals (argsWithSegwitHeight (-2))
          (argsWithSegwitHeight (-2)) rulesWithMainInterval =
        .error (.runtime_error
          "Activation height -2 for segwit is out of valid range. Use -1 to disable segwit.") ∧
      occursIn "-2"
        "Activation height -2 for segwit is out of valid range. Use -1 to disable segwit." :=
  ⟨by decide, rfl, by decide, rfl,
    fun ext strDeployment consensus hcount =>
      vbparamsBody_of_length_ne ext strDeployment consensus hcount,
    fun ext prim gArgs args strDeployment hcount hseg hset hargs => by
      apply CRegTestParams_thrown
      rw [UpdateActivationParametersFromArgs_eq]
      have hseg' : ¬ gArgs.IsArgSet "-segwitheight" = true := by simp [hseg]
      rw [if_neg hseg', if_pos hset, hargs]
      simp [vbparamsLoop, vbparamsBody_of_length_ne ext strDeployment _ hcount, bind,
        Except.bind],
    rfl, by decide, rfl, by decide, rfl, by decide, rfl, by decide⟩

/-! ### The errors of a rejected directive -/

theorem take_of_append (a x b : String) (n : Nat) (hn : n ≤ a.data.length) :
    (a ++ x ++ b).data.take n = a.data.take n := by
  simp only [String.data_append, List.append_assoc]
  exact List.take_append_of_le_length hn

theorem malformed_ne_invalid (a x b : String) (ha : a.data.take 1 = ['I'])
    (hn : 1 ≤ a.data.length) :
    "Version bits parameters malformed, expecting deployment:start:end" ≠ a ++ x ++ b := by
  intro h
  have h' := congrArg (fun s : String => s.data.take 1) h
  simp only [take_of_append a x b 1 hn, ha] at h'
  revert h'
  decide

theorem invalid_texts_ne (a a' x y b b' : String) (n : Nat) (hn : n ≤ a.data.length)
    (hn' : n ≤ a'.data.length) (hne : a.data.take n ≠ a'.data.take n) :
    a ++ x ++ b ≠ a' ++ y ++ b' := by
  intro h
  have h' := congrArg (fun s : String => s.data.take n) h
  simp only [take_of_append a x b n hn, take_of_append a' y b' n hn'] at h'
  exact hne h'

/-- C21: the loop body rejects a `-vbparams` directive with the error of the first failing
check, in the order field count, start field, end field, deployment name: the fixed
malformed text, "Invalid nStartTime (start)", "Invalid nTimeout (end)", "Invalid deployment
(name)"; every rejection is one of these four, the four texts are pairwise different, the
last three contain the offending field, and the deployment error occurs only when both
numbers parse.  "foo:abc:200" reports "Invalid nStartTime (abc)". -/
theorem C21_first_failing_check (ext : Externals) (consensus : Consensus.Params)
    (strDeployment : String) :
    ((boost_split strDeployment (is_any_of ":")).length ≠ 3 →
      vbparamsBody ext strDeployment consensus = .error (.runtime_error
        "Version bits parameters malformed, expecting deployment:start:end")) ∧
    (∀ name start end_, boost_split strDeployment (is_any_of ":") = [name, start, end_] →
      (ext.ParseInt64 start = none →
        vbparamsBody ext strDeployment consensus =
          .error (.runtime_error ("Invalid nStartTime (" ++ start ++ ")"))) ∧
      (∀ s, ext.ParseInt64 start = some s → ext.ParseInt64 end_ = none →
        vbparamsBody ext strDeployment consensus =
          .error (.runtime_error ("Invalid nTimeout (" ++ end_ ++ ")"))) ∧
      (∀ s t, ext.ParseInt64 start = some s → ext.ParseInt64 end_ = some t →
        name ∉ ext.VersionBitsDeploymentInfo →
        vbparamsBody ext strDeployment consensus =
          .error (.runtime_error ("Invalid deployment (" ++ name ++ ")"))) ∧
      (∀ s t, ext.ParseInt64 start = some s → ext.ParseInt64 end_ = some t →
        name ∈ ext.VersionBitsDeploymentInfo →
        ∃ c', vbparamsBody ext strDeployment consensus = .ok c')) ∧
    (∀ fault, vbparamsBody ext strDeployment consensus = .error fault →
      fault = .runtime_error "Version bits parameters malformed, expecting deployment:start:end" ∨
      (∃ x, fault = .runtime_error ("Invalid nStartTime (" ++ x ++ ")")) ∨
      (∃ x, fault = .runtime_error ("Invalid nTimeout (" ++ x ++ ")")) ∨
      (∃ x, fault = .runtime_error ("Invalid deployment (" ++ x ++ ")"))) ∧
    (∀ x y z : String,
      "Version bits parameters malformed, expecting deployment:start:end" ≠
          "Invalid nStartTime (" ++ x ++ ")" ∧
        "Version bits parameters malformed, expecting deployment:start:end" ≠
          "Invalid nTimeout (" ++ y ++ ")" ∧
        "Version bits parameters malformed, expecting deployment:start:end" ≠
          "Invalid deployment (" ++ z ++ ")" ∧
        "Invalid nStartTime (" ++ x ++ ")" ≠ "Invalid nTimeout (" ++ y ++ ")" ∧
        "Invalid nStartTime (" ++ x ++ ")" ≠ "Invalid deployment (" ++ z ++ ")" ∧
        "Invalid nTimeout (" ++ y ++ ")" ≠ "Invalid deployment (" ++ z ++ ")") ∧
    (∀ x : String, occursIn x ("Invalid nStartTime (" ++ x ++ ")") ∧
      occursIn x ("Invalid nTimeout (" ++ x ++ ")") ∧
      occursIn x ("Invalid deployment (" ++ x ++ ")")) ∧
    (∀ z, vbparamsBody ext strDeployment consensus =
        .error (.runtime_error ("Invalid deployment (" ++ z ++ ")")) →
      ∃ name start end_ s t, boost_split strDeployment (is_any_of ":") = [name, start, end_] ∧
        ext.ParseInt64 start = some s ∧ ext.ParseInt64 end_ = some t ∧
        name ∉ ext.VersionBitsDeploymentInfo) ∧
    (∀ c, vbparamsBody knownExternals "foo:abc:200" c =
        .error (.runtime_error "Invalid nStartTime (abc)")) ∧
    knownExternals.ParseInt64 "abc" = none ∧
    "foo" ∉ knownExternals.VersionBitsDeploymentInfo := by
  have hdist : ∀ x y z : String,
      "Version bits parameters malformed, expecting deployment:start:end" ≠
          "Invalid nStartTime (" ++ x ++ ")" ∧
        "Version bits parameters malformed, expecting deployment:start:end" ≠
          "Invalid nTimeout (" ++ y ++ ")" ∧
        "Version bits parameters malformed, expecting deployment:start:end" ≠
          "Invalid deployment (" ++ z ++ ")" ∧
        "Invalid nStartTime (" ++ x ++ ")" ≠ "Invalid nTimeout (" ++ y ++ ")" ∧
        "Invalid nStartTime (" ++ x ++ ")" ≠ "Invalid deployment (" ++ z ++ ")" ∧
        "Invalid nTimeout (" ++ y ++ ")" ≠ "Invalid deployment (" ++ z ++ ")" := by
    intro x y z
    exact ⟨malformed_ne_invalid _ x _ (by decide) (by decide),
      malformed_ne_invalid _ y _ (by decide) (by decide),
      malformed_ne_invalid _ z _ (by decide) (by decide),
      invalid_texts_ne _ _ x y _ _ 10 (by decide) (by decide) (by decide),
      invalid_texts_ne _ _ x z _ _ 10 (by decide) (by decide) (by decide),
      invalid_texts_ne _ _ y z _ _ 10 (by decide) (by decide) (by decide)⟩
  have hfields : ∀ name start end_,
      boost_split strDeployment (is_any_of ":") = [name, start, end_] →
      (ext.ParseInt64 start = none →
        vbparamsBody ext strDeployment consensus =
          .error (.runtime_error ("Invalid nStartTime (" ++ start ++ ")"))) ∧
      (∀ s, ext.ParseInt64 start = some s → ext.ParseInt64 end_ = none →
        vbparamsBody ext strDeployment consensus =
          .error (.runtime_error ("Invalid nTimeout (" ++ end_ ++ ")"))) ∧
      (∀ s t, ext.ParseInt64 start = some s → ext.ParseInt64 end_ = some t →
        name ∉ ext.VersionBitsDeploymentInfo →
        vbparamsBody ext strDeployment consensus =
          .error (.runtime_error ("Invalid deployment (" ++ name ++ ")"))) ∧
      (∀ s t, ext.ParseInt64 start = some s → ext.ParseInt64 end_ = some t →
        name ∈ ext.VersionBitsDeploymentInfo →
        ∃ c', vbparamsBody ext strDeployment consensus = .ok c') := by
    intro name start end_ hsplit
    have hb := vbparamsBody_of_fields ext strDeployment consensus name start end_ hsplit
    refine ⟨?_, ?_, ?_, ?_⟩
    · intro hs
      rw [hb, hs]
    · intro s hs ht
      rw [hb, hs, ht]
    · intro s t hs ht hmem
      rw [hb, hs, ht]
      simp only [deploymentLoop_of_not_mem name s t _ 0 consensus hmem]
      rfl
    · intro s t hs ht hmem
      exact (vbparamsBody_ok_iff ext strDeployment consensus).mpr
        ⟨name, start, end_, hsplit, ⟨s, hs⟩, ⟨t, ht⟩, hmem⟩
  have hcases : ∀ fault, vbparamsBody ext strDeployment consensus = .error fault →
      (fault = .runtime_error
          "Version bits parameters malformed, expecting deployment:start:end" ∧
        (boost_split strDeployment (is_any_of ":")).length ≠ 3) ∨
      (∃ name start end_, boost_split strDeployment (is_any_of ":") = [name, start, end_] ∧
        ((fault = .runtime_error ("Invalid nStartTime (" ++ start ++ ")") ∧
            ext.ParseInt64 start = none) ∨
          (fault = .runtime_error ("Invalid nTimeout (" ++ end_ ++ ")") ∧
            ext.ParseInt64 end_ = none) ∨
          (fault = .runtime_error ("Invalid deployment (" ++ name ++ ")") ∧
            (∃ s, ext.ParseInt64 start = some s) ∧ (∃ t, ext.ParseInt64 end_ = some t) ∧
            name ∉ ext.VersionBitsDeploymentInfo))) := by
    intro fault hf
    by_cases hlen : (boost_split strDeployment (is_any_of ":")).length = 3
    · obtain ⟨name, start, end_, hsplit⟩ := length_eq_three _ hlen
      obtain ⟨h1, h2, h3, h4⟩ := hfields name start end_ hsplit
      refine Or.inr ⟨name, start, end_, hsplit, ?_⟩
      cases hs : ext.ParseInt64 start with
      | none =>
        rw [h1 hs] at hf
        exact Or.inl ⟨(Except.error.inj hf).symm, rfl⟩
      | some s =>
        cases ht : ext.ParseInt64 end_ with
        | none =>
          rw [h2 s hs ht] at hf
          exact Or.inr (Or.inl ⟨(Except.error.inj hf).symm, rfl⟩)
        | some t =>
          by_cases hmem : name ∈ ext.VersionBitsDeploymentInfo
          · obtain ⟨c', hc'⟩ := h4 s t hs ht hmem
            rw [hc'] at hf
            cases hf
          · rw [h3 s t hs ht hmem] at hf
            exact Or.inr (Or.inr ⟨(Except.error.inj hf).symm, ⟨s, rfl⟩, ⟨t, rfl⟩, hmem⟩)
    · rw [vbparamsBody_of_length_ne ext strDeployment consensus hlen] at hf
      exact Or.inl ⟨(Except.error.inj hf).symm, hlen⟩
  refine ⟨vbparamsBody_of_length_ne ext strDeployment consensus, hfields, ?_, hdist, ?_, ?_,
    ?_, by decide, by decide⟩
  · intro fault hf
    rcases hcases fault hf with ⟨h, -⟩ | ⟨name, start, end_, -, h | h | h⟩
    · exact Or.inl h
    · exact Or.inr (Or.inl ⟨start, h.1⟩)
    · exact Or.inr (Or.inr (Or.inl ⟨end_, h.1⟩))
    · exact Or.inr (Or.inr (Or.inr ⟨name, h.1⟩))
  · intro x
    exact ⟨occursIn_middle _ x _, occursIn_middle _ x _, occursIn_middle _ x _⟩
  · intro z hz
    rcases hcases _ hz with ⟨h, -⟩ | ⟨name, start, end_, hsplit, h | h | h⟩
    · injection h with h
      exact absurd h.symm (hdist z z z).2.2.1
    · injection h.1 with h'
      exact absurd h'.symm (hdist start z z).2.2.2.2.1
    · injection h.1 with h'
      exact absurd h'.symm (hdist z end_ z).2.2.2.2.2
    · obtain ⟨-, ⟨s, hs⟩, ⟨t, ht⟩, hmem⟩ := h
      exact ⟨name, start, end_, s, t, hsplit, hs, ht, hmem⟩
  · intro c
    rw [vbparamsBody_of_fields knownExternals "foo:abc:200" c "foo" "abc" "200" (by decide)]
    rfl

/-! ### The constants of the three networks -/

theorem CMainParams_nTargetSpacing (prim : Primitives) (cp : CChainParams)
    (h : CMainParams prim = .ok cp) : cp.nTargetSpacing = 120 := by
  unfold CMainParams at h
  simp only [bind, Except.bind, pure, Except.pure, throw, throwThe, MonadExceptOf.throw] at h
  split at h
  · cases h
  · split at h
    · cases h
    · injection h with h
      subst h
      rfl

theorem CTestNetParams_nTargetSpacing (prim : Primitives) (cp : CChainParams)
    (h : CTestNetParams prim = .ok cp) : cp.nTargetSpacing = 120 := by
  unfold CTestNetParams at h
  simp only [bind, Except.bind, pure, Except.pure, throw, throwThe, MonadExceptOf.throw] at h
  split at h
  · cases h
  · split at h
    · cases h
    · injection h with h
      subst h
      rfl

theorem CRegTestParams_nTargetSpacing (ext : Externals) (prim : Primitives)
    (gArgs args : ArgsManager) (cp : CChainParams)
    (h : CRegTestParams ext prim gArgs args = .ok cp) : cp.nTargetSpacing = 120 := by
  unfold CRegTestParams at h
  cases hu : UpdateActivationParametersFromArgs ext gArgs args
      (CRegTestParams.beforeArgs prim).consensus with
  | error e =>
    simp [hu, bind, Except.bind] at h
  | ok c =>
    simp only [hu, bind, Except.bind, pure, Except.pure, throw, throwThe,
      MonadExceptOf.throw] at h
    split at h
    · cases h
    · split at h
      · cases h
      · injection h with h
        subst h
        rfl

/-- Every parameter set that `CreateChainParams` builds has the halving interval 1,050,000
and the target spacing 120. -/
theorem CreateChainParams_reward_constants (ext : Externals) (prim : Primitives)
    (gArgs : ArgsManager) (chain : String) (cp : CChainParams)
    (h : CreateChainParams ext prim gArgs chain = .ok cp) :
    cp.consensus.nSubsidyHalvingInterval = 1050000 ∧ cp.nTargetSpacing = 120 := by
  rcases CreateChainParams_cases ext prim gArgs chain cp h with
    ⟨-, hm⟩ | ⟨-, ht⟩ | ⟨-, hr⟩
  · obtain ⟨-, hcons, -⟩ := CMainParams_of_ok prim cp hm
    exact ⟨by rw [hcons]; rfl, CMainParams_nTargetSpacing prim cp hm⟩
  · obtain ⟨-, hcons, -⟩ := CTestNetParams_of_ok prim cp ht
    exact ⟨by rw [hcons]; rfl, CTestNetParams_nTargetSpacing prim cp ht⟩
  · obtain ⟨c, hu, -, hcons, -⟩ := CRegTestParams_of_ok ext prim gArgs gArgs cp hr
    obtain ⟨hframe, -, -⟩ := UpdateActivationParametersFromArgs_of_ok ext gArgs gArgs _ c hu
    have e := congrArg Consensus.Params.nSubsidyHalvingInterval hframe
    simp only [CRegTestParams.beforeArgs] at e
    exact ⟨by rw [hcons]; exact e, CRegTestParams_nTargetSpacing ext prim gArgs gArgs cp hr⟩

/-- C22, on the code: in every parameter set that `CreateChainParams` builds, the genesis
hash is the asserted constant 0xdd28ad86...; the checkpoint table of Main and of Test holds
it at height 0, while the table of RegTest is the single entry at height 0 with the hash
0xe734db84..., which is not the genesis hash. -/
theorem C22_height_zero_checkpoint (ext : Externals) (prim : Primitives) (gArgs : ArgsManager)
    (chain : String) (cp : CChainParams)
    (h : CreateChainParams ext prim gArgs chain = .ok cp) :
    cp.consensus.hashGenesisBlock =
        0xdd28ad86def767c3cfc34267a950d871fc7462bc57ea4a929fc3596d9b598e41 ∧
      (chain = "main" ∨ chain = "test" →
        cp.checkpointData.head? = some (0, cp.consensus.hashGenesisBlock)) ∧
      (chain = "regtest" →
        cp.checkpointData =
            [(0, 0xe734db844dfe5a7a06ec42a71c0540f723033830be91bb59524b6e9acbd3345b)] ∧
          (0, cp.consensus.hashGenesisBlock) ∉ cp.checkpointData) := by
  rcases CreateChainParams_cases ext prim gArgs chain cp h with
    ⟨e, hm⟩ | ⟨e, ht⟩ | ⟨e, hr⟩
  · obtain ⟨hA, hcons, -, hcp, -⟩ := CMainParams_of_ok prim cp hm
    have hg : cp.consensus.hashGenesisBlock =
        0xdd28ad86def767c3cfc34267a950d871fc7462bc57ea4a929fc3596d9b598e41 := by
      rw [hcons]
      exact hA.1
    subst e
    refine ⟨hg, fun _ => ?_, fun e => absurd e (by decide)⟩
    rw [hcp, hg]
    rfl
  · obtain ⟨hA, hcons, -, hcp, -⟩ := CTestNetParams_of_ok prim cp ht
    have hg : cp.consensus.hashGenesisBlock =
        0xdd28ad86def767c3cfc34267a950d871fc7462bc57ea4a929fc3596d9b598e41 := by
      rw [hcons]
      exact hA.1
    subst e
    refine ⟨hg, fun _ => ?_, fun e => absurd e (by decide)⟩
    rw [hcp, hg]
    rfl
  · obtain ⟨c, -, hA, hcons, -, hcp, -⟩ := CRegTestParams_of_ok ext prim gArgs gArgs cp hr
    have hg : cp.consensus.hashGenesisBlock =
        0xdd28ad86def767c3cfc34267a950d871fc7462bc57ea4a929fc3596d9b598e41 := by
      rw [hcons]
      exact hA.1
    subst e
    refine ⟨hg, fun e => ?_, fun _ => ⟨hcp, ?_⟩⟩
    · rcases e with e | e <;> exact absurd e (by decide)
    · rw [hcp, hg]
      decide

theorem C22_height_zero_checkpoint_witness :
    ∃ cp, CreateChainParams knownExternals samplePrimitives (argsWithVbparams []) "regtest" =
        .ok cp ∧
      cp.consensus.hashGenesisBlock =
        0xdd28ad86def767c3cfc34267a950d871fc7462bc57ea4a929fc3596d9b598e41 ∧
      cp.checkpointData =
        [(0, 0xe734db844dfe5a7a06ec42a71c0540f723033830be91bb59524b6e9acbd3345b)] ∧
      (0, cp.consensus.hashGenesisBlock) ∉ cp.checkpointData :=
  have built : ∃ cp, CreateChainParams knownExternals samplePrimitives
      (argsWithVbparams []) "regtest" = .ok cp := ⟨_, rfl⟩
  built.elim fun cp hcp =>
    have all := C22_height_zero_checkpoint knownExternals samplePrimitives
      (argsWithVbparams []) "regtest" cp hcp
    ⟨cp, hcp, all.1, (all.2.2 rfl).1, (all.2.2 rfl).2⟩

/-! ### Ranges of the proof-of-stake reward -/

theorem checked32_of_fits {x : Int} (h : fitsInt32 x) : checked32 x = .ok x := by
  unfold checked32
  rw [if_pos h]

theorem checked64_of_fits {x : Int} (h : fitsInt64 x) : checked64 x = .ok x := by
  unfold checked64
  rw [if_pos h]

/-- With every operation checked, `GetInitialRewards` returns the same value at a height
that is a non-negative `int`. -/
theorem GetInitialRewardsChecked_eq (h : Int) (p : Consensus.Params)
    (hI : 0 < p.nSubsidyHalvingInterval) (hh : 0 ≤ h) (hh' : h ≤ 2147483647) :
    GetInitialRewardsChecked h p = GetInitialRewards h p := by
  rw [GetInitialRewards_eq h p hI hh]
  have hne : p.nSubsidyHalvingInterval ≠ 0 := by omega
  have hq : Int.tdiv h p.nSubsidyHalvingInterval = h / p.nSubsidyHalvingInterval :=
    Int.tdiv_eq_ediv hh (by omega)
  have hq0 : 0 ≤ h / p.nSubsidyHalvingInterval := Int.ediv_nonneg hh (by omega)
  have hqle : h / p.nSubsidyHalvingInterval ≤ h := Int.ediv_le_self _ hh
  have hfit : fitsInt32 (h / p.nSubsidyHalvingInterval) := by
    constructor <;> omega
  have c64 : checked64 (64 * COIN) = .ok (64 * COIN) := checked64_of_fits (by decide)
  have c38 : checked64 (38000000 * COIN) = .ok (38000000 * COIN) :=
    checked64_of_fits (by decide)
  have c1 : checked64 (1 * COIN) = .ok (1 * COIN) := checked64_of_fits (by decide)
  unfold GetInitialRewardsChecked cdiv shr64
  simp only [hne, if_false, hq, bind, Except.bind, checked32_of_fits hfit, c64, c38, c1]
  by_cases h64 : 64 ≤ h / p.nSubsidyHalvingInterval
  · simp [h64, pure, Except.pure]
  · have hlt : h / p.nSubsidyHalvingInterval < 64 := by omega
    by_cases h1 : h = 1
    · subst h1
      simp [h64, hq0, hlt, pure, Except.pure, COIN]
    · simp [h64, hq0, hlt, h1, pure, Except.pure, halvedSubsidy]
      split <;> rfl

/-- With the halving interval 1,050,000 the reward at a height, multiplied by the height,
stays far below 2^63. -/
theorem height_times_reward_bound (p : Consensus.Params) (h : Int)
    (hI : p.nSubsidyHalvingInterval = 1050000) (hh : 0 ≤ h) :
    ∃ r, GetInitialRewards h p = .ok r ∧ 0 ≤ r ∧ 0 ≤ h * r ∧
      h * r ≤ 430080000000000000 := by
  have hI0 : 0 < p.nSubsidyHalvingInterval := by omega
  refine ⟨_, GetInitialRewards_eq h p hI0 hh, ?_⟩
  rw [hI]
  by_cases h64 : 64 ≤ h / 1050000
  · rw [if_pos h64]
    simp
  · rw [if_neg h64]
    have hlt : h < 67200000 := by omega
    by_cases h1 : h = 1
    · rw [if_pos h1, h1]
      decide
    · rw [if_neg h1]
      have hr0 : 0 ≤ halvedSubsidy (h / 1050000).toNat := by
        have := halvedSubsidy_ge_coin (h / 1050000).toNat
        unfold COIN at this
        omega
      have hr1 : halvedSubsidy (h / 1050000).toNat ≤ 6400000000 := by
        have := halvedSubsidy_le (h / 1050000).toNat
        unfold COIN at this
        omega
      refine ⟨hr0, mul_nonneg hh hr0, ?_⟩
      calc h * halvedSubsidy (h / 1050000).toNat
          ≤ 67200000 * 6400000000 := mul_le_mul (by omega) hr1 hr0 (by norm_num)
        _ = 430080000000000000 := by norm_num

theorem blocksPerYearChecked_main : blocksPerYearChecked 120 = .ok 262800 := by
  decide

/-- The checked computation after a predecessor that is not proof-of-stake, step by step. -/
theorem GetProofOfStakeRewardChecked_after_pow (self g : CChainParams)
    (pindexPrev : CBlockIndex) (nFees : Int) (allowInitial : Bool) (rPrev rOne : Int)
    (hpow : pindexPrev.IsProofOfStake = false)
    (hPrev : GetInitialRewardsChecked pindexPrev.nHeight g.consensus = .ok rPrev)
    (hOne : GetInitialRewardsChecked 1 g.consensus = .ok rOne)
    (hs : self.nTargetSpacing = 120)
    (h1 : fitsInt64 (pindexPrev.nHeight * rPrev))
    (h2 : fitsInt64 (pindexPrev.nHeight * rPrev + rOne))
    (h3 : fitsInt64 (Int.tdiv (pindexPrev.nHeight * rPrev + rOne) COIN))
    (h4 : fitsInt64 (Int.tdiv (pindexPrev.nHeight * rPrev + rOne) COIN * (5 * 1000000)))
    (h5 : fitsInt64
      (Int.tdiv (Int.tdiv (pindexPrev.nHeight * rPrev + rOne) COIN * (5 * 1000000)) 262800))
    (h6 : fitsInt64
      (Int.tdiv (Int.tdiv (pindexPrev.nHeight * rPrev + rOne) COIN * (5 * 1000000)) 262800
        + nFees)) :
    GetProofOfStakeRewardChecked self (some g) pindexPrev nFees allowInitial =
      .ok (Int.tdiv (Int.tdiv (pindexPrev.nHeight * rPrev + rOne) COIN * (5 * 1000000)) 262800
        + nFees) := by
  have hrate : checked32 (5 * 1000000) = .ok (5 * 1000000) := checked32_of_fits (by decide)
  have hcoin : cdiv (pindexPrev.nHeight * rPrev + rOne) COIN =
      .ok (Int.tdiv (pindexPrev.nHeight * rPrev + rOne) COIN) :=
    cdiv_of_ne_zero _ (by decide)
  have hdiv : cdiv (Int.tdiv (pindexPrev.nHeight * rPrev + rOne) COIN * (5 * 1000000)) 262800 =
      .ok (Int.tdiv (Int.tdiv (pindexPrev.nHeight * rPrev + rOne) COIN * (5 * 1000000)) 262800) :=
    cdiv_of_ne_zero _ (by decide)
  simp only [GetProofOfStakeRewardChecked, GetProofOfStakeReward, hpow, Params, hPrev, hOne,
    hs, bind, Except.bind, pure, Except.pure, checked64_of_fits h1, checked64_of_fits h2, hcoin,
    checked64_of_fits h3, hrate, checked64_of_fits h4, blocksPerYearChecked_main, hdiv,
    checked64_of_fits h5, Bool.not_false, if_true, Bool.and_false, Bool.false_eq_true,
    if_false, checked64_of_fits h6]

/-- C23: with the halving interval 1,050,000 and the target spacing 120, for every previous
height p with 0 <= p <= 2,147,483,647, a predecessor that is not proof-of-stake and fees
with 0 <= fees <= 2^62, the computation of `GetProofOfStakeReward` with every operation
checked returns a value, the one of the same formula over the integers: the divisor is
262,800 and not zero, and p x GetInitialRewards(p), its sum with GetInitialRewards(1), the
product with 5,000,000 and the result all fit in a signed 64-bit integer.  Every parameter
set that `CreateChainParams` builds has these two constants. -/
theorem C23_reward_computation_in_range (self g : CChainParams) (pindexPrev : CBlockIndex)
    (nFees : Int) (allowInitial : Bool)
    (hI : g.consensus.nSubsidyHalvingInterval = 1050000) (hs : self.nTargetSpacing = 120)
    (hpow : pindexPrev.IsProofOfStake = false)
    (hp0 : 0 ≤ pindexPrev.nHeight) (hp1 : pindexPrev.nHeight ≤ 2147483647)
    (hf0 : 0 ≤ nFees) (hf1 : nFees ≤ 2 ^ 62) :
    ∃ rPrev rOne v,
      GetInitialRewardsChecked pindexPrev.nHeight g.consensus = .ok rPrev ∧
      GetInitialRewardsChecked 1 g.consensus = .ok rOne ∧
      fitsInt64 (pindexPrev.nHeight * rPrev) ∧
      fitsInt64 (pindexPrev.nHeight * rPrev + rOne) ∧
      fitsInt64 (Int.tdiv (pindexPrev.nHeight * rPrev + rOne) COIN * (5 * 1000000)) ∧
      blocksPerYearChecked self.nTargetSpacing = .ok 262800 ∧
      GetProofOfStakeRewardChecked self (some g) pindexPrev nFees allowInitial = .ok v ∧
      GetProofOfStakeReward self (some g) pindexPrev nFees allowInitial = .ok v ∧
      fitsInt64 v ∧
      v = Int.tdiv (Int.tdiv (pindexPrev.nHeight * rPrev + rOne) COIN * (5 * 1000000)) 262800
        + nFees ∧
      GetInitialRewards pindexPrev.nHeight g.consensus = .ok rPrev ∧
      GetInitialRewards 1 g.consensus = .ok rOne ∧
      (∀ (ext : Externals) (prim : Primitives) (gArgs : ArgsManager) (chain : String)
        (cp : CChainParams), CreateChainParams ext prim gArgs chain = .ok cp →
        cp.consensus.nSubsidyHalvingInterval = 1050000 ∧ cp.nTargetSpacing = 120) := by
  obtain ⟨rPrev, hPrev, hr0, hpr0, hpr1⟩ :=
    height_times_reward_bound g.consensus pindexPrev.nHeight hI hp0
  have hI0 : 0 < g.consensus.nSubsidyHalvingInterval := by omega
  have hOne := GetInitialRewards_one g.consensus hI0
  have hcPrev := GetInitialRewardsChecked_eq pindexPrev.nHeight g.consensus hI0 hp0 hp1
  have hcOne := GetInitialRewardsChecked_eq 1 g.consensus hI0 (by norm_num) (by norm_num)
  rw [hPrev] at hcPrev
  rw [hOne] at hcOne
  have hOneV : (38000000 * COIN : Int) = 3800000000000000 := by decide
  have hCOIN : COIN = 100000000 := rfl
  have hf1' : nFees ≤ 4611686018427387904 := by
    have : (2 : Int) ^ 62 = 4611686018427387904 := by norm_num
    omega
  have hT0 : 0 ≤ pindexPrev.nHeight * rPrev + 38000000 * COIN := by omega
  have hq : Int.tdiv (pindexPrev.nHeight * rPrev + 38000000 * COIN) COIN =
      (pindexPrev.nHeight * rPrev + 38000000 * COIN) / 100000000 := by
    rw [Int.tdiv_eq_ediv hT0 (by decide), hCOIN]
  have hq0 : 0 ≤ (pindexPrev.nHeight * rPrev + 38000000 * COIN) / 100000000 := by omega
  have hq1 : (pindexPrev.nHeight * rPrev + 38000000 * COIN) / 100000000 ≤ 4338800000 := by
    omega
  have hd : Int.tdiv ((pindexPrev.nHeight * rPrev + 38000000 * COIN) / 100000000 *
      (5 * 1000000)) 262800 =
      ((pindexPrev.nHeight * rPrev + 38000000 * COIN) / 100000000 * (5 * 1000000)) / 262800 := by
    rw [Int.tdiv_eq_ediv (by omega) (by decide)]
  have h1 : fitsInt64 (pindexPrev.nHeight * rPrev) := by
    constructor <;> omega
  have h2 : fitsInt64 (pindexPrev.nHeight * rPrev + 38000000 * COIN) := by
    constructor <;> omega
  have h3 : fitsInt64 (Int.tdiv (pindexPrev.nHeight * rPrev + 38000000 * COIN) COIN) := by
    rw [hq]
    constructor <;> omega
  have h4 : fitsInt64
      (Int.tdiv (pindexPrev.nHeight * rPrev + 38000000 * COIN) COIN * (5 * 1000000)) := by
    rw [hq]
    constructor <;> omega
  have h5 : fitsInt64 (Int.tdiv
      (Int.tdiv (pindexPrev.nHeight * rPrev + 38000000 * COIN) COIN * (5 * 1000000)) 262800) := by
    rw [hq, hd]
    constructor <;> omega
  have h6 : fitsInt64 (Int.tdiv
      (Int.tdiv (pindexPrev.nHeight * rPrev + 38000000 * COIN) COIN * (5 * 1000000)) 262800
        + nFees) := by
    rw [hq, hd]
    constructor <;> omega
  have hchecked := GetProofOfStakeRewardChecked_after_pow self g pindexPrev nFees allowInitial
    rPrev (38000000 * COIN) hpow hcPrev hcOne hs h1 h2 h3 h4 h5 h6
  refine ⟨rPrev, 38000000 * COIN, _, hcPrev, hcOne, h1, h2, h4, ?_, hchecked, hchecked, h6,
    rfl, hPrev, hOne, CreateChainParams_reward_constants⟩
  rw [hs]
  exact blocksPerYearChecked_main

theorem C23_reward_computation_in_range_witness :
    (paramsWithMainSpacing 0).consensus.nSubsidyHalvingInterval = 1050000 ∧
      (paramsWithMainSpacing 0).nTargetSpacing = 120 ∧
      (2 : Int) ^ 62 ≤ 2 ^ 62 ∧
      ∃ v, GetProofOfStakeRewardChecked (paramsWithMainSpacing 0)
          (some (paramsWithMainSpacing 0)) ⟨2147483647, 0, false⟩ (2 ^ 62) false = .ok v ∧
        GetProofOfStakeReward (paramsWithMainSpacing 0)
          (some (paramsWithMainSpacing 0)) ⟨2147483647, 0, false⟩ (2 ^ 62) false = .ok v ∧
        fitsInt64 v :=
  ⟨rfl, rfl, le_refl _,
    (C23_reward_computation_in_range (paramsWithMainSpacing 0) (paramsWithMainSpacing 0)
      ⟨2147483647, 0, false⟩ (2 ^ 62) false rfl rfl rfl (by decide) (by decide) (by decide)
      (le_refl _)).elim fun _ h => h.elim fun _ h => h.elim fun v h =>
        ⟨v, h.2.2.2.2.2.2.1, h.2.2.2.2.2.2.2.1, h.2.2.2.2.2.2.2.2.1⟩⟩


/-! ### The value of the proof-of-stake reward -/

theorem checked64_of_not_fits {x : Int} (h : ¬ fitsInt64 x) :
    checked64 x = .error (.undefined "signed overflow") := by
  unfold checked64
  rw [if_neg h]

/-- A quotient truncated toward zero is no larger in size than the dividend. -/
theorem fitsInt64_tdiv {x d : Int} (hx : fitsInt64 x) (hd : 0 < d) : fitsInt64 (Int.tdiv x d) := by
  unfold fitsInt64 at hx ⊢
  by_cases h0 : 0 ≤ x
  · rw [Int.tdiv_eq_ediv h0 hd.le]
    have h1 : x / d ≤ x := Int.ediv_le_self d h0
    have h2 : 0 ≤ x / d := Int.ediv_nonneg h0 hd.le
    constructor <;> omega
  · have hneg : 0 ≤ -x := by omega
    have e : Int.tdiv x d = -(Int.tdiv (-x) d) := by
      rw [Int.neg_tdiv, neg_neg]
    rw [e, Int.tdiv_eq_ediv hneg hd.le]
    have h1 : -x / d ≤ -x := Int.ediv_le_self d hneg
    have h2 : 0 ≤ -x / d := Int.ediv_nonneg hneg hd.le
    constructor <;> omega

/-- The divisor for a target spacing between 1 and 3600 seconds: no operation overflows and
the divisor is positive. -/
theorem blocksPerYearChecked_eq {s : Int} (hs : 0 < s) (hs' : s ≤ 3600) :
    blocksPerYearChecked s = .ok (365 * 24 * Int.fdiv 3600 s) ∧
      0 < 365 * 24 * Int.fdiv 3600 s := by
  have hq1 : 1 ≤ (3600 : Int) / s := by
    rw [Int.le_ediv_iff_mul_le hs]
    omega
  have hq2 : (3600 : Int) / s ≤ 3600 := Int.ediv_le_self s (by norm_num)
  have ef : Int.fdiv 3600 s = 3600 / s := Int.fdiv_eq_ediv _ hs.le
  have et : Int.tdiv (60 * 60) s = 3600 / s := by
    rw [Int.tdiv_eq_ediv (by norm_num) hs.le]
    norm_num
  have c1 : checked32 (60 * 60) = .ok (60 * 60) := checked32_of_fits (by decide)
  have c2 : cdiv (60 * 60) s = .ok (3600 / s) := by
    rw [cdiv_of_ne_zero _ (by omega), et]
  have c3 : checked64 (3600 / s) = .ok (3600 / s) :=
    checked64_of_fits (by constructor <;> omega)
  have c4 : checked32 (365 * 24) = .ok (365 * 24) := checked32_of_fits (by decide)
  have c5 : checked64 (365 * 24 * (3600 / s)) = .ok (365 * 24 * (3600 / s)) :=
    checked64_of_fits (by constructor <;> omega)
  refine ⟨?_, by rw [ef]; omega⟩
  simp only [blocksPerYearChecked, bind, Except.bind, c1, c2, c3, c4, c5, ef]

/-- The computation after a predecessor that is not proof-of-stake, up to the final
addition of the fees. -/
theorem GetProofOfStakeReward_after_pow (self g : CChainParams) (pindexPrev : CBlockIndex)
    (nFees : Int) (allowInitial : Bool) (rPrev rOne d : Int)
    (hpow : pindexPrev.IsProofOfStake = false)
    (hPrev : GetInitialRewardsChecked pindexPrev.nHeight g.consensus = .ok rPrev)
    (hOne : GetInitialRewardsChecked 1 g.consensus = .ok rOne)
    (hd : blocksPerYearChecked self.nTargetSpacing = .ok d) (hd0 : 0 < d)
    (hr0 : 0 ≤ pindexPrev.nHeight * rPrev) (hOne0 : 0 ≤ rOne)
    (h2 : fitsInt64 (pindexPrev.nHeight * rPrev + rOne)) :
    GetProofOfStakeReward self (some g) pindexPrev nFees allowInitial =
      checked64 (Int.fdiv (Int.fdiv (pindexPrev.nHeight * rPrev + rOne) COIN * 5000000) d
        + nFees) := by
  have hCOIN : COIN = 100000000 := rfl
  have hT0 : 0 ≤ pindexPrev.nHeight * rPrev + rOne := by omega
  have h2' := h2
  unfold fitsInt64 at h2'
  have h1 : fitsInt64 (pindexPrev.nHeight * rPrev) := by
    constructor <;> omega
  have hq : Int.tdiv (pindexPrev.nHeight * rPrev + rOne) COIN =
      (pindexPrev.nHeight * rPrev + rOne) / 100000000 := by
    rw [Int.tdiv_eq_ediv hT0 (by decide), hCOIN]
  have hqf : Int.fdiv (pindexPrev.nHeight * rPrev + rOne) COIN =
      (pindexPrev.nHeight * rPrev + rOne) / 100000000 := by
    rw [Int.fdiv_eq_ediv _ (by decide), hCOIN]
  have h3 : fitsInt64 ((pindexPrev.nHeight * rPrev + rOne) / 100000000) := by
    constructor <;> omega
  have h4 : fitsInt64 ((pindexPrev.nHeight * rPrev + rOne) / 100000000 * (5 * 1000000)) := by
    constructor <;> omega
  have h5 : fitsInt64
      (Int.tdiv ((pindexPrev.nHeight * rPrev + rOne) / 100000000 * (5 * 1000000)) d) :=
    fitsInt64_tdiv h4 hd0
  have hsub : Int.tdiv ((pindexPrev.nHeight * rPrev + rOne) / 100000000 * (5 * 1000000)) d =
      Int.fdiv ((pindexPrev.nHeight * rPrev + rOne) / 100000000 * 5000000) d := by
    rw [Int.tdiv_eq_ediv (by omega) hd0.le, Int.fdiv_eq_ediv _ hd0.le]
    norm_num
  have hrate : checked32 (5 * 1000000) = .ok (5 * 1000000) := checked32_of_fits (by decide)
  have hcoin : cdiv (pindexPrev.nHeight * rPrev + rOne) COIN =
      .ok ((pindexPrev.nHeight * rPrev + rOne) / 100000000) := by
    rw [cdiv_of_ne_zero _ (by decide), hq]
  have hdiv : cdiv ((pindexPrev.nHeight * rPrev + rOne) / 100000000 * (5 * 1000000)) d =
      .ok (Int.tdiv ((pindexPrev.nHeight * rPrev + rOne) / 100000000 * (5 * 1000000)) d) :=
    cdiv_of_ne_zero _ (by omega)
  simp only [GetProofOfStakeReward, hpow, Params, hPrev, hOne, hd,
    bind, Except.bind, pure, Except.pure, checked64_of_fits h1, checked64_of_fits h2, hcoin,
    checked64_of_fits h3, hrate, checked64_of_fits h4, hdiv, checked64_of_fits h5,
    Bool.not_false, if_true, Bool.and_false, Bool.false_eq_true, if_false, hsub, hqf]
  rw [hsub] at h5
  rw [checked64_of_fits h5]

/-- After a predecessor that is not proof-of-stake, a total that is no `int64_t` is an
overflow at line 89. -/
theorem GetProofOfStakeReward_after_pow_overflow (self g : CChainParams)
    (pindexPrev : CBlockIndex) (nFees : Int) (allowInitial : Bool) (rPrev rOne : Int)
    (hpow : pindexPrev.IsProofOfStake = false)
    (hPrev : GetInitialRewardsChecked pindexPrev.nHeight g.consensus = .ok rPrev)
    (hOne : GetInitialRewardsChecked 1 g.consensus = .ok rOne)
    (h2 : ¬ fitsInt64 (pindexPrev.nHeight * rPrev + rOne)) :
    GetProofOfStakeReward self (some g) pindexPrev nFees allowInitial =
      .error (.undefined "signed overflow") := by
  by_cases h1 : fitsInt64 (pindexPrev.nHeight * rPrev)
  · simp only [GetProofOfStakeReward, hpow, Params, hPrev, hOne,
      bind, Except.bind, pure, Except.pure, checked64_of_fits h1, checked64_of_not_fits h2,
      Bool.not_false, if_true]
  · simp only [GetProofOfStakeReward, hpow, Params, hPrev,
      bind, Except.bind, pure, Except.pure, checked64_of_not_fits h1, Bool.not_false, if_true]

/-- After a predecessor that is not proof-of-stake the flag `allowInitial` is not read. -/
theorem GetProofOfStakeReward_after_pow_flag (self : CChainParams)
    (globalChainParams : Option CChainParams) (pindexPrev : CBlockIndex) (nFees : Int)
    (hpow : pindexPrev.IsProofOfStake = false) :
    GetProofOfStakeReward self globalChainParams pindexPrev nFees true =
      GetProofOfStakeReward self globalChainParams pindexPrev nFees false := by
  simp only [GetProofOfStakeReward, hpow, Bool.and_false]

/-- The computation after a proof-of-stake predecessor, up to the final addition of the
fees, when the product of line 92 is an `int64_t`. -/
theorem GetProofOfStakeReward_after_pos (self : CChainParams)
    (globalChainParams : Option CChainParams) (pindexPrev : CBlockIndex) (nFees : Int)
    (allowInitial : Bool) (d : Int)
    (hpos : pindexPrev.IsProofOfStake = true) (hm : 0 ≤ pindexPrev.nMoneySupply)
    (hm' : pindexPrev.nMoneySupply ≤ 9223372036854775807)
    (hd : blocksPerYearChecked self.nTargetSpacing = .ok d) (hd0 : 0 < d)
    (hr : allowInitial = false → 0 ≤ self.nCoinYearReward)
    (hfit : fitsInt64 (Int.fdiv pindexPrev.nMoneySupply COIN * self.nCoinYearReward)) :
    GetProofOfStakeReward self globalChainParams pindexPrev nFees allowInitial =
      checked64 (Int.fdiv (Int.fdiv pindexPrev.nMoneySupply COIN *
          (if allowInitial then 5000000 else self.nCoinYearReward)) d + nFees) := by
  have hCOIN : COIN = 100000000 := rfl
  have hqf : Int.fdiv pindexPrev.nMoneySupply COIN = pindexPrev.nMoneySupply / 100000000 := by
    rw [Int.fdiv_eq_ediv _ (by decide), hCOIN]
  have hq : Int.tdiv pindexPrev.nMoneySupply COIN = pindexPrev.nMoneySupply / 100000000 := by
    rw [Int.tdiv_eq_ediv hm (by decide), hCOIN]
  rw [hqf] at hfit ⊢
  have h3 : fitsInt64 (pindexPrev.nMoneySupply / 100000000) := by
    constructor <;> omega
  have hcoin : cdiv pindexPrev.nMoneySupply COIN = .ok (pindexPrev.nMoneySupply / 100000000) := by
    rw [cdiv_of_ne_zero _ (by decide), hq]
  have hdiv1 := cdiv_of_ne_zero
    (pindexPrev.nMoneySupply / 100000000 * self.nCoinYearReward) (ne_of_gt hd0)
  have h5 := fitsInt64_tdiv hfit hd0
  cases allowInitial with
  | false =>
    have hr0 := hr rfl
    have hsub : Int.tdiv (pindexPrev.nMoneySupply / 100000000 * self.nCoinYearReward) d =
        Int.fdiv (pindexPrev.nMoneySupply / 100000000 * self.nCoinYearReward) d := by
      have hnn : 0 ≤ pindexPrev.nMoneySupply / 100000000 * self.nCoinYearReward :=
        mul_nonneg (by omega) hr0
      rw [Int.tdiv_eq_ediv hnn hd0.le, Int.fdiv_eq_ediv _ hd0.le]
    simp only [GetProofOfStakeReward, hpos, hd, hcoin, hdiv1,
      bind, Except.bind, pure, Except.pure, checked64_of_fits h3, checked64_of_fits hfit,
      checked64_of_fits h5, Bool.not_true, Bool.false_and, Bool.false_eq_true, if_false]
    rw [hsub]
  | true =>
    have h4 : fitsInt64 (pindexPrev.nMoneySupply / 100000000 * (5 * 1000000)) := by
      constructor <;> omega
    have h6 := fitsInt64_tdiv h4 hd0
    have hdiv2 := cdiv_of_ne_zero
      (pindexPrev.nMoneySupply / 100000000 * (5 * 1000000)) (ne_of_gt hd0)
    have hrate : checked32 (5 * 1000000) = .ok (5 * 1000000) := checked32_of_fits (by decide)
    have hsub : Int.tdiv (pindexPrev.nMoneySupply / 100000000 * (5 * 1000000)) d =
        Int.fdiv (pindexPrev.nMoneySupply / 100000000 * 5000000) d := by
      rw [Int.tdiv_eq_ediv (by omega) hd0.le, Int.fdiv_eq_ediv _ hd0.le]
      norm_num
    simp only [GetProofOfStakeReward, hpos, hd, hcoin, hdiv1,
      hdiv2, hrate, bind, Except.bind, pure, Except.pure, checked64_of_fits h3,
      checked64_of_fits hfit, checked64_of_fits h4, checked64_of_fits h5, checked64_of_fits h6,
      Bool.not_true, Bool.true_and, Bool.false_eq_true, if_false, if_true]
    rw [hsub]

/-- After a proof-of-stake predecessor, a product of line 92 that is no `int64_t` is an
overflow, whatever `allowInitial` is. -/
theorem GetProofOfStakeReward_after_pos_overflow (self : CChainParams)
    (globalChainParams : Option CChainParams) (pindexPrev : CBlockIndex) (nFees : Int)
    (allowInitial : Bool)
    (hpos : pindexPrev.IsProofOfStake = true) (hm : 0 ≤ pindexPrev.nMoneySupply)
    (hm' : pindexPrev.nMoneySupply ≤ 9223372036854775807)
    (hfit : ¬ fitsInt64 (Int.fdiv pindexPrev.nMoneySupply COIN * self.nCoinYearReward)) :
    GetProofOfStakeReward self globalChainParams pindexPrev nFees allowInitial =
      .error (.undefined "signed overflow") := by
  have hCOIN : COIN = 100000000 := rfl
  have hqf : Int.fdiv pindexPrev.nMoneySupply COIN = pindexPrev.nMoneySupply / 100000000 := by
    rw [Int.fdiv_eq_ediv _ (by decide), hCOIN]
  have hq : Int.tdiv pindexPrev.nMoneySupply COIN = pindexPrev.nMoneySupply / 100000000 := by
    rw [Int.tdiv_eq_ediv hm (by decide), hCOIN]
  rw [hqf] at hfit
  have h3 : fitsInt64 (pindexPrev.nMoneySupply / 100000000) := by
    constructor <;> omega
  have hcoin : cdiv pindexPrev.nMoneySupply COIN = .ok (pindexPrev.nMoneySupply / 100000000) := by
    rw [cdiv_of_ne_zero _ (by decide), hq]
  simp only [GetProofOfStakeReward, hpos, hcoin,
    bind, Except.bind, pure, Except.pure, checked64_of_fits h3, checked64_of_not_fits hfit,
    Bool.not_true, Bool.false_eq_true, if_false]

/-- C6, as stated, fails: with the halving interval 1,050,000 and the target spacing 120, a
predecessor of height 100 that is not proof-of-stake and fees 9,223,372,036,854,775,807, the
value of the claim is 723,105,022 + fees = 9,223,372,037,577,880,829, which is no
`int64_t`: the addition of line 99 overflows and the function returns no value, for either
`allowInitial`. -/
theorem C6_counterexample :
    (⟨100, 0, false⟩ : CBlockIndex).IsProofOfStake = false ∧
      GetInitialRewards 100 (paramsWithMainSpacing 0).consensus = .ok 6400000000 ∧
      GetInitialRewards 1 (paramsWithMainSpacing 0).consensus = .ok 3800000000000000 ∧
      (paramsWithMainSpacing 0).consensus.nSubsidyHalvingInterval = 1050000 ∧
      (paramsWithMainSpacing 0).nTargetSpacing = 120 ∧
      Int.fdiv (Int.fdiv (100 * 6400000000 + 3800000000000000) COIN * 5000000)
          (365 * 24 * Int.fdiv 3600 120) + 9223372036854775807 = 9223372037577880829 ∧
      ¬ fitsInt64 9223372037577880829 ∧
      GetProofOfStakeReward (paramsWithMainSpacing 0) (some (paramsWithMainSpacing 0))
          ⟨100, 0, false⟩ 9223372036854775807 true = .error (.undefined "signed overflow") ∧
      GetProofOfStakeReward (paramsWithMainSpacing 0) (some (paramsWithMainSpacing 0))
          ⟨100, 0, false⟩ 9223372036854775807 false = .error (.undefined "signed overflow") :=
  ⟨rfl, by decide, by decide, rfl, rfl, by decide, by decide, by decide, by decide⟩

/-- C6, amended: when the previous block is not proof-of-stake and has height p with
0 <= p <= 2,147,483,647, the halving interval of the active rule set is positive and the
target spacing s satisfies 0 < s <= 3600, write T for
p x GetInitialRewards(p) + GetInitialRewards(1) and V for
(T / COIN) x 5,000,000 / (365 x 24 x (3600 / s)) + fees, with floor divisions in that order.
If T and V are values of a signed 64-bit integer, `GetProofOfStakeReward` returns V; if T is
and V is not, the addition of the fees overflows, and if T is not, the computation of T
overflows: no value is returned.  The outcome is the same for `allowInitial` true and
false.  With the halving interval 1,050,000, T is a signed 64-bit value for every such p,
and for p = 100, fees = 10 x COIN and target spacing 120 the result is 1,723,105,022. -/
theorem C6_reward_after_pow_predecessor (self g : CChainParams) (pindexPrev : CBlockIndex)
    (nFees : Int) (allowInitial : Bool)
    (hpow : pindexPrev.IsProofOfStake = false) (hp : 0 ≤ pindexPrev.nHeight)
    (hp' : pindexPrev.nHeight ≤ 2147483647)
    (hI : 0 < g.consensus.nSubsidyHalvingInterval)
    (hs : 0 < self.nTargetSpacing) (hs' : self.nTargetSpacing ≤ 3600) :
    ∃ rPrev rOne, GetInitialRewards pindexPrev.nHeight g.consensus = .ok rPrev ∧
      GetInitialRewards 1 g.consensus = .ok rOne ∧
      (fitsInt64 (pindexPrev.nHeight * rPrev + rOne) →
        fitsInt64 (Int.fdiv (Int.fdiv (pindexPrev.nHeight * rPrev + rOne) COIN * 5000000)
              (365 * 24 * Int.fdiv 3600 self.nTargetSpacing) + nFees) →
        GetProofOfStakeReward self (some g) pindexPrev nFees allowInitial =
          .ok (Int.fdiv (Int.fdiv (pindexPrev.nHeight * rPrev + rOne) COIN * 5000000)
                (365 * 24 * Int.fdiv 3600 self.nTargetSpacing) + nFees)) ∧
      (fitsInt64 (pindexPrev.nHeight * rPrev + rOne) →
        ¬ fitsInt64 (Int.fdiv (Int.fdiv (pindexPrev.nHeight * rPrev + rOne) COIN * 5000000)
              (365 * 24 * Int.fdiv 3600 self.nTargetSpacing) + nFees) →
        GetProofOfStakeReward self (some g) pindexPrev nFees allowInitial =
          .error (.undefined "signed overflow")) ∧
      (¬ fitsInt64 (pindexPrev.nHeight * rPrev + rOne) →
        GetProofOfStakeReward self (some g) pindexPrev nFees allowInitial =
          .error (.undefined "signed overflow")) ∧
      GetProofOfStakeReward self (some g) pindexPrev nFees true =
        GetProofOfStakeReward self (some g) pindexPrev nFees false ∧
      (g.consensus.nSubsidyHalvingInterval = 1050000 →
        fitsInt64 (pindexPrev.nHeight * rPrev + rOne)) ∧
      (g.consensus.nSubsidyHalvingInterval = 1050000 → self.nTargetSpacing = 120 →
        pindexPrev.nHeight = 100 → nFees = 10 * COIN →
        GetProofOfStakeReward self (some g) pindexPrev nFees allowInitial = .ok 1723105022) := by
  obtain ⟨rPrev, hPrev, hPrev0⟩ := GetInitialRewards_nonneg pindexPrev.nHeight g.consensus hI hp
  have hOne := GetInitialRewards_one g.consensus hI
  have hOne0 : (0 : Int) ≤ 38000000 * COIN := by decide
  have hcPrev := GetInitialRewardsChecked_eq pindexPrev.nHeight g.consensus hI hp hp'
  have hcOne := GetInitialRewardsChecked_eq 1 g.consensus hI (by norm_num) (by norm_num)
  rw [hPrev] at hcPrev
  rw [hOne] at hcOne
  obtain ⟨hd, hd0⟩ := blocksPerYearChecked_eq hs hs'
  have hr0 : 0 ≤ pindexPrev.nHeight * rPrev := mul_nonneg hp hPrev0
  have key := fun hfit => GetProofOfStakeReward_after_pow self g pindexPrev nFees allowInitial
    rPrev (38000000 * COIN) _ hpow hcPrev hcOne hd hd0 hr0 hOne0 hfit
  have hmain : g.consensus.nSubsidyHalvingInterval = 1050000 →
      fitsInt64 (pindexPrev.nHeight * rPrev + 38000000 * COIN) := by
    intro eI
    obtain ⟨r, hr, _, hlo, hhi⟩ := height_times_reward_bound g.consensus pindexPrev.nHeight eI hp
    rw [hPrev] at hr
    have e := Except.ok.inj hr
    subst e
    have hOneV : (38000000 * COIN : Int) = 3800000000000000 := by decide
    constructor <;> omega
  refine ⟨rPrev, 38000000 * COIN, hPrev, hOne, ?_, ?_, ?_,
    GetProofOfStakeReward_after_pow_flag self (some g) pindexPrev nFees hpow, hmain, ?_⟩
  · intro hT hV
    rw [key hT, checked64_of_fits hV]
  · intro hT hV
    rw [key hT, checked64_of_not_fits hV]
  · intro hT
    exact GetProofOfStakeReward_after_pow_overflow self g pindexPrev nFees allowInitial rPrev
      (38000000 * COIN) hpow hcPrev hcOne hT
  · intro eI eS eH eF
    have hval := GetInitialRewards_eq pindexPrev.nHeight g.consensus hI hp
    rw [hPrev, eI, eH] at hval
    have hr : rPrev = 6400000000 := by
      have := Except.ok.inj hval
      rw [this]
      decide
    rw [key (hmain eI), hr, eS, eH, eF]
    decide

theorem C6_reward_after_pow_predecessor_witness :
    (⟨100, 0, false⟩ : CBlockIndex).IsProofOfStake = false ∧
      0 ≤ (⟨100, 0, false⟩ : CBlockIndex).nHeight ∧
      (⟨100, 0, false⟩ : CBlockIndex).nHeight ≤ 2147483647 ∧
      0 < (paramsWithMainSpacing 0).consensus.nSubsidyHalvingInterval ∧
      0 < (paramsWithMainSpacing 0).nTargetSpacing ∧
      (paramsWithMainSpacing 0).nTargetSpacing ≤ 3600 ∧
      GetProofOfStakeReward (paramsWithMainSpacing 0) (some (paramsWithMainSpacing 0))
        ⟨100, 0, false⟩ (10 * COIN) true = .ok 1723105022 :=
  ⟨by decide, by decide, by decide, by decide, by decide, by decide,
    (C6_reward_after_pow_predecessor (paramsWithMainSpacing 0) (paramsWithMainSpacing 0)
      ⟨100, 0, false⟩ (10 * COIN) true (by decide) (by decide) (by decide) (by decide)
      (by decide) (by decide)).elim fun _ h => h.elim fun _ h => h.2.2.2.2.2.2.2 rfl rfl rfl rfl⟩

/-- C7, as stated, fails: with the target spacing 120, a proof-of-stake predecessor with
money supply 500000 x COIN, `allowInitial` true and fees 9,223,372,036,854,775,807, the
value of the claim is 9,512,937 + fees = 9,223,372,036,864,288,744, which is no `int64_t`:
the addition of line 99 overflows and the function returns no value. -/
theorem C7_counterexample :
    (⟨100, 500000 * COIN, true⟩ : CBlockIndex).IsProofOfStake = true ∧
      0 ≤ (⟨100, 500000 * COIN, true⟩ : CBlockIndex).nMoneySupply ∧
      (paramsWithMainSpacing 1000000).nTargetSpacing = 120 ∧
      Int.fdiv (Int.fdiv (500000 * COIN) COIN * 5000000) (365 * 24 * Int.fdiv 3600 120)
          + 9223372036854775807 = 9223372036864288744 ∧
      ¬ fitsInt64 9223372036864288744 ∧
      GetProofOfStakeReward (paramsWithMainSpacing 1000000) none
          ⟨100, 500000 * COIN, true⟩ 9223372036854775807 true =
        .error (.undefined "signed overflow") :=
  ⟨rfl, by decide, rfl, by decide, by decide, by decide⟩

/-- C7, amended: when the previous block is proof-of-stake with recorded money supply m,
0 <= m <= 9,223,372,036,854,775,807, the target spacing s satisfies 0 < s <= 3600 and, for
`allowInitial` false, the configured coin-year reward is not negative, write P for
(m / COIN) x coin-year reward, the product of line 92 that is computed for either
`allowInitial`, and V for (m / COIN) x rate / (365 x 24 x (3600 / s)) + fees with floor
division, where rate is the coin-year reward when `allowInitial` is false and 5,000,000 when
it is true.  If P and V are values of a signed 64-bit integer, `GetProofOfStakeReward`
returns V; if P is and V is not, the addition of the fees overflows, and if P is not, line
92 overflows: no value is returned.  For m = 500000 x COIN, fees = 10 x COIN, target
spacing 120, `allowInitial` = true and a coin-year reward whose product with 500000 is a
signed 64-bit value, the result is 1,009,512,937. -/
theorem C7_reward_after_pos_predecessor (self : CChainParams)
    (globalChainParams : Option CChainParams) (pindexPrev : CBlockIndex)
    (nFees : Int) (allowInitial : Bool)
    (hpos : pindexPrev.IsProofOfStake = true) (hm : 0 ≤ pindexPrev.nMoneySupply)
    (hm' : pindexPrev.nMoneySupply ≤ 9223372036854775807)
    (hs : 0 < self.nTargetSpacing) (hs' : self.nTargetSpacing ≤ 3600)
    (hr : allowInitial = false → 0 ≤ self.nCoinYearReward) :
    (fitsInt64 (Int.fdiv pindexPrev.nMoneySupply COIN * self.nCoinYearReward) →
        fitsInt64 (Int.fdiv (Int.fdiv pindexPrev.nMoneySupply COIN *
                (if allowInitial then 5000000 else self.nCoinYearReward))
              (365 * 24 * Int.fdiv 3600 self.nTargetSpacing) + nFees) →
        GetProofOfStakeReward self globalChainParams pindexPrev nFees allowInitial =
          .ok (Int.fdiv (Int.fdiv pindexPrev.nMoneySupply COIN *
                  (if allowInitial then 5000000 else self.nCoinYearReward))
                (365 * 24 * Int.fdiv 3600 self.nTargetSpacing) + nFees)) ∧
      (fitsInt64 (Int.fdiv pindexPrev.nMoneySupply COIN * self.nCoinYearReward) →
        ¬ fitsInt64 (Int.fdiv (Int.fdiv pindexPrev.nMoneySupply COIN *
                (if allowInitial then 5000000 else self.nCoinYearReward))
              (365 * 24 * Int.fdiv 3600 self.nTargetSpacing) + nFees) →
        GetProofOfStakeReward self globalChainParams pindexPrev nFees allowInitial =
          .error (.undefined "signed overflow")) ∧
      (¬ fitsInt64 (Int.fdiv pindexPrev.nMoneySupply COIN * self.nCoinYearReward) →
        GetProofOfStakeReward self globalChainParams pindexPrev nFees allowInitial =
          .error (.undefined "signed overflow")) ∧
      (self.nTargetSpacing = 120 → pindexPrev.nMoneySupply = 500000 * COIN →
        nFees = 10 * COIN → allowInitial = true →
        fitsInt64 (500000 * self.nCoinYearReward) →
        GetProofOfStakeReward self globalChainParams pindexPrev nFees allowInitial =
          .ok 1009512937) := by
  obtain ⟨hd, hd0⟩ := blocksPerYearChecked_eq hs hs'
  have key := GetProofOfStakeReward_after_pos self globalChainParams pindexPrev nFees
    allowInitial _ hpos hm hm' hd hd0 hr
  refine ⟨?_, ?_, ?_, ?_⟩
  · intro hP hV
    rw [key hP, checked64_of_fits hV]
  · intro hP hV
    rw [key hP, checked64_of_not_fits hV]
  · intro hP
    exact GetProofOfStakeReward_after_pos_overflow self globalChainParams pindexPrev nFees
      allowInitial hpos hm hm' hP
  · intro eS eM eF eA hP
    have hq : Int.fdiv (500000 * COIN) COIN = 500000 := by decide
    have hP' : fitsInt64 (Int.fdiv pindexPrev.nMoneySupply COIN * self.nCoinYearReward) := by
      rw [eM, hq]
      exact hP
    rw [key hP', eS, eM, eF, eA, if_pos rfl]
    decide

theorem C7_reward_after_pos_predecessor_witness :
    (⟨100, 500000 * COIN, true⟩ : CBlockIndex).IsProofOfStake = true ∧
      0 ≤ (⟨100, 500000 * COIN, true⟩ : CBlockIndex).nMoneySupply ∧
      (⟨100, 500000 * COIN, true⟩ : CBlockIndex).nMoneySupply ≤ 9223372036854775807 ∧
      0 < (paramsWithMainSpacing 1000000).nTargetSpacing ∧
      (paramsWithMainSpacing 1000000).nTargetSpacing ≤ 3600 ∧
      fitsInt64 (500000 * (paramsWithMainSpacing 1000000).nCoinYearReward) ∧
      GetProofOfStakeReward (paramsWithMainSpacing 1000000) none
        ⟨100, 500000 * COIN, true⟩ (10 * COIN) true = .ok 1009512937 :=
  ⟨by decide, by decide, by decide, by decide, by decide, by decide,
    (C7_reward_after_pos_predecessor (paramsWithMainSpacing 1000000) none
      ⟨100, 500000 * COIN, true⟩ (10 * COIN) true (by decide) (by decide) (by decide)
      (by decide) (by decide) (by decide)).2.2.2 rfl rfl rfl rfl (by decide)⟩
end Nix
